import Mathlib

/-! # DCP parser: shallow embedding and verified properties

The Go package `dcp` reads a Digital Cinema Package: an asset map, the
composition playlists and packing lists it refers to, and the essence files.
This file embeds the package's functions as Lean definitions and proves
properties of them.

Modelling conventions:
* Go `string` is `String`, `[]byte` is `List Nat` (one entry per byte).
* `uint64` and `uint8` are `Nat`; additions are reduced modulo `2 ^ 64` where
  the source adds in `uint64`.
* `AssetType`, `Format` and `ContentKind` are Go `int` types, here `Int`.
* A method with a pointer receiver that returns `error` becomes a function
  returning the receiver's new state together with `Option Err`.
* The standard library is not part of the package: the XML decoder and the
  path functions are fields of `Env`, the file system is the `node` field, and
  regular expressions are run by a small derivative matcher.
-/

namespace Dcp

/-! ## Regular expressions (the fragment of Go `regexp` the package uses) -/

/-- Regular expression bodies. `dot` is the pattern `.`, which in Go matches
any character except a newline. -/
inductive Regex where
  | none : Regex
  | eps : Regex
  | lit : Char → Regex
  | dot : Regex
  | cat : Regex → Regex → Regex
  | alt : Regex → Regex → Regex
  | star : Regex → Regex
  deriving DecidableEq, Repr

namespace Regex

/-- The newline character, the only one `.` rejects. -/
def newline : Char := Char.ofNat 10

/-- A literal string as a regular expression. -/
def str : List Char → Regex
  | [] => eps
  | c :: cs => cat (lit c) (str cs)

/-- Whether the expression accepts the empty string. -/
def nullable : Regex → Bool
  | none => false
  | eps => true
  | lit _ => false
  | dot => false
  | cat r t => nullable r && nullable t
  | alt r t => nullable r || nullable t
  | star _ => true

/-- Brzozowski derivative with respect to one character. -/
def deriv : Regex → Char → Regex
  | none, _ => none
  | eps, _ => none
  | lit c, a => if a = c then eps else none
  | dot, a => if a = newline then none else eps
  | cat r t, a =>
    if nullable r then alt (cat (deriv r a) t) (deriv t a) else cat (deriv r a) t
  | alt r t, a => alt (deriv r a) (deriv t a)
  | star r, a => cat (deriv r a) (star r)

/-- Whether the whole input is accepted. -/
def matchFull : Regex → List Char → Bool
  | r, [] => nullable r
  | r, a :: s => matchFull (deriv r a) s

/-- The language of an expression, as a predicate. -/
def lang : Regex → List Char → Prop
  | none, _ => False
  | eps, s => s = []
  | lit c, s => s = [c]
  | dot, s => ∃ c, c ≠ newline ∧ s = [c]
  | cat r t, s => ∃ u v, s = u ++ v ∧ lang r u ∧ lang t v
  | alt r t, s => lang r s ∨ lang t s
  | star r, s => ∃ L : List (List Char), s = L.flatten ∧ ∀ u ∈ L, lang r u

end Regex

/-- A compiled pattern: a body, with `^` in front when `anchorStart` and `$`
behind when `anchorEnd`. Without the multi-line flag `^` and `$` match only
at the beginning and the end of the text. -/
structure Regexp where
  anchorStart : Bool
  body : Regex
  anchorEnd : Bool

/-- Go `(*Regexp).MatchString`: some substring of `s`, placed as the anchors
demand, is accepted by the body. -/
def Regexp.MatchString (re : Regexp) (s : String) : Bool :=
  (if re.anchorStart then [s.data] else s.data.tails).any fun t =>
    if re.anchorEnd then re.body.matchFull t else t.inits.any re.body.matchFull

/-! ## types.go -/

/-- Go `type Format int`. -/
abbrev Format := Int

/-- Format constant `UNKNOWN` (iota 0). -/
abbrev UNKNOWN : Format := 0
/-- Format constant `INTEROP`. -/
abbrev INTEROP : Format := 1
/-- Format constant `SMPTE`. -/
abbrev SMPTE : Format := 2

/-- Go `type AssetType int`. -/
abbrev AssetType := Int

/-- Asset type constant (iota 0). -/
abbrev UnknownAssetType : AssetType := 0
/-- Asset type constant 1. -/
abbrev CPLAssetType : AssetType := 1
/-- Asset type constant 2. -/
abbrev PKLAssetType : AssetType := 2
/-- Asset type constant 3. -/
abbrev MXFAssetType : AssetType := 3
/-- Asset type constant 4. -/
abbrev MXFPictureAssetType : AssetType := 4
/-- Asset type constant 5. -/
abbrev MXFSoundAssetType : AssetType := 5

/-- Checks if an asset is an MXF file. -/
def IsMxf (assetType : AssetType) : Bool :=
  decide (assetType ≥ MXFAssetType) && decide (assetType ≤ MXFSoundAssetType)

/-! ## Values shared by the parsers -/

/-- Go `[]byte`. -/
abbrev Bytes := List Nat

/-- Go `time.Time`, kept as the instant it denotes. -/
structure Time where
  unixNano : Int
  deriving DecidableEq, Repr

/-- The modulus of `uint64` arithmetic. -/
abbrev u64 : Nat := 2 ^ 64

/-- Go `error` values: `os` for an error of an `os` or `ioutil` call on a
path, `eof` for `io.EOF`, `xml` for an error of `xml.Unmarshal`, and `new`
for `errors.New` with its message. -/
inductive Err where
  | os (op path : String)
  | eof
  | xml (msg : String)
  | new (msg : String)
  deriving DecidableEq, Repr

/-! ## assetmap.go -/

/-- Chunk is a single file and a component of an asset. `Size` is the
`Length` element, a `uint64`. -/
structure Chunk where
  Path : String
  Size : Nat
  deriving DecidableEq, Repr

/-- AMAsset is an asset map asset. The field `Type` of the source is `Typ`
here, as `Type` is reserved. -/
structure AMAsset where
  ID : String
  Typ : AssetType
  Chunks : List Chunk
  deriving DecidableEq, Repr

/-- AssetMap is the struct produced by the parser. -/
structure AssetMap where
  Format : Format
  ID : String
  Creator : String
  VolumeCount : Nat
  Issuer : String
  IssueDate : Time
  Assets : List AMAsset
  deriving DecidableEq, Repr

/-- Size returns the total size of an asset: the loop `size += chunk.Size`
in `uint64`. -/
def AMAsset.Size (a : AMAsset) : Nat :=
  a.Chunks.foldl (fun size chunk => (size + chunk.Size) % u64) 0

/-- Paths returns all file paths of an asset. -/
def AMAsset.Paths (a : AMAsset) : List String :=
  a.Chunks.foldl (fun paths chunk => paths ++ [chunk.Path]) []

/-- Size is the summed size of all the assets referenced by the asset map:
the loop `totalSize += asset.Size()` in `uint64`. -/
def AssetMap.Size (am : AssetMap) : Nat :=
  am.Assets.foldl (fun totalSize asset => (totalSize + asset.Size) % u64) 0

/-- Paths returns all asset file paths. -/
def AssetMap.Paths (am : AssetMap) : List String :=
  am.Assets.foldl (fun paths asset => paths ++ asset.Paths) []

/-- The struct the asset element of the XML is unmarshalled into. -/
structure assetXML where
  ID : String
  PackingList : String
  Chunks : List Chunk
  deriving DecidableEq, Repr

/-- The struct the asset map XML is unmarshalled into. -/
structure assetMapXML where
  Xmlns : String
  ID : String
  Creator : String
  VolumeCount : Nat
  IssueDate : Time
  Issuer : String
  Assets : List assetXML
  deriving DecidableEq, Repr

/-- The pattern `(cpl|CPL)(.xml|.XML)$`. -/
def cplRegExp : Regexp :=
  { anchorStart := false
    body := .cat (.alt (.str "cpl".data) (.str "CPL".data))
      (.alt (.cat .dot (.str "xml".data)) (.cat .dot (.str "XML".data)))
    anchorEnd := true }

/-- The pattern `(pkl|PKL)(.xml|.XML)$`. -/
def pklRegExp : Regexp :=
  { anchorStart := false
    body := .cat (.alt (.str "pkl".data) (.str "PKL".data))
      (.alt (.cat .dot (.str "xml".data)) (.cat .dot (.str "XML".data)))
    anchorEnd := true }

/-- The pattern `(.mxf|.MXF)$`. -/
def mxfRegExp : Regexp :=
  { anchorStart := false
    body := .alt (.cat .dot (.str "mxf".data)) (.cat .dot (.str "MXF".data))
    anchorEnd := true }

/-- One iteration of the loop of `guessAssetType` over the chunks. -/
def guessStep (assetType : AssetType) (chunk : Chunk) : AssetType :=
  if cplRegExp.MatchString chunk.Path then CPLAssetType
  else if pklRegExp.MatchString chunk.Path then PKLAssetType
  else if mxfRegExp.MatchString chunk.Path then MXFAssetType
  else assetType

/-- Attempt to guess the asset type; it may be wrong. -/
def guessAssetType (aXML : assetXML) : AssetType :=
  if aXML.PackingList = "true" then PKLAssetType
  else aXML.Chunks.foldl guessStep UnknownAssetType

/-- Creates an AssetMap from a raw assetMapXML. The returned error is
always nil, so the result is the asset map itself. -/
def makeAssetMap (amXML : assetMapXML) : Except Err AssetMap :=
  let format : Format :=
    if amXML.Xmlns = "http://www.digicine.com/PROTO-ASDCP-AM-20040311#" then INTEROP
    else if amXML.Xmlns = "http://www.smpte-ra.org/schemas/429-9/2007/AM" then SMPTE
    else UNKNOWN
  .ok
    { Format := format
      ID := amXML.ID
      Creator := amXML.Creator
      VolumeCount := amXML.VolumeCount
      IssueDate := amXML.IssueDate
      Issuer := amXML.Issuer
      Assets := amXML.Assets.foldl
        (fun assets aXML => assets ++ [AMAsset.mk aXML.ID (guessAssetType aXML) aXML.Chunks]) [] }

/-! ## cpl.go -/

/-- ContentKind is the type of content referenced by a CPL (Go `int`). -/
abbrev ContentKind := Int

/-- Content kind constant (iota 0). -/
abbrev unkownCPLKind : ContentKind := 0
/-- Content kind constant 1. -/
abbrev testCPLKind : ContentKind := 1
/-- Content kind constant 2. -/
abbrev featureCPLKind : ContentKind := 2
/-- Content kind constant 3. -/
abbrev advertisementCPLKind : ContentKind := 3

/-- Asset is a CPL asset. -/
structure Asset where
  ID : String
  AnnotationText : String
  EditRate : String
  IntrinsicDuration : Nat
  EntryPoint : Nat
  Duration : Nat
  deriving DecidableEq, Repr

/-- Picture is a specific form of a CPL asset. -/
structure Picture extends Asset where
  FrameRate : String
  ScreenAspectRatio : String
  deriving DecidableEq, Repr

/-- Sound is a specific form of a CPL asset. -/
structure Sound extends Asset where
  Language : String
  deriving DecidableEq, Repr

/-- Subtitle is a specific form of a CPL asset. -/
structure Subtitle extends Asset where
  Language : String
  deriving DecidableEq, Repr

/-- Reel is a reel from a CPL; a nil pointer is `none`. -/
structure Reel where
  ID : String
  Picture : Option Picture
  Sound : Option Sound
  Subtitle : Option Subtitle
  deriving DecidableEq, Repr

/-- CPL struct is returned by the parser. -/
structure CPL where
  Format : Format
  ID : String
  AnnotationText : String
  Creator : String
  ContentTitleText : String
  IssueDate : Time
  ContentKind : ContentKind
  Reels : List Reel
  deriving DecidableEq, Repr

/-- Pictures returns all the picture assets in a CPL. -/
def CPL.Pictures (cpl : CPL) : List Picture :=
  cpl.Reels.foldl
    (fun pictures reel =>
      match reel.Picture with
      | some p => pictures ++ [p]
      | none => pictures) []

/-- Sounds returns all the sound assets in a CPL. -/
def CPL.Sounds (cpl : CPL) : List Sound :=
  cpl.Reels.foldl
    (fun sounds reel =>
      match reel.Sound with
      | some p => sounds ++ [p]
      | none => sounds) []

/-- Subtitles returns all the subtitle assets in a CPL. -/
def CPL.Subtitles (cpl : CPL) : List Subtitle :=
  cpl.Reels.foldl
    (fun subtitles reel =>
      match reel.Subtitle with
      | some p => subtitles ++ [p]
      | none => subtitles) []

/-- The struct the CPL XML is unmarshalled into. -/
structure cplXML where
  Xmlns : String
  ID : String
  AnnotationText : String
  IssueDate : Time
  Creator : String
  ContentTitleText : String
  ContentKind : String
  Reels : List Reel
  deriving DecidableEq, Repr

/-- Creates a CPL from a raw cplXML. -/
def makeCPL (x : cplXML) : Except Err CPL :=
  let format : Format :=
    if x.Xmlns = "http://www.digicine.com/PROTO-ASDCP-CPL-20040511#" then INTEROP
    else if x.Xmlns = "http://www.smpte-ra.org/schemas/429-7/2006/CPL" then SMPTE
    else UNKNOWN
  let kind : ContentKind :=
    if x.ContentKind = "test" then testCPLKind
    else if x.ContentKind = "feature" then featureCPLKind
    else if x.ContentKind = "advertisement" then advertisementCPLKind
    else unkownCPLKind
  .ok
    { Format := format
      ID := x.ID
      AnnotationText := x.AnnotationText
      Creator := x.Creator
      ContentTitleText := x.ContentTitleText
      IssueDate := x.IssueDate
      ContentKind := kind
      Reels := x.Reels }

/-! ## pkl.go -/

/-- PKLAsset is an asset found inside a PKL; `Typ` is the field `Type`. -/
structure PKLAsset where
  ID : String
  AnnotationText : String
  Hash : String
  Size : Nat
  MimeType : String
  Typ : AssetType
  deriving DecidableEq, Repr

/-- PKL is returned from the parser. -/
structure PKL where
  ID : String
  AnnotationText : String
  IssueDate : Time
  Issuer : String
  Creator : String
  Assets : List PKLAsset
  deriving DecidableEq, Repr

/-- The body of the loop of `ParsePKL`: the switch on the MIME type. -/
def assignType (asset : PKLAsset) : PKLAsset :=
  if asset.MimeType = "application/x-smpte-mxf;asdcpKind=Picture" then
    { asset with Typ := MXFPictureAssetType }
  else if asset.MimeType = "application/x-smpte-mxf;asdcpKind=Sound" then
    { asset with Typ := MXFSoundAssetType }
  else if asset.MimeType = "text/xml;asdcpKind=CPL" then
    { asset with Typ := CPLAssetType }
  else asset

/-! ## The standard library the package calls -/

/-- What a path names on disk: a regular file with its bytes and whether it
may be opened for reading, or a directory with its entry names in listing
order and the size `os.Stat` reports for it. -/
inductive Node where
  | file (content : Bytes) (readable : Bool)
  | dir (names : List String) (size : Nat)
  deriving DecidableEq, Repr

/-- The environment of a run: the file system, `filepath.Join`,
`filepath.Base`, and `xml.Unmarshal` at the three target types (its error is
the message). -/
structure Env where
  node : String → Option Node
  Join : String → String → String
  Base : String → String
  unmarshalAssetMap : Bytes → Except String assetMapXML
  unmarshalCPL : Bytes → Except String cplXML
  unmarshalPKL : Bytes → Except String PKL

/-- Go `os.Stat` followed by `info.Size()`. -/
def osStat (env : Env) (name : String) : Except Err Nat :=
  match env.node name with
  | none => .error (.os "stat" name)
  | some (.file content _) => .ok content.length
  | some (.dir _ size) => .ok size

/-- Go `os.Open`. -/
def osOpen (env : Env) (name : String) : Except Err Node :=
  match env.node name with
  | none => .error (.os "open" name)
  | some (.file content readable) =>
    if readable then .ok (.file content readable) else .error (.os "open" name)
  | some (.dir names size) => .ok (.dir names size)

/-- Go `(*File).Read` on a file just opened: fills the front of `data` with
the bytes that are there, leaves the rest of `data` as it was, and reports
`io.EOF` when there is nothing to read. Reading a directory fails. -/
def fileRead (file : Node) (name : String) (data : Bytes) : Bytes × Option Err :=
  match file with
  | .dir _ _ => (data, some (.os "read" name))
  | .file content _ =>
    if data.length = 0 then (data, none)
    else if content.length = 0 then (data, some .eof)
    else (content.take data.length ++ data.drop content.length, none)

/-- Go `ioutil.ReadFile`. -/
def ioutilReadFile (env : Env) (name : String) : Except Err Bytes :=
  match env.node name with
  | some (.file content true) => .ok content
  | _ => .error (.os "open" name)

/-- Go `ioutil.ReadDir`, giving the entry names. -/
def ioutilReadDir (env : Env) (name : String) : Except Err (List String) :=
  match env.node name with
  | some (.dir names _) => .ok names
  | _ => .error (.os "open" name)

/-- Go `[]byte(s)`: the UTF-8 bytes of a string. -/
def bytesOfString (s : String) : Bytes :=
  s.data.flatMap fun c => (String.utf8EncodeChar c).map UInt8.toNat

/-- Go `bytes.HasPrefix`. -/
def bytesStartsWith (s pre : Bytes) : Bool :=
  decide (pre.length ≤ s.length) && decide (s.take pre.length = pre)

/-- Go `bytes.Contains`: `subslice` occurs at some position of `b`. -/
def bytesContains (b subslice : Bytes) : Bool :=
  b.tails.any fun t => bytesStartsWith t subslice

/-! ## The remaining parsers of assetmap.go, cpl.go and pkl.go -/

/-- ParseAssetMap parses an asset map XML string. -/
def ParseAssetMap (env : Env) (xmlStr : Bytes) : Except Err AssetMap :=
  match env.unmarshalAssetMap xmlStr with
  | .error m => .error (.xml m)
  | .ok amXML => makeAssetMap amXML

/-- ParseAssetMapFile parses an asset map xml file. -/
def ParseAssetMapFile (env : Env) (amFilename : String) : Except Err AssetMap :=
  match ioutilReadFile env amFilename with
  | .error e => .error e
  | .ok xmlStr => ParseAssetMap env xmlStr

/-- ParseCPL parses a CPL XML string. -/
def ParseCPL (env : Env) (xmlStr : Bytes) : Except Err CPL :=
  match env.unmarshalCPL xmlStr with
  | .error m => .error (.xml m)
  | .ok x => makeCPL x

/-- ParseCPLFile parses a CPL XML file. -/
def ParseCPLFile (env : Env) (filename : String) : Except Err CPL :=
  match ioutilReadFile env filename with
  | .error e => .error e
  | .ok xmlStr => ParseCPL env xmlStr

/-- ParsePKL parses a PKL XML string. -/
def ParsePKL (env : Env) (xmlBytes : Bytes) : Except Err PKL :=
  match env.unmarshalPKL xmlBytes with
  | .error m => .error (.xml m)
  | .ok pkl => .ok { pkl with Assets := pkl.Assets.map assignType }

/-- ParsePKLFile parses a PKL XML file. -/
def ParsePKLFile (env : Env) (filename : String) : Except Err PKL :=
  match ioutilReadFile env filename with
  | .error e => .error e
  | .ok xmlStr => ParsePKL env xmlStr

/-! ## dcp.go -/

/-- DCP represents all the components found within a DCP. The pointer
`AssetMap` is nil on a fresh value. -/
structure DCP where
  RootDir : String
  AssetMap : Option AssetMap
  CPLs : List CPL
  PKLs : List PKL
  assetMapFile : String
  deriving DecidableEq, Repr

/-- The zero value `DCP{}`. -/
def DCP.empty : DCP :=
  { RootDir := "", AssetMap := none, CPLs := [], PKLs := [], assetMapFile := "" }

/-- Format returns the format of the DCP; a nil `AssetMap` is a nil
dereference, here `none`. -/
def DCP.Format (dcp : DCP) : Option Format :=
  dcp.AssetMap.map fun am => am.Format

/-- Files returns the physical files that comprise the DCP; a nil `AssetMap`
is a nil dereference, here `none`. -/
def DCP.Files (dcp : DCP) : Option (List String) :=
  dcp.AssetMap.map fun am => [dcp.assetMapFile] ++ am.Paths

/-- The pattern `^(assetmap|ASSETMAP)(.xml|.XML)*$` of `findAssetMap`. -/
def assetMapRegExp : Regexp :=
  { anchorStart := true
    body := .cat (.alt (.str "assetmap".data) (.str "ASSETMAP".data))
      (.star (.alt (.cat .dot (.str "xml".data)) (.cat .dot (.str "XML".data))))
    anchorEnd := true }

/-- The function findAssetMap looks in a directory for an assetmap and if
found returns its path. -/
def findAssetMap (env : Env) (dir : String) : Except Err String :=
  match ioutilReadDir env dir with
  | .error e => .error e
  | .ok files =>
    match files.find? fun f => assetMapRegExp.MatchString f with
    | some f => .ok (env.Join dir f)
    | none => .error (.new "Unable to find an assetmap file")

/-- Check if a file exists and that it is the correct size; `none` is the
nil error. `info.Size()` is an `int64` that is never negative, so the
conversion `uint64(fileSize)` leaves the length as it is. -/
def checkFileSize (env : Env) (filename : String) (size : Nat) : Option Err :=
  match osStat env filename with
  | .error e => some e
  | .ok fileSize =>
    if fileSize ≠ size then
      some (.new ("File size for" ++ filename ++ " is incorrect"))
    else none

/-- The starting bytes of an audio or picture MXF file. -/
def mxfHeader : Bytes :=
  [6, 14, 43, 52, 2, 5, 1, 1, 13, 1, 2, 1, 1, 2,
    4, 0, 131, 0, 0, 120, 0, 1, 0, 2, 0, 0, 0, 1]

/-- The function readHeader reads the first 100 bytes from a file; the
buffer is returned together with the error. -/
def readHeader (env : Env) (filepath : String) : Bytes × Option Err :=
  let data : Bytes := List.replicate 100 0
  match osOpen env filepath with
  | .error e => (data, some e)
  | .ok file => fileRead file filepath data

/-- Determine the asset type from the file. -/
def assetType (env : Env) (filepath : String) : AssetType :=
  match readHeader env filepath with
  | (_, some _) => UnknownAssetType
  | (data, none) =>
    if bytesContains data (bytesOfString "PackingList") then PKLAssetType
    else if bytesContains data (bytesOfString "CompositionPlaylist") then CPLAssetType
    else if bytesStartsWith data mxfHeader then MXFAssetType
    else UnknownAssetType

/-- The body of the inner loop of `Generate` for one chunk: the receiver
after it, and the error when the body returns one. -/
def generateChunk (env : Env) (dir : String) (dcp : DCP) (chunk : Chunk) :
    DCP × Option Err :=
  let assetPath := env.Join dir chunk.Path
  match checkFileSize env assetPath chunk.Size with
  | some err => (dcp, some err)
  | none =>
    let aType := assetType env assetPath
    let afterCPL : DCP × Option Err :=
      if aType = CPLAssetType then
        match ParseCPLFile env assetPath with
        | .error err => (dcp, some err)
        | .ok cpl => ({ dcp with CPLs := dcp.CPLs ++ [cpl] }, none)
      else (dcp, none)
    match afterCPL with
    | (dcp1, some err) => (dcp1, some err)
    | (dcp1, none) =>
      if aType = PKLAssetType then
        match ParsePKLFile env assetPath with
        | .error err => (dcp1, some err)
        | .ok pkl => ({ dcp1 with PKLs := dcp1.PKLs ++ [pkl] }, none)
      else (dcp1, none)

/-- The inner loop of `Generate`, over the chunks of one asset. -/
def generateChunks (env : Env) (dir : String) : DCP → List Chunk → DCP × Option Err
  | dcp, [] => (dcp, none)
  | dcp, chunk :: rest =>
    match generateChunk env dir dcp chunk with
    | (dcp1, some err) => (dcp1, some err)
    | (dcp1, none) => generateChunks env dir dcp1 rest

/-- The outer loop of `Generate`, over the assets. -/
def generateAssets (env : Env) (dir : String) : DCP → List AMAsset → DCP × Option Err
  | dcp, [] => (dcp, none)
  | dcp, asset :: rest =>
    match generateChunks env dir dcp asset.Chunks with
    | (dcp1, some err) => (dcp1, some err)
    | (dcp1, none) => generateAssets env dir dcp1 rest

/-- Generate builds a new DCP from a root directory path containing an
assetmap: the receiver after the call and the returned error. -/
def DCP.Generate (env : Env) (dcp : DCP) (dir : String) : DCP × Option Err :=
  match findAssetMap env dir with
  | .error err => (dcp, some err)
  | .ok amFileName =>
    match ParseAssetMapFile env amFileName with
    | .error err => (dcp, some err)
    | .ok am =>
      let dcp1 := { dcp with RootDir := dir, assetMapFile := env.Base amFileName }
      match generateAssets env dir dcp1 am.Assets with
      | (dcp2, some err) => (dcp2, some err)
      | (dcp2, none) => ({ dcp2 with AssetMap := some am }, none)

/-! ## A concrete package, used to run the definitions

The directory `good` holds an asset map, a packing list, a composition
playlist and a picture track, all of the declared sizes. The directory `bad`
holds an asset map whose second chunk is one byte longer than declared. -/

/-- Bytes of the composition playlist file of the example. -/
def demoCPLBytes : Bytes := bytesOfString "<CompositionPlaylist>"

/-- Bytes of the packing list file of the example. -/
def demoPKLBytes : Bytes := bytesOfString "<PackingList>"

/-- Bytes of the picture track of the example: the MXF key and one more byte. -/
def demoMXFBytes : Bytes := mxfHeader ++ [7]

/-- The decoded composition playlist of the example. -/
def demoCPLXML : cplXML :=
  { Xmlns := "http://www.smpte-ra.org/schemas/429-7/2006/CPL", ID := "c", AnnotationText := "film",
    IssueDate := ⟨0⟩, Creator := "", ContentTitleText := "film", ContentKind := "feature",
    Reels := [] }

/-- The decoded packing list of the example. -/
def demoPKL : PKL :=
  { ID := "p", AnnotationText := "film", IssueDate := ⟨0⟩, Issuer := "", Creator := "",
    Assets := [⟨"v", "", "h", 29, "application/x-smpte-mxf;asdcpKind=Picture", 0⟩] }

/-- The decoded asset map of the directory `good`. -/
def demoGoodAM : assetMapXML :=
  { Xmlns := "http://www.smpte-ra.org/schemas/429-9/2007/AM", ID := "am", Creator := "",
    VolumeCount := 1, IssueDate := ⟨0⟩, Issuer := "",
    Assets := [⟨"p", "true", [⟨"x_pkl.xml", 13⟩]⟩, ⟨"c", "", [⟨"x_cpl.xml", 21⟩]⟩,
      ⟨"v", "", [⟨"video.mxf", 29⟩]⟩] }

/-- The decoded asset map of the directory `bad`. -/
def demoBadAM : assetMapXML :=
  { Xmlns := "", ID := "am", Creator := "", VolumeCount := 1, IssueDate := ⟨0⟩, Issuer := "",
    Assets := [⟨"c", "", [⟨"x_cpl.xml", 21⟩]⟩, ⟨"p", "true", [⟨"x_pkl.xml", 12⟩]⟩] }

/-- The file system of the example. -/
def demoNode (p : String) : Option Node :=
  if p = "good" then some (.dir ["ASSETMAP", "video.mxf", "x_cpl.xml", "x_pkl.xml"] 4096)
  else if p = "good/ASSETMAP" then some (.file [1] true)
  else if p = "good/x_pkl.xml" then some (.file demoPKLBytes true)
  else if p = "good/x_cpl.xml" then some (.file demoCPLBytes true)
  else if p = "good/video.mxf" then some (.file demoMXFBytes true)
  else if p = "bad" then some (.dir ["assetmap.xml", "x_cpl.xml", "x_pkl.xml"] 4096)
  else if p = "bad/assetmap.xml" then some (.file [2] true)
  else if p = "bad/x_cpl.xml" then some (.file demoCPLBytes true)
  else if p = "bad/x_pkl.xml" then some (.file demoPKLBytes true)
  else none

/-- The environment of the example: paths are joined with a slash, and the
decoder knows the files above. -/
def demoEnv : Env :=
  { node := demoNode
    Join := fun dir name => dir ++ "/" ++ name
    Base := fun p => String.mk (p.data.reverse.takeWhile fun c => c ≠ (Char.ofNat 47)).reverse
    unmarshalAssetMap := fun b =>
      if b = [1] then .ok demoGoodAM else if b = [2] then .ok demoBadAM else .error "EOF"
    unmarshalCPL := fun b => if b = demoCPLBytes then .ok demoCPLXML else .error "EOF"
    unmarshalPKL := fun b => if b = demoPKLBytes then .ok demoPKL else .error "EOF" }

/-! ## Further directories of the example

The directory `odd` has an asset map named `assetmap.xml.xml`, an empty file,
a file that may not be opened, a file named `x_cpl.xml` whose bytes are those
of the packing list, and a packing list whose only asset carries a
`PreventMatch` element. The directory `none` has no asset map. -/

/-- Bytes of a packing list whose asset has an unmapped MIME type and a
`PreventMatch` element with the text 4. -/
def demoOddPKLBytes : Bytes :=
  bytesOfString ("<PackingList><AssetList><Asset><Id>v</Id><Hash>h</Hash><Size>29</Size>" ++
    "<Type>application/x-smpte-mxf</Type><PreventMatch>4</PreventMatch>" ++
    "</Asset></AssetList></PackingList>")

/-- What `xml.Unmarshal` makes of `demoOddPKLBytes`: the field tagged
`xml:"PreventMatch"` receives the number in the element of that name. -/
def demoOddPKL : PKL :=
  { ID := "", AnnotationText := "", IssueDate := ⟨0⟩, Issuer := "", Creator := "",
    Assets := [⟨"v", "", "h", 29, "application/x-smpte-mxf", 4⟩] }

/-- The decoded asset map of the directory `odd`. -/
def demoOddAM : assetMapXML :=
  { Xmlns := "", ID := "am", Creator := "", VolumeCount := 1, IssueDate := ⟨0⟩, Issuer := "",
    Assets := [⟨"e", "", [⟨"empty.bin", 0⟩]⟩, ⟨"l", "", [⟨"locked.bin", 3⟩]⟩,
      ⟨"c", "", [⟨"x_cpl.xml", 13⟩]⟩] }

/-- The file system with the directories `odd` and `none` added. -/
def demoNode2 (p : String) : Option Node :=
  if p = "odd" then
    some (.dir ["assetmap.xml.xml", "empty.bin", "locked.bin", "odd_pkl.xml", "x_cpl.xml"] 4096)
  else if p = "odd/assetmap.xml.xml" then some (.file [4] true)
  else if p = "odd/empty.bin" then some (.file [] true)
  else if p = "odd/locked.bin" then some (.file [1, 2, 3] false)
  else if p = "odd/odd_pkl.xml" then some (.file demoOddPKLBytes true)
  else if p = "odd/x_cpl.xml" then some (.file demoPKLBytes true)
  else if p = "none" then some (.dir ["Assetmap", "assetmap.Xml", "readme.txt"] 4096)
  else demoNode p

/-- The environment of the example with the directories `odd` and `none`. -/
def demoEnv2 : Env :=
  { demoEnv with
    node := demoNode2
    unmarshalAssetMap := fun b =>
      if b = [4] then .ok demoOddAM else demoEnv.unmarshalAssetMap b
    unmarshalPKL := fun b =>
      if b = demoOddPKLBytes then .ok demoOddPKL else demoEnv.unmarshalPKL b }

/-! ## Variants of the guess that test the patterns in another order -/

/-- The loop body of `guessAssetType` with the tests taken from a list, in
the order of the list: the first pattern that matches gives the type, and no
match keeps the type. This is the variant to compare `guessStep` with; the
source tests cplRegExp, pklRegExp, mxfRegExp in this order. -/
def guessStepWith (tests : List (Regexp × AssetType)) (assetType : AssetType)
    (chunk : Chunk) : AssetType :=
  match tests.find? fun rt => rt.1.MatchString chunk.Path with
  | some rt => rt.2
  | none => assetType

/-- The variant of `guessAssetType` that uses `guessStepWith`. -/
def guessAssetTypeWith (tests : List (Regexp × AssetType)) (aXML : assetXML) : AssetType :=
  if aXML.PackingList = "true" then PKLAssetType
  else aXML.Chunks.foldl (guessStepWith tests) UnknownAssetType

/-- The three tests of `guessAssetType`, in the order of the source. -/
def guessTests : List (Regexp × AssetType) :=
  [(cplRegExp, CPLAssetType), (pklRegExp, PKLAssetType), (mxfRegExp, MXFAssetType)]

/-! ## Files for the header sniff

`key27.mxf` holds the first 27 bytes of the MXF key. `late.xml` holds 95
spaces and then the text PackingList, which so begins at offset 95;
`late2.xml` has the same first 100 bytes and then other bytes. -/

/-- Bytes of `late.xml`. -/
def demoLateBytes : Bytes := List.replicate 95 32 ++ bytesOfString "PackingList"

/-- Bytes of `late2.xml`. -/
def demoLate2Bytes : Bytes := List.replicate 95 32 ++ [80, 97, 99, 107, 105, 1, 2, 3]

/-- The file system with the three files added. -/
def demoNode3 (p : String) : Option Node :=
  if p = "key27.mxf" then some (.file (mxfHeader.take 27) true)
  else if p = "late.xml" then some (.file demoLateBytes true)
  else if p = "late2.xml" then some (.file demoLate2Bytes true)
  else demoNode p

/-- The environment of the example with the three files added. -/
def demoEnv3 : Env := { demoEnv with node := demoNode3 }

/-! ## A package of well-formed files

The directories `pkg`, `cut` and `ren` hold XML documents as the package
reads them, and the decoder of `pkgEnv` returns for each document what
`xml.Unmarshal` returns for it. `pkg` is a complete package of four files:
a composition playlist, a packing list, a picture track and a text file of
two bytes. `cut` has the first three of them, but its asset map declares 30
bytes for the picture track of 29 bytes. `ren` has the four files of `pkg`
under other names, `a.mxf` for the composition playlist, `b_cpl.xml` for the
packing list, `c.txt` for the picture track and `d_pkl.xml` for the text
file, and its asset map flags the composition playlist as a packing list.
The issue date 2012-09-28T03:40:08Z is 1348803608 seconds after the epoch. -/

/-- The composition playlist of the package, 288 bytes. -/
def pkgCPLBytes : Bytes :=
  bytesOfString ("<CompositionPlaylist xmlns=\"http://www.smpte-ra.org/schemas/429-7/2006" ++
    "/CPL\"><Id>c</Id><AnnotationText>film</AnnotationText><IssueDate>2012-0" ++
    "9-28T03:40:08+00:00</IssueDate><Creator>k</Creator><ContentTitleText>f" ++
    "ilm</ContentTitleText><ContentKind>feature</ContentKind></CompositionP" ++
    "laylist>")

/-- What `xml.Unmarshal` makes of `pkgCPLBytes`. -/
def pkgCPLXML : cplXML :=
  { Xmlns := "http://www.smpte-ra.org/schemas/429-7/2006/CPL", ID := "c",
    AnnotationText := "film", IssueDate := ⟨1348803608000000000⟩, Creator := "k",
    ContentTitleText := "film", ContentKind := "feature", Reels := [] }

/-- The packing list of the package, 346 bytes. -/
def pkgPKLBytes : Bytes :=
  bytesOfString ("<PackingList xmlns=\"http://www.smpte-ra.org/schemas/429-8/2007/PKL\"><I" ++
    "d>p</Id><AnnotationText>film</AnnotationText><IssueDate>2012-09-28T03:" ++
    "40:08+00:00</IssueDate><Issuer>i</Issuer><Creator>k</Creator><AssetLis" ++
    "t><Asset><Id>v</Id><Hash>h</Hash><Size>29</Size><Type>application/x-sm" ++
    "pte-mxf;asdcpKind=Picture</Type></Asset></AssetList></PackingList>")

/-- What `xml.Unmarshal` makes of `pkgPKLBytes`. -/
def pkgPKL : PKL :=
  { ID := "p", AnnotationText := "film", IssueDate := ⟨1348803608000000000⟩, Issuer := "i",
    Creator := "k",
    Assets := [⟨"v", "", "h", 29, "application/x-smpte-mxf;asdcpKind=Picture", 0⟩] }

/-- The picture track of the package: the MXF key and one more byte. -/
def pkgMXFBytes : Bytes := mxfHeader ++ [7]

/-- A file of the package that is neither XML nor MXF: the two bytes `hi`. -/
def pkgNotesBytes : Bytes := bytesOfString "hi"

/-- The asset map of the directory `pkg`. -/
def pkgAMBytes : Bytes :=
  bytesOfString ("<AssetMap xmlns=\"http://www.smpte-ra.org/schemas/429-9/2007/AM\"><Id>" ++
    "am</Id><Creator>k</Creator><VolumeCount>1</VolumeCount><IssueDate>2012" ++
    "-09-28T03:40:08+00:00</IssueDate><Issuer>i</Issuer><AssetList><Asset><" ++
    "Id>c</Id><ChunkList><Chunk><Path>x_cpl.xml</Path><Length>288</Length><" ++
    "/Chunk></ChunkList></Asset><Asset><Id>p</Id><PackingList>true</Packing" ++
    "List><ChunkList><Chunk><Path>x_pkl.xml</Path><Length>346</Length></Chu" ++
    "nk></ChunkList></Asset><Asset><Id>v</Id><ChunkList><Chunk><Path>video." ++
    "mxf</Path><Length>29</Length></Chunk></ChunkList></Asset><Asset><Id>n<" ++
    "/Id><ChunkList><Chunk><Path>notes.txt</Path><Length>2</Length></Chunk>" ++
    "</ChunkList></Asset></AssetList></AssetMap>")

/-- What `xml.Unmarshal` makes of `pkgAMBytes`. -/
def pkgAM : assetMapXML :=
  { Xmlns := "http://www.smpte-ra.org/schemas/429-9/2007/AM", ID := "am", Creator := "k",
    VolumeCount := 1, IssueDate := ⟨1348803608000000000⟩, Issuer := "i",
    Assets := [⟨"c", "", [⟨"x_cpl.xml", 288⟩]⟩, ⟨"p", "true", [⟨"x_pkl.xml", 346⟩]⟩,
      ⟨"v", "", [⟨"video.mxf", 29⟩]⟩, ⟨"n", "", [⟨"notes.txt", 2⟩]⟩] }

/-- What `ParseAssetMap` makes of `pkgAMBytes`. -/
def pkgParsed : AssetMap :=
  { Format := SMPTE, ID := "am", Creator := "k", VolumeCount := 1, Issuer := "i",
    IssueDate := ⟨1348803608000000000⟩,
    Assets := [⟨"c", CPLAssetType, [⟨"x_cpl.xml", 288⟩]⟩,
      ⟨"p", PKLAssetType, [⟨"x_pkl.xml", 346⟩]⟩, ⟨"v", MXFAssetType, [⟨"video.mxf", 29⟩]⟩,
      ⟨"n", UnknownAssetType, [⟨"notes.txt", 2⟩]⟩] }

/-- The asset map of the directory `cut`: 30 bytes declared for `video.mxf`. -/
def cutAMBytes : Bytes :=
  bytesOfString ("<AssetMap xmlns=\"http://www.smpte-ra.org/schemas/429-9/2007/AM\"><Id>am" ++
    "</Id><Creator>k</Creator><VolumeCount>1</VolumeCount><IssueDate>2012-0" ++
    "9-28T03:40:08+00:00</IssueDate><Issuer>i</Issuer><AssetList><Asset><Id" ++
    ">c</Id><ChunkList><Chunk><Path>x_cpl.xml</Path><Length>288</Length></C" ++
    "hunk></ChunkList></Asset><Asset><Id>p</Id><PackingList>true</PackingLi" ++
    "st><ChunkList><Chunk><Path>x_pkl.xml</Path><Length>346</Length></Chunk" ++
    "></ChunkList></Asset><Asset><Id>v</Id><ChunkList><Chunk><Path>video.mx" ++
    "f</Path><Length>30</Length></Chunk></ChunkList></Asset></AssetList></A" ++
    "ssetMap>")

/-- What `xml.Unmarshal` makes of `cutAMBytes`. -/
def cutAM : assetMapXML :=
  { Xmlns := "http://www.smpte-ra.org/schemas/429-9/2007/AM", ID := "am", Creator := "k",
    VolumeCount := 1, IssueDate := ⟨1348803608000000000⟩, Issuer := "i",
    Assets := [⟨"c", "", [⟨"x_cpl.xml", 288⟩]⟩, ⟨"p", "true", [⟨"x_pkl.xml", 346⟩]⟩,
      ⟨"v", "", [⟨"video.mxf", 30⟩]⟩] }

/-- What `ParseAssetMap` makes of `cutAMBytes`. -/
def cutParsed : AssetMap :=
  { Format := SMPTE, ID := "am", Creator := "k", VolumeCount := 1, Issuer := "i",
    IssueDate := ⟨1348803608000000000⟩,
    Assets := [⟨"c", CPLAssetType, [⟨"x_cpl.xml", 288⟩]⟩,
      ⟨"p", PKLAssetType, [⟨"x_pkl.xml", 346⟩]⟩, ⟨"v", MXFAssetType, [⟨"video.mxf", 30⟩]⟩] }

/-- The asset map of the directory `ren`. -/
def renAMBytes : Bytes :=
  bytesOfString ("<AssetMap xmlns=\"http://www.smpte-ra.org/schemas/429-9/2007/AM\"><Id>" ++
    "am</Id><Creator>k</Creator><VolumeCount>1</VolumeCount><IssueDate>2012" ++
    "-09-28T03:40:08+00:00</IssueDate><Issuer>i</Issuer><AssetList><Asset><" ++
    "Id>c</Id><PackingList>true</PackingList><ChunkList><Chunk><Path>a.mxf<" ++
    "/Path><Length>288</Length></Chunk></ChunkList></Asset><Asset><Id>p</Id" ++
    "><ChunkList><Chunk><Path>b_cpl.xml</Path><Length>346</Length></Chunk><" ++
    "/ChunkList></Asset><Asset><Id>v</Id><ChunkList><Chunk><Path>c.txt</Pat" ++
    "h><Length>29</Length></Chunk></ChunkList></Asset><Asset><Id>n</Id><Chu" ++
    "nkList><Chunk><Path>d_pkl.xml</Path><Length>2</Length></Chunk></ChunkL" ++
    "ist></Asset></AssetList></AssetMap>")

/-- What `xml.Unmarshal` makes of `renAMBytes`. -/
def renAM : assetMapXML :=
  { Xmlns := "http://www.smpte-ra.org/schemas/429-9/2007/AM", ID := "am", Creator := "k",
    VolumeCount := 1, IssueDate := ⟨1348803608000000000⟩, Issuer := "i",
    Assets := [⟨"c", "true", [⟨"a.mxf", 288⟩]⟩, ⟨"p", "", [⟨"b_cpl.xml", 346⟩]⟩,
      ⟨"v", "", [⟨"c.txt", 29⟩]⟩, ⟨"n", "", [⟨"d_pkl.xml", 2⟩]⟩] }

/-- What `ParseAssetMap` makes of `renAMBytes`. -/
def renParsed : AssetMap :=
  { Format := SMPTE, ID := "am", Creator := "k", VolumeCount := 1, Issuer := "i",
    IssueDate := ⟨1348803608000000000⟩,
    Assets := [⟨"c", PKLAssetType, [⟨"a.mxf", 288⟩]⟩, ⟨"p", CPLAssetType, [⟨"b_cpl.xml", 346⟩]⟩,
      ⟨"v", UnknownAssetType, [⟨"c.txt", 29⟩]⟩, ⟨"n", PKLAssetType, [⟨"d_pkl.xml", 2⟩]⟩] }

/-- The file system of the three directories. -/
def pkgNode (p : String) : Option Node :=
  if p = "pkg" then
    some (.dir ["ASSETMAP", "notes.txt", "video.mxf", "x_cpl.xml", "x_pkl.xml"] 4096)
  else if p = "pkg/ASSETMAP" then some (.file pkgAMBytes true)
  else if p = "pkg/x_cpl.xml" then some (.file pkgCPLBytes true)
  else if p = "pkg/x_pkl.xml" then some (.file pkgPKLBytes true)
  else if p = "pkg/video.mxf" then some (.file pkgMXFBytes true)
  else if p = "pkg/notes.txt" then some (.file pkgNotesBytes true)
  else if p = "cut" then some (.dir ["ASSETMAP", "video.mxf", "x_cpl.xml", "x_pkl.xml"] 4096)
  else if p = "cut/ASSETMAP" then some (.file cutAMBytes true)
  else if p = "cut/x_cpl.xml" then some (.file pkgCPLBytes true)
  else if p = "cut/x_pkl.xml" then some (.file pkgPKLBytes true)
  else if p = "cut/video.mxf" then some (.file pkgMXFBytes true)
  else if p = "ren" then
    some (.dir ["ASSETMAP", "a.mxf", "b_cpl.xml", "c.txt", "d_pkl.xml"] 4096)
  else if p = "ren/ASSETMAP" then some (.file renAMBytes true)
  else if p = "ren/a.mxf" then some (.file pkgCPLBytes true)
  else if p = "ren/b_cpl.xml" then some (.file pkgPKLBytes true)
  else if p = "ren/c.txt" then some (.file pkgMXFBytes true)
  else if p = "ren/d_pkl.xml" then some (.file pkgNotesBytes true)
  else none

/-- The environment of the three directories: paths are joined with a slash,
the base name is what follows the last slash, and each decoder returns the
decoded value of the documents above and fails on the other bytes that occur
here. -/
def pkgEnv : Env :=
  { node := pkgNode
    Join := fun dir name => dir ++ "/" ++ name
    Base := fun p => String.mk (p.data.reverse.takeWhile fun c => c ≠ (Char.ofNat 47)).reverse
    unmarshalAssetMap := fun b =>
      if b = pkgAMBytes then .ok pkgAM else if b = cutAMBytes then .ok cutAM
      else if b = renAMBytes then .ok renAM else .error "EOF"
    unmarshalCPL := fun b => if b = pkgCPLBytes then .ok pkgCPLXML else .error "EOF"
    unmarshalPKL := fun b => if b = pkgPKLBytes then .ok pkgPKL else .error "EOF" }

end Dcp

/-! # Theorems -/

namespace Dcp

/-! ## The matcher decides the language -/

namespace Regex

theorem nullable_iff (r : Regex) : nullable r = true ↔ lang r [] := by
  induction r with
  | none => simp [nullable, lang]
  | eps => simp [nullable, lang]
  | lit c => simp [nullable, lang]
  | dot => simp [nullable, lang]
  | cat r t ihr iht =>
    simp only [nullable, lang, Bool.and_eq_true, ihr, iht]
    constructor
    · rintro ⟨h1, h2⟩
      exact ⟨[], [], rfl, h1, h2⟩
    · rintro ⟨u, v, huv, h1, h2⟩
      have h := List.append_eq_nil.mp huv.symm
      rw [h.1] at h1
      rw [h.2] at h2
      exact ⟨h1, h2⟩
  | alt r t ihr iht => simp only [nullable, lang, Bool.or_eq_true, ihr, iht]
  | star r _ =>
    simp only [nullable, lang, true_iff]
    exact ⟨[], rfl, by simp⟩

theorem star_cons_split (r : Regex) (a : Char) (s : List Char) (L : List (List Char))
    (hs : a :: s = L.flatten) (hL : ∀ u ∈ L, lang r u) :
    ∃ u v, s = u ++ v ∧ lang r (a :: u) ∧
      ∃ L2 : List (List Char), v = L2.flatten ∧ ∀ w ∈ L2, lang r w := by
  induction L with
  | nil => simp at hs
  | cons w L ih =>
    cases w with
    | nil =>
      apply ih
      · simpa using hs
      · intro u hu
        exact hL u (List.mem_cons_of_mem _ hu)
    | cons b w =>
      simp only [List.flatten_cons, List.cons_append, List.cons.injEq] at hs
      obtain ⟨hab, hs⟩ := hs
      subst hab
      exact ⟨w, L.flatten, hs, hL _ (List.mem_cons_self _ _), L, rfl,
        fun u hu => hL u (List.mem_cons_of_mem _ hu)⟩

theorem lang_deriv (r : Regex) (a : Char) (s : List Char) :
    lang (deriv r a) s ↔ lang r (a :: s) := by
  induction r generalizing s with
  | none => simp [deriv, lang]
  | eps => simp [deriv, lang]
  | lit c =>
    by_cases h : a = c
    · simp [deriv, lang, h]
    · simp [deriv, lang, h]
  | dot =>
    by_cases h : a = newline
    · simp only [deriv, lang, h, if_true, false_iff]
      rintro ⟨c, hc, hs⟩
      simp only [List.cons.injEq] at hs
      exact hc hs.1.symm
    · simp only [deriv, lang, h, if_false]
      constructor
      · intro hs
        exact ⟨a, h, by rw [hs]⟩
      · rintro ⟨c, _, hs⟩
        simp only [List.cons.injEq] at hs
        exact hs.2
  | cat r t ihr iht =>
    have key : lang (cat r t) (a :: s) ↔
        (lang r [] ∧ lang t (a :: s)) ∨ ∃ u v, s = u ++ v ∧ lang r (a :: u) ∧ lang t v := by
      simp only [lang]
      constructor
      · rintro ⟨u, v, huv, h1, h2⟩
        cases u with
        | nil =>
          left
          simp only [List.nil_append] at huv
          exact ⟨h1, huv ▸ h2⟩
        | cons b u =>
          right
          simp only [List.cons_append, List.cons.injEq] at huv
          obtain ⟨hab, hs⟩ := huv
          subst hab
          exact ⟨u, v, hs, h1, h2⟩
      · rintro (⟨h1, h2⟩ | ⟨u, v, hs, h1, h2⟩)
        · exact ⟨[], a :: s, rfl, h1, h2⟩
        · exact ⟨a :: u, v, by simp [hs], h1, h2⟩
    rw [key]
    by_cases hn : nullable r = true
    · have hn2 := (nullable_iff r).mp hn
      simp only [deriv, hn, if_true, lang, ihr, iht]
      constructor
      · rintro (h | h)
        · exact Or.inr h
        · exact Or.inl ⟨hn2, h⟩
      · rintro (⟨_, h⟩ | h)
        · exact Or.inr h
        · exact Or.inl h
    · have hn2 : ¬ lang r [] := fun h => hn ((nullable_iff r).mpr h)
      simp only [deriv, hn, lang, ihr]
      constructor
      · intro h
        exact Or.inr h
      · rintro (⟨h, _⟩ | h)
        · exact absurd h hn2
        · exact h
  | alt r t ihr iht => simp only [deriv, lang, ihr, iht]
  | star r ihr =>
    simp only [deriv, lang, ihr]
    constructor
    · rintro ⟨u, v, hs, h1, L, hv, hL⟩
      refine ⟨(a :: u) :: L, by simp [hs, hv], ?_⟩
      intro w hw
      rcases List.mem_cons.mp hw with h | h
      · exact h ▸ h1
      · exact hL w h
    · rintro ⟨L, hs, hL⟩
      exact star_cons_split r a s L hs hL

theorem matchFull_iff (r : Regex) (s : List Char) : matchFull r s = true ↔ lang r s := by
  induction s generalizing r with
  | nil => simpa [matchFull] using nullable_iff r
  | cons a s ih => rw [matchFull, ih, lang_deriv]

end Regex

end Dcp

namespace Dcp

/-! ## Sizes and paths of an asset map -/

theorem foldl_addmod (f : α → Nat) (l : List α) (init : Nat) (h : init < u64) :
    l.foldl (fun acc x => (acc + f x) % u64) init = (init + (l.map f).sum) % u64 := by
  induction l generalizing init with
  | nil => simp [Nat.mod_eq_of_lt h]
  | cons x l ih =>
    simp only [List.foldl_cons, List.map_cons, List.sum_cons]
    rw [ih _ (Nat.mod_lt _ (by decide)), Nat.mod_add_mod, Nat.add_assoc]

theorem amAsset_size_eq (a : AMAsset) :
    a.Size = (a.Chunks.map Chunk.Size).sum % u64 := by
  unfold AMAsset.Size
  rw [foldl_addmod Chunk.Size a.Chunks 0 (by decide)]
  simp

theorem assetMap_size_eq (am : AssetMap) :
    am.Size = (am.Assets.map AMAsset.Size).sum % u64 := by
  unfold AssetMap.Size
  rw [foldl_addmod AMAsset.Size am.Assets 0 (by decide)]
  simp

theorem foldl_snoc_map (f : α → β) (l : List α) (init : List β) :
    l.foldl (fun acc x => acc ++ [f x]) init = init ++ l.map f := by
  induction l generalizing init with
  | nil => simp
  | cons x l ih => simp [ih]

theorem foldl_append_flatMap (f : α → List β) (l : List α) (init : List β) :
    l.foldl (fun acc x => acc ++ f x) init = init ++ l.flatMap f := by
  induction l generalizing init with
  | nil => simp
  | cons x l ih => simp [ih]

theorem amAsset_paths_eq (a : AMAsset) : a.Paths = a.Chunks.map Chunk.Path := by
  unfold AMAsset.Paths
  rw [foldl_snoc_map Chunk.Path]
  simp

theorem assetMap_paths_eq (am : AssetMap) :
    am.Paths = (am.Assets.flatMap AMAsset.Chunks).map Chunk.Path := by
  unfold AssetMap.Paths
  rw [foldl_append_flatMap AMAsset.Paths]
  simp only [List.nil_append, List.map_flatMap]
  congr 1
  funext a
  exact amAsset_paths_eq a

end Dcp

namespace Dcp

/-! ## Claims on the asset map -/

/-- C6: an asset whose PackingList flag text is exactly "true" is guessed to
be a packing list whatever its chunk list is, the empty list and paths ending
in `_cpl.xml` or `.mxf` included. -/
theorem C6_flag_true_is_pkl (id : String) (chunks : List Chunk) :
    guessAssetType ⟨id, "true", chunks⟩ = PKLAssetType ∧
    guessAssetType ⟨id, "true", []⟩ = PKLAssetType ∧
    guessAssetType ⟨id, "true", [⟨"x_cpl.xml", 0⟩, ⟨"y.mxf", 0⟩]⟩ = PKLAssetType := by
  simp [guessAssetType]

/-- C9, as the claim states it, fails. For the reference fixture with the
declared sizes 1288, 1550, 3906847916, 879052345 Size() is 4785903099, not
4788902099. And the sizes are added in `uint64`: an asset with two chunks of
declared size 2^63 has Size() 0 while the declared sizes sum to 2^64, and an
asset map with two assets of size 2^63 has Size() 0 while its assets' sizes
sum to 2^64. -/
theorem C9_exact_sum_counterexample :
    AssetMap.Size ⟨SMPTE, "am", "", 1, "", ⟨0⟩,
      [⟨"p", PKLAssetType, [⟨"4d9e98c3-c923-4910-ae0e-9f5951c9cc5f_pkl.xml", 1288⟩]⟩,
        ⟨"c", CPLAssetType, [⟨"d65572db-2e09-4745-817d-a2881222e2db_cpl.xml", 1550⟩]⟩,
        ⟨"v", MXFAssetType, [⟨"x_video.mxf", 3906847916⟩]⟩,
        ⟨"s", MXFAssetType, [⟨"x_audio.mxf", 879052345⟩]⟩]⟩ ≠ 4788902099 ∧
    AMAsset.Size ⟨"a", MXFAssetType, [⟨"x.mxf", 2 ^ 63⟩, ⟨"y.mxf", 2 ^ 63⟩]⟩ = 0 ∧
    (List.map Chunk.Size [⟨"x.mxf", 2 ^ 63⟩, ⟨"y.mxf", 2 ^ 63⟩]).sum = 2 ^ 64 ∧
    AssetMap.Size ⟨SMPTE, "am", "", 1, "", ⟨0⟩,
      [⟨"a", MXFAssetType, [⟨"x.mxf", 2 ^ 63⟩]⟩, ⟨"b", MXFAssetType, [⟨"y.mxf", 2 ^ 63⟩]⟩]⟩ = 0 ∧
    (List.map AMAsset.Size
      [⟨"a", MXFAssetType, [⟨"x.mxf", 2 ^ 63⟩]⟩, ⟨"b", MXFAssetType, [⟨"y.mxf", 2 ^ 63⟩]⟩]).sum
      = 2 ^ 64 := by
  refine ⟨?_, ?_, ?_, ?_, ?_⟩ <;> decide

/-- C9, amended: Size() of an asset map is the sum of its assets' Size()
reduced modulo 2^64, and Size() of an asset is the sum of the declared sizes
of its chunks reduced modulo 2^64; each is the exact sum whenever that sum is
below 2^64 (an empty list gives 0). For the reference fixture with declared
sizes 1288, 1550, 3906847916, 879052345 the result is 4785903099. -/
theorem C9_size_is_sum_mod (am : AssetMap) (a : AMAsset) :
    am.Size = (am.Assets.map AMAsset.Size).sum % 2 ^ 64 ∧
    a.Size = (a.Chunks.map Chunk.Size).sum % 2 ^ 64 ∧
    ((am.Assets.map AMAsset.Size).sum < 2 ^ 64 →
      am.Size = (am.Assets.map AMAsset.Size).sum) ∧
    ((a.Chunks.map Chunk.Size).sum < 2 ^ 64 → a.Size = (a.Chunks.map Chunk.Size).sum) ∧
    AssetMap.Size ⟨SMPTE, "am", "", 1, "", ⟨0⟩, []⟩ = 0 ∧
    AMAsset.Size ⟨"a", UnknownAssetType, []⟩ = 0 ∧
    AssetMap.Size ⟨SMPTE, "am", "", 1, "", ⟨0⟩,
      [⟨"p", PKLAssetType, [⟨"4d9e98c3-c923-4910-ae0e-9f5951c9cc5f_pkl.xml", 1288⟩]⟩,
        ⟨"c", CPLAssetType, [⟨"d65572db-2e09-4745-817d-a2881222e2db_cpl.xml", 1550⟩]⟩,
        ⟨"v", MXFAssetType, [⟨"x_video.mxf", 3906847916⟩]⟩,
        ⟨"s", MXFAssetType, [⟨"x_audio.mxf", 879052345⟩]⟩]⟩ = 4785903099 := by
  refine ⟨assetMap_size_eq am, amAsset_size_eq a, ?_, ?_, by decide, by decide, by decide⟩
  · intro h
    rw [assetMap_size_eq am]
    exact Nat.mod_eq_of_lt h
  · intro h
    rw [amAsset_size_eq a]
    exact Nat.mod_eq_of_lt h

/-- C9 (amended) applied to an asset map and an asset whose sums are below
2^64. -/
theorem C9_size_is_sum_mod_witness :
    ((List.map AMAsset.Size [⟨"v", MXFAssetType, [⟨"x_video.mxf", 3906847916⟩]⟩,
      ⟨"s", MXFAssetType, [⟨"x_audio.mxf", 879052345⟩]⟩]).sum < 2 ^ 64 ∧
    AssetMap.Size ⟨SMPTE, "am", "", 1, "", ⟨0⟩,
      [⟨"v", MXFAssetType, [⟨"x_video.mxf", 3906847916⟩]⟩,
        ⟨"s", MXFAssetType, [⟨"x_audio.mxf", 879052345⟩]⟩]⟩ =
      (List.map AMAsset.Size [⟨"v", MXFAssetType, [⟨"x_video.mxf", 3906847916⟩]⟩,
        ⟨"s", MXFAssetType, [⟨"x_audio.mxf", 879052345⟩]⟩]).sum) ∧
    ((List.map Chunk.Size [⟨"x_video.mxf", 3906847916⟩]).sum < 2 ^ 64 ∧
    AMAsset.Size ⟨"v", MXFAssetType, [⟨"x_video.mxf", 3906847916⟩]⟩ =
      (List.map Chunk.Size [⟨"x_video.mxf", 3906847916⟩]).sum) :=
  ⟨⟨by decide,
    (C9_size_is_sum_mod
      ⟨SMPTE, "am", "", 1, "", ⟨0⟩,
        [⟨"v", MXFAssetType, [⟨"x_video.mxf", 3906847916⟩]⟩,
          ⟨"s", MXFAssetType, [⟨"x_audio.mxf", 879052345⟩]⟩]⟩
      ⟨"v", MXFAssetType, [⟨"x_video.mxf", 3906847916⟩]⟩).2.2.1 (by decide)⟩,
   ⟨by decide,
    (C9_size_is_sum_mod
      ⟨SMPTE, "am", "", 1, "", ⟨0⟩,
        [⟨"v", MXFAssetType, [⟨"x_video.mxf", 3906847916⟩]⟩,
          ⟨"s", MXFAssetType, [⟨"x_audio.mxf", 879052345⟩]⟩]⟩
      ⟨"v", MXFAssetType, [⟨"x_video.mxf", 3906847916⟩]⟩).2.2.2.1 (by decide)⟩⟩

/-- C10: Paths() of an asset map is the concatenation, over the assets in list
order, of each asset's chunk paths in chunk order; its length is the total
number of chunks and its i-th entry is the Path of the i-th chunk in document
order. -/
theorem C10_paths_document_order (am : AssetMap) :
    am.Paths = am.Assets.flatMap (fun a => a.Chunks.map Chunk.Path) ∧
    am.Paths.length = (am.Assets.map fun a => a.Chunks.length).sum ∧
    ∀ i : Nat, am.Paths[i]? = ((am.Assets.flatMap AMAsset.Chunks)[i]?).map Chunk.Path := by
  have h := assetMap_paths_eq am
  refine ⟨?_, ?_, ?_⟩
  · rw [h, List.map_flatMap]
  · rw [h, List.length_map, List.length_flatMap]
    rfl
  · intro i
    rw [h, List.getElem?_map]

end Dcp

namespace Dcp

/-! ## The file name patterns -/

theorem Regex.lang_str (l t : List Char) : Regex.lang (Regex.str l) t ↔ t = l := by
  induction l generalizing t with
  | nil => simp [Regex.str, Regex.lang]
  | cons c l ih =>
    simp only [Regex.str, Regex.lang, ih]
    constructor
    · rintro ⟨u, v, rfl, rfl, rfl⟩
      rfl
    · rintro rfl
      exact ⟨[c], l, rfl, rfl, rfl⟩

theorem Regex.lang_dot_str (l t : List Char) :
    Regex.lang (Regex.cat Regex.dot (Regex.str l)) t ↔ ∃ x, x ≠ Regex.newline ∧ t = x :: l := by
  simp only [Regex.lang, Regex.lang_str]
  constructor
  · rintro ⟨u, v, rfl, ⟨x, hx, rfl⟩, rfl⟩
    exact ⟨x, hx, rfl⟩
  · rintro ⟨x, hx, rfl⟩
    exact ⟨[x], l, rfl, ⟨x, hx, rfl⟩, rfl⟩

/-- A pattern `body$` matches exactly the strings with a suffix in the
language of the body. -/
theorem MatchString_end_iff (body : Regex) (s : String) :
    Regexp.MatchString ⟨false, body, true⟩ s = true ↔
      ∃ t, t <:+ s.data ∧ Regex.lang body t := by
  simp only [Regexp.MatchString, List.any_eq_true, List.mem_tails, if_true, Bool.false_eq_true,
    if_false, Regex.matchFull_iff]

/-- A pattern `^body$` matches exactly the strings in the language of the
body. -/
theorem MatchString_full_iff (body : Regex) (s : String) :
    Regexp.MatchString ⟨true, body, true⟩ s = true ↔ Regex.lang body s.data := by
  simp [Regexp.MatchString, Regex.matchFull_iff]

/-- The strings `(a|b)(.e|.f)$` matches. -/
theorem stemExt_iff (a b e f : List Char) (s : String) :
    Regexp.MatchString ⟨false, .cat (.alt (.str a) (.str b))
      (.alt (.cat .dot (.str e)) (.cat .dot (.str f))), true⟩ s = true ↔
      ∃ x, x ≠ Regex.newline ∧ ∃ stem ext, (stem = a ∨ stem = b) ∧ (ext = e ∨ ext = f) ∧
        (stem ++ x :: ext) <:+ s.data := by
  rw [MatchString_end_iff]
  constructor
  · rintro ⟨t, ht, u, v, rfl, hu, hv⟩
    simp only [Regex.lang, Regex.lang_str] at hu
    have hv2 : ∃ x, x ≠ Regex.newline ∧ ∃ ext, (ext = e ∨ ext = f) ∧ v = x :: ext := by
      rcases hv with hv | hv
      · obtain ⟨x, hx, rfl⟩ := (Regex.lang_dot_str e v).mp hv
        exact ⟨x, hx, e, Or.inl rfl, rfl⟩
      · obtain ⟨x, hx, rfl⟩ := (Regex.lang_dot_str f v).mp hv
        exact ⟨x, hx, f, Or.inr rfl, rfl⟩
    obtain ⟨x, hx, ext, hext, rfl⟩ := hv2
    exact ⟨x, hx, u, ext, hu, hext, ht⟩
  · rintro ⟨x, hx, stem, ext, hstem, hext, ht⟩
    refine ⟨stem ++ x :: ext, ht, stem, x :: ext, rfl, ?_, ?_⟩
    · simpa only [Regex.lang, Regex.lang_str] using hstem
    · rcases hext with rfl | rfl
      · exact Or.inl ((Regex.lang_dot_str _ _).mpr ⟨x, hx, rfl⟩)
      · exact Or.inr ((Regex.lang_dot_str _ _).mpr ⟨x, hx, rfl⟩)

/-- The strings `(.e|.f)$` matches. -/
theorem ext_iff (e f : List Char) (s : String) :
    Regexp.MatchString ⟨false, .alt (.cat .dot (.str e)) (.cat .dot (.str f)), true⟩ s = true ↔
      ∃ x, x ≠ Regex.newline ∧ ∃ ext, (ext = e ∨ ext = f) ∧ (x :: ext) <:+ s.data := by
  rw [MatchString_end_iff]
  constructor
  · rintro ⟨t, ht, hv | hv⟩
    · obtain ⟨x, hx, rfl⟩ := (Regex.lang_dot_str e t).mp hv
      exact ⟨x, hx, e, Or.inl rfl, ht⟩
    · obtain ⟨x, hx, rfl⟩ := (Regex.lang_dot_str f t).mp hv
      exact ⟨x, hx, f, Or.inr rfl, ht⟩
  · rintro ⟨x, hx, ext, hext, ht⟩
    refine ⟨x :: ext, ht, ?_⟩
    rcases hext with rfl | rfl
    · exact Or.inl ((Regex.lang_dot_str _ _).mpr ⟨x, hx, rfl⟩)
    · exact Or.inr ((Regex.lang_dot_str _ _).mpr ⟨x, hx, rfl⟩)

theorem cplRegExp_iff (s : String) :
    cplRegExp.MatchString s = true ↔
      ∃ x, x ≠ Regex.newline ∧ ∃ stem ext, (stem = "cpl".data ∨ stem = "CPL".data) ∧
        (ext = "xml".data ∨ ext = "XML".data) ∧ (stem ++ x :: ext) <:+ s.data :=
  stemExt_iff _ _ _ _ s

theorem pklRegExp_iff (s : String) :
    pklRegExp.MatchString s = true ↔
      ∃ x, x ≠ Regex.newline ∧ ∃ stem ext, (stem = "pkl".data ∨ stem = "PKL".data) ∧
        (ext = "xml".data ∨ ext = "XML".data) ∧ (stem ++ x :: ext) <:+ s.data :=
  stemExt_iff _ _ _ _ s

theorem mxfRegExp_iff (s : String) :
    mxfRegExp.MatchString s = true ↔
      ∃ x, x ≠ Regex.newline ∧ ∃ ext, (ext = "mxf".data ∨ ext = "MXF".data) ∧
        (x :: ext) <:+ s.data :=
  ext_iff _ _ s

/-- Two suffixes of one list that have the same length are equal. -/
theorem suffix_eq_of_length {l t u : List Char} (ht : t <:+ l) (hu : u <:+ l)
    (h : t.length = u.length) : t = u :=
  (List.suffix_of_suffix_length_le ht hu (Nat.le_of_eq h)).eq_of_length h

/-- The last characters of a list are determined: a suffix of a suffix. -/
theorem suffix_of_longer {l t u : List Char} (ht : t <:+ l) (hu : u <:+ l)
    (h : u.length ≤ t.length) : u <:+ t :=
  List.suffix_of_suffix_length_le hu ht h

end Dcp

namespace Dcp

theorem cpl_pkl_exclusive (s : String) (hc : cplRegExp.MatchString s = true) :
    pklRegExp.MatchString s = false := by
  rw [Bool.eq_false_iff]
  intro hp
  obtain ⟨x, _, st, ex, hst, hex, ht⟩ := (cplRegExp_iff s).mp hc
  obtain ⟨y, _, st2, ex2, hst2, hex2, ht2⟩ := (pklRegExp_iff s).mp hp
  have hl : (st ++ x :: ex).length = (st2 ++ y :: ex2).length := by
    rcases hst with rfl | rfl <;> rcases hex with rfl | rfl <;>
      rcases hst2 with rfl | rfl <;> rcases hex2 with rfl | rfl <;> rfl
  have h := suffix_eq_of_length ht ht2 hl
  rcases hst with rfl | rfl <;> rcases hst2 with rfl | rfl <;> simp at h

theorem stem_mxf_exclusive (s : String) (st ex : List Char) (x : Char)
    (hex : ex = "xml".data ∨ ex = "XML".data)
    (ht : (st ++ x :: ex) <:+ s.data) : mxfRegExp.MatchString s = false := by
  rw [Bool.eq_false_iff]
  intro hm
  obtain ⟨y, _, mex, hmex, hu⟩ := (mxfRegExp_iff s).mp hm
  have h1 : (x :: ex) <:+ s.data := List.IsSuffix.trans (List.suffix_append st (x :: ex)) ht
  have hl : (x :: ex).length = (y :: mex).length := by
    rcases hex with rfl | rfl <;> rcases hmex with rfl | rfl <;> rfl
  have h := suffix_eq_of_length h1 hu hl
  rcases hex with rfl | rfl <;> rcases hmex with rfl | rfl <;> simp at h

theorem cpl_mxf_exclusive (s : String) (hc : cplRegExp.MatchString s = true) :
    mxfRegExp.MatchString s = false := by
  obtain ⟨x, _, st, ex, _, hex, ht⟩ := (cplRegExp_iff s).mp hc
  exact stem_mxf_exclusive s st ex x hex ht

theorem pkl_mxf_exclusive (s : String) (hc : pklRegExp.MatchString s = true) :
    mxfRegExp.MatchString s = false := by
  obtain ⟨x, _, st, ex, _, hex, ht⟩ := (pklRegExp_iff s).mp hc
  exact stem_mxf_exclusive s st ex x hex ht

end Dcp

namespace Dcp

/-! ## Guessing the asset type from the asset map -/

theorem guessStep_of_cpl (t : AssetType) (c : Chunk) (h : cplRegExp.MatchString c.Path = true) :
    guessStep t c = CPLAssetType := by
  simp [guessStep, h]

theorem guessStep_of_pkl (t : AssetType) (c : Chunk) (h : pklRegExp.MatchString c.Path = true) :
    guessStep t c = PKLAssetType := by
  have hc : cplRegExp.MatchString c.Path = false := by
    cases hcp : cplRegExp.MatchString c.Path
    · rfl
    · rw [cpl_pkl_exclusive c.Path hcp] at h
      exact absurd h (by decide)
  simp [guessStep, h, hc]

theorem guessStep_of_mxf (t : AssetType) (c : Chunk) (h : mxfRegExp.MatchString c.Path = true) :
    guessStep t c = MXFAssetType := by
  have hc : cplRegExp.MatchString c.Path = false := by
    cases hcp : cplRegExp.MatchString c.Path
    · rfl
    · rw [cpl_mxf_exclusive c.Path hcp] at h
      exact absurd h (by decide)
  have hp : pklRegExp.MatchString c.Path = false := by
    cases hpk : pklRegExp.MatchString c.Path
    · rfl
    · rw [pkl_mxf_exclusive c.Path hpk] at h
      exact absurd h (by decide)
  simp [guessStep, h, hc, hp]

theorem foldl_guessStep_of_no_match (l : List Chunk) (t : AssetType)
    (h : ∀ d ∈ l, cplRegExp.MatchString d.Path = false ∧ pklRegExp.MatchString d.Path = false ∧
      mxfRegExp.MatchString d.Path = false) :
    l.foldl guessStep t = t := by
  induction l generalizing t with
  | nil => rfl
  | cons d l ih =>
    obtain ⟨h1, h2, h3⟩ := h d (List.mem_cons_self _ _)
    have hd : guessStep t d = t := by simp [guessStep, h1, h2, h3]
    rw [List.foldl_cons, hd]
    exact ih t fun e he => h e (List.mem_cons_of_mem _ he)

theorem foldl_guessStep_last (pre post : List Chunk) (c : Chunk) (t : AssetType)
    (h : ∀ d ∈ post, cplRegExp.MatchString d.Path = false ∧
      pklRegExp.MatchString d.Path = false ∧ mxfRegExp.MatchString d.Path = false) :
    (pre ++ c :: post).foldl guessStep t = guessStep (pre.foldl guessStep t) c := by
  rw [List.foldl_append, List.foldl_cons, foldl_guessStep_of_no_match post _ h]

/-- C5: for an asset whose PackingList flag text is not exactly "true",
guessAssetType is Unknown when no chunk path matches one of the three
patterns, and otherwise is decided by the last chunk, in list order, whose
path matches one: CPL, PKL or MXF according to the pattern it matches,
whatever the chunks before it were and with the non-matching chunks after it
changing nothing. In particular the chunks [a.mxf, b_pkl.xml] give PKL and
[b_pkl.xml, a.mxf] give MXF. -/
theorem C5_last_match_wins (a : assetXML) (h : a.PackingList ≠ "true") :
    ((∀ d ∈ a.Chunks, cplRegExp.MatchString d.Path = false ∧
        pklRegExp.MatchString d.Path = false ∧ mxfRegExp.MatchString d.Path = false) →
      guessAssetType a = UnknownAssetType) ∧
    (∀ (pre post : List Chunk) (c : Chunk), a.Chunks = pre ++ c :: post →
      (∀ d ∈ post, cplRegExp.MatchString d.Path = false ∧
        pklRegExp.MatchString d.Path = false ∧ mxfRegExp.MatchString d.Path = false) →
      (cplRegExp.MatchString c.Path = true → guessAssetType a = CPLAssetType) ∧
      (pklRegExp.MatchString c.Path = true → guessAssetType a = PKLAssetType) ∧
      (mxfRegExp.MatchString c.Path = true → guessAssetType a = MXFAssetType)) ∧
    (∀ s1 s2 : Nat, guessAssetType ⟨a.ID, a.PackingList, [⟨"a.mxf", s1⟩, ⟨"b_pkl.xml", s2⟩]⟩
      = PKLAssetType) ∧
    (∀ s1 s2 : Nat, guessAssetType ⟨a.ID, a.PackingList, [⟨"b_pkl.xml", s1⟩, ⟨"a.mxf", s2⟩]⟩
      = MXFAssetType) := by
  have hg : ∀ chunks : List Chunk,
      guessAssetType ⟨a.ID, a.PackingList, chunks⟩ = chunks.foldl guessStep UnknownAssetType := by
    intro chunks
    simp [guessAssetType, h]
  have ha : guessAssetType a = a.Chunks.foldl guessStep UnknownAssetType := hg a.Chunks
  refine ⟨?_, ?_, ?_, ?_⟩
  · intro hno
    rw [ha, foldl_guessStep_of_no_match _ _ hno]
  · intro pre post c hsplit hpost
    rw [ha, hsplit, foldl_guessStep_last pre post c _ hpost]
    exact ⟨guessStep_of_cpl _ c, guessStep_of_pkl _ c, guessStep_of_mxf _ c⟩
  · intro s1 s2
    rw [hg]
    have h1 : pklRegExp.MatchString "b_pkl.xml" = true := by decide
    exact (foldl_guessStep_last [⟨"a.mxf", s1⟩] [] ⟨"b_pkl.xml", s2⟩ _ (by simp)).trans
      (guessStep_of_pkl _ _ h1)
  · intro s1 s2
    rw [hg]
    have h1 : mxfRegExp.MatchString "a.mxf" = true := by decide
    exact (foldl_guessStep_last [⟨"b_pkl.xml", s1⟩] [] ⟨"a.mxf", s2⟩ _ (by simp)).trans
      (guessStep_of_mxf _ _ h1)

/-- C5 applied to the chunks [a.mxf, b_pkl.xml, readme.txt] of an asset with
an empty flag: the last matching chunk is the packing list. -/
theorem C5_last_match_wins_witness :
    ("" : String) ≠ "true" ∧
    pklRegExp.MatchString "b_pkl.xml" = true ∧
    guessAssetType ⟨"id", "", [⟨"a.mxf", 1⟩, ⟨"b_pkl.xml", 2⟩, ⟨"readme.txt", 3⟩]⟩
      = PKLAssetType :=
  ⟨by decide, by decide,
    ((C5_last_match_wins ⟨"id", "", [⟨"a.mxf", 1⟩, ⟨"b_pkl.xml", 2⟩, ⟨"readme.txt", 3⟩]⟩
      (by decide)).2.1 [⟨"a.mxf", 1⟩] [⟨"readme.txt", 3⟩] ⟨"b_pkl.xml", 2⟩ rfl
      (by decide)).2.1 (by decide)⟩

end Dcp

namespace Dcp

theorem cplRegExp_of_suffix (s : String) (stem ext : List Char)
    (hstem : stem = "cpl".data ∨ stem = "CPL".data) (hext : ext = "xml".data ∨ ext = "XML".data)
    (h : (stem ++ '.' :: ext) <:+ s.data) : cplRegExp.MatchString s = true :=
  (cplRegExp_iff s).mpr ⟨'.', by decide, stem, ext, hstem, hext, h⟩

theorem pklRegExp_of_suffix (s : String) (stem ext : List Char)
    (hstem : stem = "pkl".data ∨ stem = "PKL".data) (hext : ext = "xml".data ∨ ext = "XML".data)
    (h : (stem ++ '.' :: ext) <:+ s.data) : pklRegExp.MatchString s = true :=
  (pklRegExp_iff s).mpr ⟨'.', by decide, stem, ext, hstem, hext, h⟩

theorem mxfRegExp_of_suffix (s : String) (ext : List Char)
    (hext : ext = "mxf".data ∨ ext = "MXF".data)
    (h : ('.' :: ext) <:+ s.data) : mxfRegExp.MatchString s = true :=
  (mxfRegExp_iff s).mpr ⟨'.', by decide, ext, hext, h⟩

/-- C7: for an asset without the "true" flag and with exactly one chunk, a
chunk path ending in cpl.xml, cpl.XML, CPL.xml or CPL.XML gives CPL, one
ending in pkl.xml, pkl.XML, PKL.xml or PKL.XML gives PKL, and one ending in
.mxf or .MXF gives MXF. -/
theorem C7_single_chunk_by_suffix (id flag : String) (c : Chunk) (h : flag ≠ "true") :
    (("cpl.xml".data <:+ c.Path.data ∨ "cpl.XML".data <:+ c.Path.data ∨
        "CPL.xml".data <:+ c.Path.data ∨ "CPL.XML".data <:+ c.Path.data) →
      guessAssetType ⟨id, flag, [c]⟩ = CPLAssetType) ∧
    (("pkl.xml".data <:+ c.Path.data ∨ "pkl.XML".data <:+ c.Path.data ∨
        "PKL.xml".data <:+ c.Path.data ∨ "PKL.XML".data <:+ c.Path.data) →
      guessAssetType ⟨id, flag, [c]⟩ = PKLAssetType) ∧
    ((".mxf".data <:+ c.Path.data ∨ ".MXF".data <:+ c.Path.data) →
      guessAssetType ⟨id, flag, [c]⟩ = MXFAssetType) := by
  have hg : guessAssetType ⟨id, flag, [c]⟩ = guessStep UnknownAssetType c := by
    simp [guessAssetType, h]
  rw [hg]
  refine ⟨?_, ?_, ?_⟩
  · intro hs
    apply guessStep_of_cpl
    rcases hs with hs | hs | hs | hs
    · exact cplRegExp_of_suffix _ "cpl".data "xml".data (Or.inl rfl) (Or.inl rfl) hs
    · exact cplRegExp_of_suffix _ "cpl".data "XML".data (Or.inl rfl) (Or.inr rfl) hs
    · exact cplRegExp_of_suffix _ "CPL".data "xml".data (Or.inr rfl) (Or.inl rfl) hs
    · exact cplRegExp_of_suffix _ "CPL".data "XML".data (Or.inr rfl) (Or.inr rfl) hs
  · intro hs
    apply guessStep_of_pkl
    rcases hs with hs | hs | hs | hs
    · exact pklRegExp_of_suffix _ "pkl".data "xml".data (Or.inl rfl) (Or.inl rfl) hs
    · exact pklRegExp_of_suffix _ "pkl".data "XML".data (Or.inl rfl) (Or.inr rfl) hs
    · exact pklRegExp_of_suffix _ "PKL".data "xml".data (Or.inr rfl) (Or.inl rfl) hs
    · exact pklRegExp_of_suffix _ "PKL".data "XML".data (Or.inr rfl) (Or.inr rfl) hs
  · intro hs
    apply guessStep_of_mxf
    rcases hs with hs | hs
    · exact mxfRegExp_of_suffix _ "mxf".data (Or.inl rfl) hs
    · exact mxfRegExp_of_suffix _ "MXF".data (Or.inr rfl) hs

/-- C7 applied to the chunk paths of the reference fixture. -/
theorem C7_single_chunk_by_suffix_witness :
    ("" : String) ≠ "true" ∧
    guessAssetType ⟨"c", "", [⟨"d65572db-2e09-4745-817d-a2881222e2db_cpl.xml", 1550⟩]⟩
      = CPLAssetType ∧
    guessAssetType ⟨"p", "", [⟨"4d9e98c3-c923-4910-ae0e-9f5951c9cc5f_pkl.xml", 1288⟩]⟩
      = PKLAssetType ∧
    guessAssetType ⟨"v", "", [⟨"j2k_video.mxf", 3906847916⟩]⟩ = MXFAssetType :=
  ⟨by decide,
    (C7_single_chunk_by_suffix "c" ""
      ⟨"d65572db-2e09-4745-817d-a2881222e2db_cpl.xml", 1550⟩ (by decide)).1
      (Or.inl (by decide)),
    (C7_single_chunk_by_suffix "p" ""
      ⟨"4d9e98c3-c923-4910-ae0e-9f5951c9cc5f_pkl.xml", 1288⟩ (by decide)).2.1
      (Or.inl (by decide)),
    (C7_single_chunk_by_suffix "v" "" ⟨"j2k_video.mxf", 3906847916⟩ (by decide)).2.2
      (Or.inl (by decide))⟩

/-- C8 at a failing input: the chunk path `reel_cpl_xml` ends in none of the
ten literal suffixes, yet the asset is guessed to be a CPL, because the dot of
the pattern stands for any character; likewise `track_mxf` is guessed MXF and
`list-pkl-XML` is guessed PKL. -/
theorem C8_unescaped_dot_matches :
    (∀ suffix ∈ ["cpl.xml", "cpl.XML", "CPL.xml", "CPL.XML", "pkl.xml", "pkl.XML", "PKL.xml",
        "PKL.XML", ".mxf", ".MXF"],
      ¬ (suffix.data <:+ "reel_cpl_xml".data) ∧ ¬ (suffix.data <:+ "track_mxf".data) ∧
        ¬ (suffix.data <:+ "list-pkl-XML".data)) ∧
    guessAssetType ⟨"id", "", [⟨"reel_cpl_xml", 10⟩]⟩ = CPLAssetType ∧
    guessAssetType ⟨"id", "", [⟨"track_mxf", 10⟩]⟩ = MXFAssetType ∧
    guessAssetType ⟨"id", "", [⟨"list-pkl-XML", 10⟩]⟩ = PKLAssetType := by
  refine ⟨?_, ?_, ?_, ?_⟩ <;> decide

end Dcp

namespace Dcp

/-! ## Sniffing the header of a file -/

theorem bytesStartsWith_iff (s pre : Bytes) : bytesStartsWith s pre = true ↔ pre <+: s := by
  simp only [bytesStartsWith, Bool.and_eq_true, decide_eq_true_eq]
  constructor
  · rintro ⟨_, h⟩
    exact List.prefix_iff_eq_take.mpr h.symm
  · intro h
    exact ⟨h.length_le, (List.prefix_iff_eq_take.mp h).symm⟩

theorem bytesContains_iff (b sub : Bytes) : bytesContains b sub = true ↔ sub <:+: b := by
  simp only [bytesContains, List.any_eq_true, List.mem_tails, bytesStartsWith_iff]
  rw [List.infix_iff_prefix_suffix]
  constructor
  · rintro ⟨t, h1, h2⟩
    exact ⟨t, h2, h1⟩
  · rintro ⟨t, h1, h2⟩
    exact ⟨t, h2, h1⟩

/-- When `readHeader` returns no error, the path names a readable file that is
not empty, and the buffer is its first 100 bytes followed by zeros. -/
theorem readHeader_ok (env : Env) (path : String) (data : Bytes)
    (h : readHeader env path = (data, none)) :
    ∃ content, env.node path = some (.file content true) ∧ content ≠ [] ∧
      data = content.take 100 ++ List.replicate (100 - content.length) 0 := by
  unfold readHeader osOpen at h
  cases hn : env.node path with
  | none => simp [hn] at h
  | some n =>
    cases n with
    | dir names size => simp [hn, fileRead] at h
    | file content readable =>
      cases readable with
      | false => simp [hn] at h
      | true =>
        refine ⟨content, rfl, ?_⟩
        simp only [hn, if_true, fileRead, List.length_replicate] at h
        by_cases hc : content.length = 0
        · simp [hc] at h
        · simp only [hc, if_false, OfNat.ofNat_ne_zero, List.drop_replicate, Prod.mk.injEq,
            and_true] at h
          exact ⟨fun he => hc (by simp [he]), h.symm⟩

theorem readHeader_length (env : Env) (path : String) (data : Bytes)
    (h : readHeader env path = (data, none)) : data.length = 100 := by
  obtain ⟨content, _, _, rfl⟩ := readHeader_ok env path data h
  simp only [List.length_append, List.length_take, List.length_replicate]
  omega

end Dcp

namespace Dcp

theorem assetType_of_header (env : Env) (path : String) (data : Bytes)
    (h : readHeader env path = (data, none)) :
    assetType env path =
      if bytesContains data (bytesOfString "PackingList") then PKLAssetType
      else if bytesContains data (bytesOfString "CompositionPlaylist") then CPLAssetType
      else if bytesStartsWith data mxfHeader then MXFAssetType
      else UnknownAssetType := by
  simp only [assetType, h]

theorem mxfHeader_iff (data : Bytes) :
    bytesStartsWith data mxfHeader = true ↔
      data.take 28 = [0x06, 0x0E, 0x2B, 0x34, 0x02, 0x05, 0x01, 0x01, 0x0D, 0x01, 0x02, 0x01,
        0x01, 0x02, 0x04, 0x00, 0x83, 0x00, 0x00, 0x78, 0x00, 0x01, 0x00, 0x02, 0x00, 0x00,
        0x00, 0x01] := by
  rw [bytesStartsWith_iff, List.prefix_iff_eq_take]
  exact eq_comm

/-- C1: for every file whose header can be read, the header buffer is the
file's first 100 bytes, zero-padded when the file is shorter, and assetType
classifies it with this precedence: PKL if the buffer contains the ASCII text
"PackingList"; otherwise CPL if it contains "CompositionPlaylist"; otherwise
MXF if its first 28 bytes are the key 06 0E 2B 34 02 05 01 01 0D 01 02 01 01 02
04 00 83 00 00 78 00 01 00 02 00 00 00 01; otherwise Unknown. A header with
both markers is PKL, and a header that starts with the key and contains
"PackingList" is PKL. -/
theorem C1_header_precedence (env : Env) (path : String) (data : Bytes)
    (h : readHeader env path = (data, none)) :
    (∃ content, env.node path = some (.file content true) ∧
      data = content.take 100 ++ List.replicate (100 - content.length) 0) ∧
    data.length = 100 ∧
    bytesOfString "PackingList" = "PackingList".data.map Char.toNat ∧
    bytesOfString "CompositionPlaylist" = "CompositionPlaylist".data.map Char.toNat ∧
    (bytesOfString "PackingList" <:+: data → assetType env path = PKLAssetType) ∧
    (¬ bytesOfString "PackingList" <:+: data → bytesOfString "CompositionPlaylist" <:+: data →
      assetType env path = CPLAssetType) ∧
    (¬ bytesOfString "PackingList" <:+: data →
      ¬ bytesOfString "CompositionPlaylist" <:+: data →
      data.take 28 = [0x06, 0x0E, 0x2B, 0x34, 0x02, 0x05, 0x01, 0x01, 0x0D, 0x01, 0x02, 0x01,
        0x01, 0x02, 0x04, 0x00, 0x83, 0x00, 0x00, 0x78, 0x00, 0x01, 0x00, 0x02, 0x00, 0x00,
        0x00, 0x01] →
      assetType env path = MXFAssetType) ∧
    (¬ bytesOfString "PackingList" <:+: data →
      ¬ bytesOfString "CompositionPlaylist" <:+: data →
      data.take 28 ≠ [0x06, 0x0E, 0x2B, 0x34, 0x02, 0x05, 0x01, 0x01, 0x0D, 0x01, 0x02, 0x01,
        0x01, 0x02, 0x04, 0x00, 0x83, 0x00, 0x00, 0x78, 0x00, 0x01, 0x00, 0x02, 0x00, 0x00,
        0x00, 0x01] →
      assetType env path = UnknownAssetType) ∧
    (bytesOfString "PackingList" <:+: data ∧ bytesOfString "CompositionPlaylist" <:+: data →
      assetType env path = PKLAssetType) ∧
    (data.take 28 = [0x06, 0x0E, 0x2B, 0x34, 0x02, 0x05, 0x01, 0x01, 0x0D, 0x01, 0x02, 0x01,
        0x01, 0x02, 0x04, 0x00, 0x83, 0x00, 0x00, 0x78, 0x00, 0x01, 0x00, 0x02, 0x00, 0x00,
        0x00, 0x01] ∧ bytesOfString "PackingList" <:+: data →
      assetType env path = PKLAssetType) := by
  have ht := assetType_of_header env path data h
  obtain ⟨content, hnode, _, hdata⟩ := readHeader_ok env path data h
  have hp : bytesOfString "PackingList" <:+: data → assetType env path = PKLAssetType := by
    intro hin
    rw [ht, if_pos ((bytesContains_iff _ _).mpr hin)]
  refine ⟨⟨content, hnode, hdata⟩, readHeader_length env path data h, by decide, by decide,
    hp, ?_, ?_, ?_, fun hb => hp hb.1, fun hb => hp hb.2⟩
  · intro h1 h2
    rw [ht, if_neg (fun hc => h1 ((bytesContains_iff _ _).mp hc)),
      if_pos ((bytesContains_iff _ _).mpr h2)]
  · intro h1 h2 h3
    rw [ht, if_neg (fun hc => h1 ((bytesContains_iff _ _).mp hc)),
      if_neg (fun hc => h2 ((bytesContains_iff _ _).mp hc)),
      if_pos ((mxfHeader_iff data).mpr h3)]
  · intro h1 h2 h3
    rw [ht, if_neg (fun hc => h1 ((bytesContains_iff _ _).mp hc)),
      if_neg (fun hc => h2 ((bytesContains_iff _ _).mp hc)),
      if_neg (fun hc => h3 ((mxfHeader_iff data).mp hc))]

/-- C1 applied to the packing list of the example, whose 13 bytes are
`<PackingList>`: the header is read and the file is a PKL. -/
theorem C1_header_precedence_witness :
    readHeader demoEnv "good/x_pkl.xml" = (demoPKLBytes ++ List.replicate 87 0, none) ∧
    assetType demoEnv "good/x_pkl.xml" = PKLAssetType :=
  ⟨by decide,
    (C1_header_precedence demoEnv "good/x_pkl.xml" (demoPKLBytes ++ List.replicate 87 0)
      (by decide)).2.2.2.2.1 ⟨[60], 62 :: List.replicate 87 0, by decide⟩⟩

end Dcp

namespace Dcp

/-! ## The loops of Generate -/

theorem checkFileSize_none_iff (env : Env) (filename : String) (size : Nat) :
    checkFileSize env filename size = none ↔ osStat env filename = .ok size := by
  unfold checkFileSize
  cases hs : osStat env filename with
  | error e => simp
  | ok n =>
    by_cases hn : n = size
    · simp [hn]
    · simp [hn]

theorem checkFileSize_of_mismatch (env : Env) (filename : String) (size n : Nat)
    (hs : osStat env filename = .ok n) (hn : n ≠ size) :
    checkFileSize env filename size =
      some (.new ("File size for" ++ filename ++ " is incorrect")) := by
  simp [checkFileSize, hs, hn]

/-- What one pass of the loop body does, by cases on the size check, the
header sniff and the parse. -/
theorem generateChunk_spec (env : Env) (dir : String) (dcp : DCP) (c : Chunk) :
    (∃ e, checkFileSize env (env.Join dir c.Path) c.Size = some e ∧
      generateChunk env dir dcp c = (dcp, some e)) ∨
    (checkFileSize env (env.Join dir c.Path) c.Size = none ∧
      ((assetType env (env.Join dir c.Path) = CPLAssetType ∧
          ((∃ e, ParseCPLFile env (env.Join dir c.Path) = .error e ∧
              generateChunk env dir dcp c = (dcp, some e)) ∨
            (∃ cpl, ParseCPLFile env (env.Join dir c.Path) = .ok cpl ∧
              generateChunk env dir dcp c = ({ dcp with CPLs := dcp.CPLs ++ [cpl] }, none)))) ∨
        (assetType env (env.Join dir c.Path) = PKLAssetType ∧
          ((∃ e, ParsePKLFile env (env.Join dir c.Path) = .error e ∧
              generateChunk env dir dcp c = (dcp, some e)) ∨
            (∃ pkl, ParsePKLFile env (env.Join dir c.Path) = .ok pkl ∧
              generateChunk env dir dcp c = ({ dcp with PKLs := dcp.PKLs ++ [pkl] }, none)))) ∨
        (assetType env (env.Join dir c.Path) ≠ CPLAssetType ∧
          assetType env (env.Join dir c.Path) ≠ PKLAssetType ∧
          generateChunk env dir dcp c = (dcp, none)))) := by
  cases hsz : checkFileSize env (env.Join dir c.Path) c.Size with
  | some e => exact Or.inl ⟨e, rfl, by simp [generateChunk, hsz]⟩
  | none =>
    refine Or.inr ⟨rfl, ?_⟩
    by_cases hc : assetType env (env.Join dir c.Path) = CPLAssetType
    · refine Or.inl ⟨hc, ?_⟩
      cases hp : ParseCPLFile env (env.Join dir c.Path) with
      | error e => exact Or.inl ⟨e, rfl, by simp [generateChunk, hsz, hc, hp]⟩
      | ok cpl => exact Or.inr ⟨cpl, rfl, by simp [generateChunk, hsz, hc, hp]⟩
    · by_cases hk : assetType env (env.Join dir c.Path) = PKLAssetType
      · refine Or.inr (Or.inl ⟨hk, ?_⟩)
        cases hp : ParsePKLFile env (env.Join dir c.Path) with
        | error e => exact Or.inl ⟨e, rfl, by simp [generateChunk, hsz, hk, hp]⟩
        | ok pkl => exact Or.inr ⟨pkl, rfl, by simp [generateChunk, hsz, hk, hp]⟩
      · exact Or.inr (Or.inr ⟨hc, hk, by simp [generateChunk, hsz, hc, hk]⟩)

theorem generateChunks_append (env : Env) (dir : String) (dcp : DCP) (l1 l2 : List Chunk) :
    generateChunks env dir dcp (l1 ++ l2) =
      match generateChunks env dir dcp l1 with
      | (d, some e) => (d, some e)
      | (d, none) => generateChunks env dir d l2 := by
  induction l1 generalizing dcp with
  | nil => simp [generateChunks]
  | cons c l1 ih =>
    rw [List.cons_append, generateChunks, generateChunks]
    rcases hg : generateChunk env dir dcp c with ⟨d, _ | e⟩
    · exact ih d
    · rfl

/-- The two nested loops visit the chunks in document order. -/
theorem generateAssets_eq (env : Env) (dir : String) (dcp : DCP) (assets : List AMAsset) :
    generateAssets env dir dcp assets =
      generateChunks env dir dcp (assets.flatMap AMAsset.Chunks) := by
  induction assets generalizing dcp with
  | nil => simp [generateAssets, generateChunks]
  | cons a assets ih =>
    rw [generateAssets, List.flatMap_cons, generateChunks_append]
    rcases hg : generateChunks env dir dcp a.Chunks with ⟨d, _ | e⟩
    · exact ih d
    · rfl

end Dcp

namespace Dcp

/-- One pass of the loop body never touches RootDir, the manifest filename or
AssetMap, and only appends to the two lists. -/
theorem generateChunk_frame (env : Env) (dir : String) (dcp : DCP) (c : Chunk) :
    (generateChunk env dir dcp c).1.RootDir = dcp.RootDir ∧
    (generateChunk env dir dcp c).1.assetMapFile = dcp.assetMapFile ∧
    (generateChunk env dir dcp c).1.AssetMap = dcp.AssetMap ∧
    dcp.CPLs <+: (generateChunk env dir dcp c).1.CPLs ∧
    dcp.PKLs <+: (generateChunk env dir dcp c).1.PKLs := by
  rcases generateChunk_spec env dir dcp c with
    ⟨e, _, hg⟩ | ⟨_, ⟨_, ⟨e, _, hg⟩ | ⟨cpl, _, hg⟩⟩ | ⟨_, ⟨e, _, hg⟩ | ⟨pkl, _, hg⟩⟩ | ⟨_, _, hg⟩⟩ <;>
    simp [hg]

theorem generateChunks_frame (env : Env) (dir : String) (dcp : DCP) (l : List Chunk) :
    (generateChunks env dir dcp l).1.RootDir = dcp.RootDir ∧
    (generateChunks env dir dcp l).1.assetMapFile = dcp.assetMapFile ∧
    (generateChunks env dir dcp l).1.AssetMap = dcp.AssetMap ∧
    dcp.CPLs <+: (generateChunks env dir dcp l).1.CPLs ∧
    dcp.PKLs <+: (generateChunks env dir dcp l).1.PKLs := by
  induction l generalizing dcp with
  | nil => simp [generateChunks]
  | cons c l ih =>
    have hf := generateChunk_frame env dir dcp c
    rw [generateChunks]
    rcases hg : generateChunk env dir dcp c with ⟨d, _ | e⟩
    · rw [hg] at hf
      obtain ⟨h1, h2, h3, h4, h5⟩ := ih d
      exact ⟨h1.trans hf.1, h2.trans hf.2.1, h3.trans hf.2.2.1, hf.2.2.2.1.trans h4,
        hf.2.2.2.2.trans h5⟩
    · rw [hg] at hf
      exact hf

/-- A pass of the loop body that returns no error: the size check passed, and
the lists grew by the parse result of the chunk when its header says CPL or
PKL. -/
theorem generateChunk_ok (env : Env) (dir : String) (dcp d : DCP) (c : Chunk)
    (h : generateChunk env dir dcp c = (d, none)) :
    checkFileSize env (env.Join dir c.Path) c.Size = none ∧
    d.CPLs.map (Except.ok : CPL → Except Err CPL) =
      dcp.CPLs.map Except.ok ++
        ([c].filter fun c => decide (assetType env (env.Join dir c.Path) = CPLAssetType)).map
          (fun c => ParseCPLFile env (env.Join dir c.Path)) ∧
    d.PKLs.map (Except.ok : PKL → Except Err PKL) =
      dcp.PKLs.map Except.ok ++
        ([c].filter fun c => decide (assetType env (env.Join dir c.Path) = PKLAssetType)).map
          (fun c => ParsePKLFile env (env.Join dir c.Path)) := by
  rcases generateChunk_spec env dir dcp c with
    ⟨e, _, hg⟩ | ⟨hs, ⟨ht, ⟨e, _, hg⟩ | ⟨cpl, hp, hg⟩⟩ | ⟨ht, ⟨e, _, hg⟩ | ⟨pkl, hp, hg⟩⟩ |
      ⟨ht1, ht2, hg⟩⟩
  · rw [hg] at h
    simp at h
  · rw [hg] at h
    simp at h
  · rw [hg] at h
    simp only [Prod.mk.injEq, and_true] at h
    subst h
    simp [hs, ht, hp]
  · rw [hg] at h
    simp at h
  · rw [hg] at h
    simp only [Prod.mk.injEq, and_true] at h
    subst h
    simp [hs, ht, hp]
  · rw [hg] at h
    simp only [Prod.mk.injEq, and_true] at h
    subst h
    simp [hs, ht1, ht2]

end Dcp

namespace Dcp

/-- A run of the loop that returns no error: every chunk passed the size
check, and the lists grew by the parse results of the chunks sniffed as CPL
and as PKL, in order. -/
theorem generateChunks_ok (env : Env) (dir : String) (dcp d : DCP) (l : List Chunk)
    (h : generateChunks env dir dcp l = (d, none)) :
    (∀ c ∈ l, checkFileSize env (env.Join dir c.Path) c.Size = none) ∧
    d.CPLs.map (Except.ok : CPL → Except Err CPL) =
      dcp.CPLs.map Except.ok ++
        (l.filter fun c => decide (assetType env (env.Join dir c.Path) = CPLAssetType)).map
          (fun c => ParseCPLFile env (env.Join dir c.Path)) ∧
    d.PKLs.map (Except.ok : PKL → Except Err PKL) =
      dcp.PKLs.map Except.ok ++
        (l.filter fun c => decide (assetType env (env.Join dir c.Path) = PKLAssetType)).map
          (fun c => ParsePKLFile env (env.Join dir c.Path)) := by
  induction l generalizing dcp with
  | nil =>
    simp only [generateChunks, Prod.mk.injEq, and_true] at h
    subst h
    simp
  | cons c l ih =>
    rw [generateChunks] at h
    rcases hg : generateChunk env dir dcp c with ⟨d1, _ | e⟩
    · rw [hg] at h
      obtain ⟨hs1, hc1, hp1⟩ := generateChunk_ok env dir dcp d1 c hg
      obtain ⟨hs2, hc2, hp2⟩ := ih d1 h
      refine ⟨?_, ?_, ?_⟩
      · intro c' hc'
        rcases List.mem_cons.mp hc' with rfl | hm
        · exact hs1
        · exact hs2 c' hm
      · rw [hc2, hc1, List.append_assoc, ← List.map_append, ← List.filter_append]
        rfl
      · rw [hp2, hp1, List.append_assoc, ← List.map_append, ← List.filter_append]
        rfl
    · rw [hg] at h
      simp at h

/-- When every chunk of a list passes all its steps, the loop over the list
returns no error. -/
theorem generateChunks_of_all_pass (env : Env) (dir : String) (dcp : DCP) (l : List Chunk)
    (h : ∀ c ∈ l, ∀ d, (generateChunk env dir d c).2 = none) :
    (generateChunks env dir dcp l).2 = none := by
  induction l generalizing dcp with
  | nil => rfl
  | cons c l ih =>
    rw [generateChunks]
    have hc := h c (List.mem_cons_self _ _) dcp
    rcases hg : generateChunk env dir dcp c with ⟨d1, _ | e⟩
    · exact ih d1 fun c' hc' => h c' (List.mem_cons_of_mem _ hc')
    · rw [hg] at hc
      simp at hc

/-- Whether a chunk passes does not depend on the receiver. -/
theorem generateChunk_err_indep (env : Env) (dir : String) (d1 d2 : DCP) (c : Chunk) :
    (generateChunk env dir d1 c).2 = (generateChunk env dir d2 c).2 := by
  rcases generateChunk_spec env dir d1 c with
    ⟨e, hs, hg⟩ | ⟨hs, ⟨ht, ⟨e, hp, hg⟩ | ⟨cpl, hp, hg⟩⟩ | ⟨ht, ⟨e, hp, hg⟩ | ⟨pkl, hp, hg⟩⟩ |
      ⟨ht1, ht2, hg⟩⟩ <;>
    rw [hg] <;> simp_all [generateChunk]

/-- What Generate returns, in terms of the flat loop over the chunks. -/
theorem Generate_eq (env : Env) (dcp : DCP) (dir amFileName : String) (am : AssetMap)
    (hf : findAssetMap env dir = .ok amFileName)
    (hp : ParseAssetMapFile env amFileName = .ok am) :
    DCP.Generate env dcp dir =
      match generateChunks env dir
        { dcp with RootDir := dir, assetMapFile := env.Base amFileName }
        (am.Assets.flatMap AMAsset.Chunks) with
      | (dcp2, some err) => (dcp2, some err)
      | (dcp2, none) => ({ dcp2 with AssetMap := some am }, none) := by
  simp only [DCP.Generate, hf, hp, generateAssets_eq]

end Dcp

namespace Dcp

/-! ## Generate -/

theorem Generate_ok_inv (env : Env) (dcp dcp2 : DCP) (dir : String)
    (h : DCP.Generate env dcp dir = (dcp2, none)) :
    ∃ amFileName am d, findAssetMap env dir = .ok amFileName ∧
      ParseAssetMapFile env amFileName = .ok am ∧
      generateChunks env dir { dcp with RootDir := dir, assetMapFile := env.Base amFileName }
        (am.Assets.flatMap AMAsset.Chunks) = (d, none) ∧
      dcp2 = { d with AssetMap := some am } := by
  cases hf : findAssetMap env dir with
  | error e => simp [DCP.Generate, hf] at h
  | ok amFileName =>
    cases hp : ParseAssetMapFile env amFileName with
    | error e => simp [DCP.Generate, hf, hp] at h
    | ok am =>
      rw [Generate_eq env dcp dir amFileName am hf hp] at h
      rcases hg : generateChunks env dir
        { dcp with RootDir := dir, assetMapFile := env.Base amFileName }
        (am.Assets.flatMap AMAsset.Chunks) with ⟨d, _ | e⟩
      · rw [hg] at h
        simp only [Prod.mk.injEq, and_true] at h
        exact ⟨amFileName, am, d, rfl, hp, hg, h.symm⟩
      · rw [hg] at h
        simp at h

theorem Generate_err_inv (env : Env) (dcp dcp2 : DCP) (dir : String) (err : Err)
    (h : DCP.Generate env dcp dir = (dcp2, some err)) :
    (findAssetMap env dir = .error err ∧ dcp2 = dcp) ∨
    (∃ amFileName, findAssetMap env dir = .ok amFileName ∧
      ParseAssetMapFile env amFileName = .error err ∧ dcp2 = dcp) ∨
    (∃ amFileName am, findAssetMap env dir = .ok amFileName ∧
      ParseAssetMapFile env amFileName = .ok am ∧
      generateChunks env dir { dcp with RootDir := dir, assetMapFile := env.Base amFileName }
        (am.Assets.flatMap AMAsset.Chunks) = (dcp2, some err)) := by
  cases hf : findAssetMap env dir with
  | error e =>
    simp only [DCP.Generate, hf, Prod.mk.injEq, Option.some.injEq] at h
    exact Or.inl ⟨by rw [h.2], h.1.symm⟩
  | ok amFileName =>
    cases hp : ParseAssetMapFile env amFileName with
    | error e =>
      simp only [DCP.Generate, hf, hp, Prod.mk.injEq, Option.some.injEq] at h
      exact Or.inr (Or.inl ⟨amFileName, rfl, by rw [hp, h.2], h.1.symm⟩)
    | ok am =>
      rw [Generate_eq env dcp dir amFileName am hf hp] at h
      rcases hg : generateChunks env dir
        { dcp with RootDir := dir, assetMapFile := env.Base amFileName }
        (am.Assets.flatMap AMAsset.Chunks) with ⟨d, _ | e⟩
      · rw [hg] at h
        simp at h
      · rw [hg] at h
        simp only [Prod.mk.injEq, Option.some.injEq] at h
        exact Or.inr (Or.inr ⟨amFileName, am, rfl, hp, by rw [hg, h.1, h.2]⟩)

end Dcp

namespace Dcp

/-- C2: if Generate returns no error, then for every chunk of every asset of
the parsed asset map the file at dir joined with the chunk's Path exists and
its length on disk equals the chunk's declared Size. Conversely, if every
chunk before a chunk c, in document order, passes all its steps and the file
of c exists with a length different from the declared Size, Generate returns
the error whose message is "File size for", the resolved path of that file,
and " is incorrect". -/
theorem C2_sizes_checked (env : Env) (dcp : DCP) (dir : String) :
    ((DCP.Generate env dcp dir).2 = none →
      ∃ amFileName am, findAssetMap env dir = .ok amFileName ∧
        ParseAssetMapFile env amFileName = .ok am ∧
        ∀ asset ∈ am.Assets, ∀ chunk ∈ asset.Chunks,
          osStat env (env.Join dir chunk.Path) = .ok chunk.Size) ∧
    (∀ (amFileName : String) (am : AssetMap) (pre post : List Chunk) (c : Chunk) (n : Nat),
      findAssetMap env dir = .ok amFileName → ParseAssetMapFile env amFileName = .ok am →
      am.Assets.flatMap AMAsset.Chunks = pre ++ c :: post →
      (∀ c2 ∈ pre, ∀ d, (generateChunk env dir d c2).2 = none) →
      osStat env (env.Join dir c.Path) = .ok n → n ≠ c.Size →
      (DCP.Generate env dcp dir).2 =
        some (.new ("File size for" ++ env.Join dir c.Path ++ " is incorrect"))) := by
  constructor
  · intro h
    have h2 : DCP.Generate env dcp dir = ((DCP.Generate env dcp dir).1, none) := by
      rw [← h]
    obtain ⟨amFileName, am, d, hf, hp, hg, _⟩ := Generate_ok_inv env dcp _ dir h2
    refine ⟨amFileName, am, hf, hp, ?_⟩
    intro asset hasset chunk hchunk
    apply (checkFileSize_none_iff env _ _).mp
    exact (generateChunks_ok env dir _ d _ hg).1 chunk
      (List.mem_flatMap.mpr ⟨asset, hasset, hchunk⟩)
  · intro amFileName am pre post c n hf hp hsplit hpre hstat hne
    rw [Generate_eq env dcp dir amFileName am hf hp, hsplit, generateChunks_append]
    have hpass := generateChunks_of_all_pass env dir
      { dcp with RootDir := dir, assetMapFile := env.Base amFileName } pre hpre
    rcases hg : generateChunks env dir
      { dcp with RootDir := dir, assetMapFile := env.Base amFileName } pre with ⟨d, _ | e⟩
    · have hc : generateChunk env dir d c =
          (d, some (.new ("File size for" ++ env.Join dir c.Path ++ " is incorrect"))) := by
        simp [generateChunk, checkFileSize_of_mismatch env _ c.Size n hstat hne]
      simp only [generateChunks, hc]
    · rw [hg] at hpass
      simp at hpass

/-- C2 applied to the example: in the directory `good` Generate returns no
error and every chunk has its declared size; in the directory `bad` the first
chunk passes and the second is 13 bytes long where 12 are declared. -/
theorem C2_sizes_checked_witness :
    (DCP.Generate demoEnv DCP.empty "good").2 = none ∧
    (∃ amFileName am, findAssetMap demoEnv "good" = .ok amFileName ∧
        ParseAssetMapFile demoEnv amFileName = .ok am ∧
        ∀ asset ∈ am.Assets, ∀ chunk ∈ asset.Chunks,
          osStat demoEnv (demoEnv.Join "good" chunk.Path) = .ok chunk.Size) ∧
    osStat demoEnv (demoEnv.Join "bad" "x_pkl.xml") = .ok 13 ∧
    (DCP.Generate demoEnv DCP.empty "bad").2 =
      some (.new ("File size for" ++ demoEnv.Join "bad" "x_pkl.xml" ++ " is incorrect")) :=
  ⟨by decide,
    (C2_sizes_checked demoEnv DCP.empty "good").1 (by decide),
    rfl,
    (C2_sizes_checked demoEnv DCP.empty "bad").2 "bad/assetmap.xml"
      ⟨UNKNOWN, "am", "", 1, "", ⟨0⟩,
        [⟨"c", CPLAssetType, [⟨"x_cpl.xml", 21⟩]⟩, ⟨"p", PKLAssetType, [⟨"x_pkl.xml", 12⟩]⟩]⟩
      [⟨"x_cpl.xml", 21⟩] [] ⟨"x_pkl.xml", 12⟩ 13 rfl rfl rfl
      (fun c2 hc2 d => (generateChunk_err_indep demoEnv "bad" d DCP.empty c2).trans
        ((by decide : ∀ c3 ∈ [(⟨"x_cpl.xml", 21⟩ : Chunk)],
          (generateChunk demoEnv "bad" DCP.empty c3).2 = none) c2 hc2))
      rfl (by decide)⟩

end Dcp

namespace Dcp

/-- C3: when Generate succeeds on a freshly constructed DCP, the receiver
holds RootDir = dir, the base filename of the manifest, AssetMap = exactly the
asset map the asset map parser returned, CPLs = the parse results of exactly
the chunks whose header sniff is CPL, in document order of assets and chunks,
and PKLs = the parse results of exactly the chunks whose header sniff is PKL,
in document order; chunks sniffed as MXF or Unknown are in neither list. -/
theorem C3_success_state (env : Env) (dir : String) (dcp2 : DCP)
    (h : DCP.Generate env DCP.empty dir = (dcp2, none)) :
    ∃ amFileName am, findAssetMap env dir = .ok amFileName ∧
      ParseAssetMapFile env amFileName = .ok am ∧
      dcp2.RootDir = dir ∧
      dcp2.assetMapFile = env.Base amFileName ∧
      dcp2.AssetMap = some am ∧
      dcp2.CPLs.map (Except.ok : CPL → Except Err CPL) =
        ((am.Assets.flatMap AMAsset.Chunks).filter
          fun c => decide (assetType env (env.Join dir c.Path) = CPLAssetType)).map
          (fun c => ParseCPLFile env (env.Join dir c.Path)) ∧
      dcp2.PKLs.map (Except.ok : PKL → Except Err PKL) =
        ((am.Assets.flatMap AMAsset.Chunks).filter
          fun c => decide (assetType env (env.Join dir c.Path) = PKLAssetType)).map
          (fun c => ParsePKLFile env (env.Join dir c.Path)) := by
  obtain ⟨amFileName, am, d, hf, hp, hg, hd⟩ := Generate_ok_inv env DCP.empty dcp2 dir h
  have hfr := generateChunks_frame env dir
    { DCP.empty with RootDir := dir, assetMapFile := env.Base amFileName }
    (am.Assets.flatMap AMAsset.Chunks)
  rw [hg] at hfr
  obtain ⟨_, hc, hk⟩ := generateChunks_ok env dir _ d _ hg
  subst hd
  refine ⟨amFileName, am, hf, hp, hfr.1, hfr.2.1, rfl, ?_, ?_⟩
  · simpa [DCP.empty] using hc
  · simpa [DCP.empty] using hk

/-- C3 applied to the directory `good` of the example: Generate succeeds, and
the receiver holds the directory, the manifest name, one CPL and one PKL. -/
theorem C3_success_state_witness :
    (DCP.Generate demoEnv DCP.empty "good").2 = none ∧
    (DCP.Generate demoEnv DCP.empty "good").1.RootDir = "good" ∧
    (DCP.Generate demoEnv DCP.empty "good").1.assetMapFile = "ASSETMAP" ∧
    (DCP.Generate demoEnv DCP.empty "good").1.CPLs.length = 1 ∧
    (DCP.Generate demoEnv DCP.empty "good").1.PKLs.length = 1 ∧
    ∃ amFileName am, findAssetMap demoEnv "good" = .ok amFileName ∧
      ParseAssetMapFile demoEnv amFileName = .ok am ∧
      (DCP.Generate demoEnv DCP.empty "good").1.AssetMap = some am :=
  ⟨by decide, by decide, by decide, by decide, by decide,
    match C3_success_state demoEnv "good" (DCP.Generate demoEnv DCP.empty "good").1
      (by decide) with
    | ⟨amFileName, am, hf, hp, _, _, ha, _, _⟩ => ⟨amFileName, am, hf, hp, ha⟩⟩

set_option maxRecDepth 100000 in
/-- C4, as the claim states it, fails. The directory `cut` holds a
well-formed asset map, composition playlist and packing list, and a picture
track of 29 bytes for which the asset map declares 30. Generate on the empty
DCP returns the size error of the third chunk, and the receiver now has
RootDir "cut", the manifest filename "ASSETMAP", one CPL and one PKL; only
AssetMap is still nil. -/
theorem C4_all_or_nothing_counterexample :
    (DCP.Generate pkgEnv DCP.empty "cut").2 =
      some (.new "File size forcut/video.mxf is incorrect") ∧
    DCP.empty.RootDir = "" ∧
    (DCP.Generate pkgEnv DCP.empty "cut").1.RootDir = "cut" ∧
    DCP.empty.assetMapFile = "" ∧
    (DCP.Generate pkgEnv DCP.empty "cut").1.assetMapFile = "ASSETMAP" ∧
    DCP.empty.CPLs = [] ∧
    (DCP.Generate pkgEnv DCP.empty "cut").1.CPLs.map CPL.ID = ["c"] ∧
    DCP.empty.PKLs = [] ∧
    (DCP.Generate pkgEnv DCP.empty "cut").1.PKLs.map PKL.ID = ["p"] ∧
    (DCP.Generate pkgEnv DCP.empty "cut").1.AssetMap = none ∧
    (DCP.Generate pkgEnv DCP.empty "cut").1 ≠ DCP.empty := by
  refine ⟨?_, ?_, ?_, ?_, ?_, ?_, ?_, ?_, ?_, ?_, ?_⟩ <;> decide

/-- C4, amended: if Generate returns an error, the receiver's AssetMap is
equal to its value before the call and its CPLs and PKLs begin with their
values before the call. If the error comes from finding or parsing the asset
map, every field of the receiver is equal to its value before the call;
otherwise RootDir is dir and the manifest filename is the base name of the
asset map that was found. -/
theorem C4_failure_state (env : Env) (dcp dcp2 : DCP) (dir : String) (err : Err)
    (h : DCP.Generate env dcp dir = (dcp2, some err)) :
    dcp2.AssetMap = dcp.AssetMap ∧ dcp.CPLs <+: dcp2.CPLs ∧ dcp.PKLs <+: dcp2.PKLs ∧
    ((findAssetMap env dir = .error err ∧ dcp2 = dcp) ∨
      (∃ amFileName, findAssetMap env dir = .ok amFileName ∧
        ParseAssetMapFile env amFileName = .error err ∧ dcp2 = dcp) ∨
      (∃ amFileName am, findAssetMap env dir = .ok amFileName ∧
        ParseAssetMapFile env amFileName = .ok am ∧
        dcp2.RootDir = dir ∧ dcp2.assetMapFile = env.Base amFileName)) := by
  rcases Generate_err_inv env dcp dcp2 dir err h with
    ⟨hf, rfl⟩ | ⟨amFileName, hf, hp, rfl⟩ | ⟨amFileName, am, hf, hp, hg⟩
  · exact ⟨rfl, List.prefix_refl _, List.prefix_refl _, Or.inl ⟨hf, rfl⟩⟩
  · exact ⟨rfl, List.prefix_refl _, List.prefix_refl _, Or.inr (Or.inl ⟨amFileName, hf, hp, rfl⟩)⟩
  · have hfr := generateChunks_frame env dir
      { dcp with RootDir := dir, assetMapFile := env.Base amFileName }
      (am.Assets.flatMap AMAsset.Chunks)
    rw [hg] at hfr
    exact ⟨hfr.2.2.1, hfr.2.2.2.1, hfr.2.2.2.2,
      Or.inr (Or.inr ⟨amFileName, am, hf, hp, hfr.1, hfr.2.1⟩)⟩

set_option maxRecDepth 100000 in
/-- C4 (amended) applied to the directory `cut`, where Generate returns the
size error of the third chunk after a CPL and a PKL were parsed. -/
theorem C4_failure_state_witness :
    (DCP.Generate pkgEnv DCP.empty "cut").2 =
      some (.new "File size forcut/video.mxf is incorrect") ∧
    (DCP.Generate pkgEnv DCP.empty "cut").1.AssetMap = DCP.empty.AssetMap ∧
    DCP.empty.CPLs <+: (DCP.Generate pkgEnv DCP.empty "cut").1.CPLs ∧
    DCP.empty.PKLs <+: (DCP.Generate pkgEnv DCP.empty "cut").1.PKLs :=
  ⟨by decide,
    (C4_failure_state pkgEnv DCP.empty (DCP.Generate pkgEnv DCP.empty "cut").1 "cut"
      (.new "File size forcut/video.mxf is incorrect") (by decide)).1,
    (C4_failure_state pkgEnv DCP.empty (DCP.Generate pkgEnv DCP.empty "cut").1 "cut"
      (.new "File size forcut/video.mxf is incorrect") (by decide)).2.1,
    (C4_failure_state pkgEnv DCP.empty (DCP.Generate pkgEnv DCP.empty "cut").1 "cut"
      (.new "File size forcut/video.mxf is incorrect") (by decide)).2.2.1⟩

end Dcp

namespace Dcp

/-! ## Formats, MIME types, content kinds and the MXF range -/

/-- C11: format detection never fails and looks at the xmlns string only.
makeAssetMap gives INTEROP exactly for
"http://www.digicine.com/PROTO-ASDCP-AM-20040311#", SMPTE exactly for
"http://www.smpte-ra.org/schemas/429-9/2007/AM" and UNKNOWN for every other
string, the empty one included; makeCPL gives INTEROP exactly for
"http://www.digicine.com/PROTO-ASDCP-CPL-20040511#", SMPTE exactly for
"http://www.smpte-ra.org/schemas/429-7/2006/CPL" and UNKNOWN otherwise. Two
documents with the same xmlns string get the same format. -/
theorem C11_format_of_xmlns (x y : assetMapXML) (c d : cplXML) :
    (∃ am, makeAssetMap x = .ok am ∧
      (am.Format = INTEROP ↔ x.Xmlns = "http://www.digicine.com/PROTO-ASDCP-AM-20040311#") ∧
      (am.Format = SMPTE ↔ x.Xmlns = "http://www.smpte-ra.org/schemas/429-9/2007/AM") ∧
      (am.Format = UNKNOWN ↔
        (x.Xmlns ≠ "http://www.digicine.com/PROTO-ASDCP-AM-20040311#" ∧
          x.Xmlns ≠ "http://www.smpte-ra.org/schemas/429-9/2007/AM")) ∧
      (x.Xmlns = "" → am.Format = UNKNOWN) ∧
      (∀ am2, x.Xmlns = y.Xmlns → makeAssetMap y = .ok am2 → am2.Format = am.Format)) ∧
    (∃ cpl, makeCPL c = .ok cpl ∧
      (cpl.Format = INTEROP ↔ c.Xmlns = "http://www.digicine.com/PROTO-ASDCP-CPL-20040511#") ∧
      (cpl.Format = SMPTE ↔ c.Xmlns = "http://www.smpte-ra.org/schemas/429-7/2006/CPL") ∧
      (cpl.Format = UNKNOWN ↔
        (c.Xmlns ≠ "http://www.digicine.com/PROTO-ASDCP-CPL-20040511#" ∧
          c.Xmlns ≠ "http://www.smpte-ra.org/schemas/429-7/2006/CPL")) ∧
      (c.Xmlns = "" → cpl.Format = UNKNOWN) ∧
      (∀ cpl2, c.Xmlns = d.Xmlns → makeCPL d = .ok cpl2 → cpl2.Format = cpl.Format)) := by
  constructor
  · refine ⟨_, rfl, ?_, ?_, ?_, ?_, ?_⟩
    · by_cases h1 : x.Xmlns = "http://www.digicine.com/PROTO-ASDCP-AM-20040311#"
      · simp [h1]
      · by_cases h2 : x.Xmlns = "http://www.smpte-ra.org/schemas/429-9/2007/AM" <;> simp [h1, h2]
    · by_cases h1 : x.Xmlns = "http://www.digicine.com/PROTO-ASDCP-AM-20040311#"
      · simp [h1]
      · by_cases h2 : x.Xmlns = "http://www.smpte-ra.org/schemas/429-9/2007/AM" <;> simp [h1, h2]
    · by_cases h1 : x.Xmlns = "http://www.digicine.com/PROTO-ASDCP-AM-20040311#"
      · simp [h1]
      · by_cases h2 : x.Xmlns = "http://www.smpte-ra.org/schemas/429-9/2007/AM" <;> simp [h1, h2]
    · intro h
      simp [h]
    · intro am2 hxy hy
      simp only [makeAssetMap, Except.ok.injEq] at hy
      rw [← hy, hxy]
  · refine ⟨_, rfl, ?_, ?_, ?_, ?_, ?_⟩
    · by_cases h1 : c.Xmlns = "http://www.digicine.com/PROTO-ASDCP-CPL-20040511#"
      · simp [h1]
      · by_cases h2 : c.Xmlns = "http://www.smpte-ra.org/schemas/429-7/2006/CPL" <;> simp [h1, h2]
    · by_cases h1 : c.Xmlns = "http://www.digicine.com/PROTO-ASDCP-CPL-20040511#"
      · simp [h1]
      · by_cases h2 : c.Xmlns = "http://www.smpte-ra.org/schemas/429-7/2006/CPL" <;> simp [h1, h2]
    · by_cases h1 : c.Xmlns = "http://www.digicine.com/PROTO-ASDCP-CPL-20040511#"
      · simp [h1]
      · by_cases h2 : c.Xmlns = "http://www.smpte-ra.org/schemas/429-7/2006/CPL" <;> simp [h1, h2]
    · intro h
      simp [h]
    · intro cpl2 hcd hd
      simp only [makeCPL, Except.ok.injEq] at hd
      rw [← hd, hcd]

end Dcp

namespace Dcp

/-- C11 applied to an asset map and a CPL with the SMPTE namespaces, and to
the empty namespace. -/
theorem C11_format_of_xmlns_witness :
    (∃ am, makeAssetMap demoGoodAM = .ok am ∧ am.Format = SMPTE) ∧
    (∃ am, makeAssetMap demoBadAM = .ok am ∧ am.Format = UNKNOWN) ∧
    (∃ cpl, makeCPL demoCPLXML = .ok cpl ∧ cpl.Format = SMPTE) :=
  ⟨match (C11_format_of_xmlns demoGoodAM demoGoodAM demoCPLXML demoCPLXML).1 with
    | ⟨am, h, _, h2, _⟩ => ⟨am, h, h2.mpr rfl⟩,
   match (C11_format_of_xmlns demoBadAM demoBadAM demoCPLXML demoCPLXML).1 with
    | ⟨am, h, _, _, _, h4, _⟩ => ⟨am, h, h4 rfl⟩,
   match (C11_format_of_xmlns demoGoodAM demoGoodAM demoCPLXML demoCPLXML).2 with
    | ⟨cpl, h, _, h2, _⟩ => ⟨cpl, h, h2.mpr rfl⟩⟩

theorem ParsePKL_ok_inv (env : Env) (xmlBytes : Bytes) (pkl : PKL)
    (h : ParsePKL env xmlBytes = .ok pkl) :
    ∃ raw, env.unmarshalPKL xmlBytes = .ok raw ∧
      pkl = { raw with Assets := raw.Assets.map assignType } := by
  unfold ParsePKL at h
  cases hu : env.unmarshalPKL xmlBytes with
  | error m => simp [hu] at h
  | ok raw =>
    simp only [hu, Except.ok.injEq] at h
    exact ⟨raw, rfl, h.symm⟩

theorem assignType_mime (a : PKLAsset) : (assignType a).MimeType = a.MimeType := by
  unfold assignType
  split
  · rfl
  · split
    · rfl
    · split <;> rfl

theorem assignType_table (a : PKLAsset) :
    (a.MimeType = "application/x-smpte-mxf;asdcpKind=Picture" →
      (assignType a).Typ = MXFPictureAssetType) ∧
    (a.MimeType = "application/x-smpte-mxf;asdcpKind=Sound" →
      (assignType a).Typ = MXFSoundAssetType) ∧
    (a.MimeType = "text/xml;asdcpKind=CPL" → (assignType a).Typ = CPLAssetType) := by
  refine ⟨?_, ?_, ?_⟩ <;> intro h <;> simp [assignType, h]

/-- An asset whose MIME type is not in the table keeps the decoded Type. -/
theorem assignType_unmapped (a : PKLAsset)
    (h1 : a.MimeType ≠ "application/x-smpte-mxf;asdcpKind=Picture")
    (h2 : a.MimeType ≠ "application/x-smpte-mxf;asdcpKind=Sound")
    (h3 : a.MimeType ≠ "text/xml;asdcpKind=CPL") : assignType a = a := by
  simp [assignType, h1, h2, h3]

/-- C12: for every PKL asset returned by ParsePKL, the MimeType
"application/x-smpte-mxf;asdcpKind=Picture" gives Type MXFPicture,
"application/x-smpte-mxf;asdcpKind=Sound" gives Type MXFSound, and
"text/xml;asdcpKind=CPL" gives Type CPL. -/
theorem C12_mime_table (env : Env) (xmlBytes : Bytes) (pkl : PKL)
    (h : ParsePKL env xmlBytes = .ok pkl) :
    ∀ a ∈ pkl.Assets,
      (a.MimeType = "application/x-smpte-mxf;asdcpKind=Picture" →
        a.Typ = MXFPictureAssetType) ∧
      (a.MimeType = "application/x-smpte-mxf;asdcpKind=Sound" → a.Typ = MXFSoundAssetType) ∧
      (a.MimeType = "text/xml;asdcpKind=CPL" → a.Typ = CPLAssetType) := by
  obtain ⟨raw, _, rfl⟩ := ParsePKL_ok_inv env xmlBytes pkl h
  intro a ha
  obtain ⟨b, _, rfl⟩ := List.mem_map.mp ha
  have ht := assignType_table b
  rw [assignType_mime]
  exact ht

/-- C12 applied to the packing list of the example, whose asset is a picture
track. -/
theorem C12_mime_table_witness :
    ParsePKL demoEnv demoPKLBytes =
      .ok { demoPKL with
        Assets := [⟨"v", "", "h", 29, "application/x-smpte-mxf;asdcpKind=Picture",
          MXFPictureAssetType⟩] } ∧
    (⟨"v", "", "h", 29, "application/x-smpte-mxf;asdcpKind=Picture", MXFPictureAssetType⟩ :
      PKLAsset).Typ = MXFPictureAssetType :=
  ⟨rfl,
    ((C12_mime_table demoEnv demoPKLBytes
      { demoPKL with
        Assets := [⟨"v", "", "h", 29, "application/x-smpte-mxf;asdcpKind=Picture",
          MXFPictureAssetType⟩] } rfl)
      ⟨"v", "", "h", 29, "application/x-smpte-mxf;asdcpKind=Picture", MXFPictureAssetType⟩
      (List.mem_singleton.mpr rfl)).1 rfl⟩

set_option maxRecDepth 4000 in
/-- C13 at a failing input: a packing list whose asset has the MIME type
"application/x-smpte-mxf", which is not in the table, and an element
`PreventMatch` with the text 4. The decoder stores 4 in the field Type, whose
tag names that element, the switch of ParsePKL has no case for this MIME type,
and ParsePKL returns the asset with Type MXFPicture, without an error. -/
theorem C13_prevent_match_sets_type :
    ParsePKL demoEnv2 demoOddPKLBytes = .ok demoOddPKL ∧
    demoOddPKL.Assets.map PKLAsset.MimeType = ["application/x-smpte-mxf"] ∧
    demoOddPKL.Assets.map PKLAsset.Typ = [MXFPictureAssetType] ∧
    MXFPictureAssetType ≠ UnknownAssetType :=
  ⟨rfl, rfl, rfl, by decide⟩

/-- C14: makeCPL never returns an error, and the content kind is Test exactly
for "test", Feature exactly for "feature", Advertisement exactly for
"advertisement", and Unknown for every other string, "Test", "FEATURE" and
the empty string included. -/
theorem C14_content_kind (x : cplXML) :
    ∃ cpl, makeCPL x = .ok cpl ∧
      (cpl.ContentKind = testCPLKind ↔ x.ContentKind = "test") ∧
      (cpl.ContentKind = featureCPLKind ↔ x.ContentKind = "feature") ∧
      (cpl.ContentKind = advertisementCPLKind ↔ x.ContentKind = "advertisement") ∧
      (cpl.ContentKind = unkownCPLKind ↔
        (x.ContentKind ≠ "test" ∧ x.ContentKind ≠ "feature" ∧
          x.ContentKind ≠ "advertisement")) ∧
      (x.ContentKind = "Test" ∨ x.ContentKind = "FEATURE" ∨ x.ContentKind = "" →
        cpl.ContentKind = unkownCPLKind) := by
  refine ⟨_, rfl, ?_, ?_, ?_, ?_, ?_⟩
  · by_cases h1 : x.ContentKind = "test"
    · simp [h1]
    · by_cases h2 : x.ContentKind = "feature"
      · simp [h2]
      · by_cases h3 : x.ContentKind = "advertisement" <;> simp [h1, h2, h3]
  · by_cases h1 : x.ContentKind = "test"
    · simp [h1]
    · by_cases h2 : x.ContentKind = "feature"
      · simp [h2]
      · by_cases h3 : x.ContentKind = "advertisement" <;> simp [h1, h2, h3]
  · by_cases h1 : x.ContentKind = "test"
    · simp [h1]
    · by_cases h2 : x.ContentKind = "feature"
      · simp [h2]
      · by_cases h3 : x.ContentKind = "advertisement" <;> simp [h1, h2, h3]
  · by_cases h1 : x.ContentKind = "test"
    · simp [h1]
    · by_cases h2 : x.ContentKind = "feature"
      · simp [h2]
      · by_cases h3 : x.ContentKind = "advertisement" <;> simp [h1, h2, h3]
  · rintro (h | h | h) <;> simp [h]

/-- C14 applied to the playlist of the example, whose kind is "feature", and
to the same playlist with the kind "Test". -/
theorem C14_content_kind_witness :
    (∃ cpl, makeCPL demoCPLXML = .ok cpl ∧ cpl.ContentKind = featureCPLKind) ∧
    (∃ cpl, makeCPL { demoCPLXML with ContentKind := "Test" } = .ok cpl ∧
      cpl.ContentKind = unkownCPLKind) :=
  ⟨match C14_content_kind demoCPLXML with
    | ⟨cpl, h, _, h2, _⟩ => ⟨cpl, h, h2.mpr rfl⟩,
   match C14_content_kind { demoCPLXML with ContentKind := "Test" } with
    | ⟨cpl, h, _, _, _, _, h5⟩ => ⟨cpl, h, h5 (Or.inl rfl)⟩⟩

end Dcp

namespace Dcp

theorem foldl_present (f : α → Option β) (step : List β → α → List β)
    (hsome : ∀ acc x p, f x = some p → step acc x = acc ++ [p])
    (hnone : ∀ acc x, f x = none → step acc x = acc) (l : List α) (init : List β) :
    l.foldl step init = init ++ l.filterMap f := by
  induction l generalizing init with
  | nil => simp
  | cons x l ih =>
    rw [List.foldl_cons, ih]
    cases hx : f x with
    | none => simp [List.filterMap_cons, hx, hnone init x hx]
    | some p => simp [List.filterMap_cons, hx, hsome init x p hx]

theorem length_filterMap_eq (f : α → Option β) (l : List α) :
    (l.filterMap f).length = (l.filter fun x => (f x).isSome).length := by
  induction l with
  | nil => rfl
  | cons x l ih =>
    cases hx : f x with
    | none => simp [List.filterMap_cons, List.filter_cons, hx, ih]
    | some p => simp [List.filterMap_cons, List.filter_cons, hx, ih]

/-- C15: Pictures() is exactly the sequence of the reels' Picture values that
are present, in reel order, so its length is the number of reels that have a
picture and is at most the number of reels; Sounds() and Subtitles() are the
same projection for Sound and Subtitle. The three functions return nothing
but these lists: the CPL is read only. -/
theorem C15_reel_projections (cpl : CPL) :
    (cpl.Pictures = cpl.Reels.filterMap Reel.Picture ∧
      cpl.Pictures.length = (cpl.Reels.filter fun r => r.Picture.isSome).length ∧
      cpl.Pictures.length ≤ cpl.Reels.length) ∧
    (cpl.Sounds = cpl.Reels.filterMap Reel.Sound ∧
      cpl.Sounds.length = (cpl.Reels.filter fun r => r.Sound.isSome).length ∧
      cpl.Sounds.length ≤ cpl.Reels.length) ∧
    (cpl.Subtitles = cpl.Reels.filterMap Reel.Subtitle ∧
      cpl.Subtitles.length = (cpl.Reels.filter fun r => r.Subtitle.isSome).length ∧
      cpl.Subtitles.length ≤ cpl.Reels.length) := by
  have hp : cpl.Pictures = cpl.Reels.filterMap Reel.Picture := by
    unfold CPL.Pictures
    rw [foldl_present Reel.Picture _ (fun acc x p h => by simp only [h])
      (fun acc x h => by simp only [h])]
    exact List.nil_append _
  have hs : cpl.Sounds = cpl.Reels.filterMap Reel.Sound := by
    unfold CPL.Sounds
    rw [foldl_present Reel.Sound _ (fun acc x p h => by simp only [h])
      (fun acc x h => by simp only [h])]
    exact List.nil_append _
  have ht : cpl.Subtitles = cpl.Reels.filterMap Reel.Subtitle := by
    unfold CPL.Subtitles
    rw [foldl_present Reel.Subtitle _ (fun acc x p h => by simp only [h])
      (fun acc x h => by simp only [h])]
    exact List.nil_append _
  refine ⟨⟨hp, ?_, ?_⟩, ⟨hs, ?_, ?_⟩, ⟨ht, ?_, ?_⟩⟩
  · rw [hp, length_filterMap_eq]
  · rw [hp]
    exact List.length_filterMap_le _ _
  · rw [hs, length_filterMap_eq]
  · rw [hs]
    exact List.length_filterMap_le _ _
  · rw [ht, length_filterMap_eq]
  · rw [ht]
    exact List.length_filterMap_le _ _

/-- C16: for every AssetType value, the named constants or any other
integer, IsMxf is true if and only if the value is MXF, MXFPicture or
MXFSound; it is false for Unknown, CPL and PKL. -/
theorem C16_isMxf_range (t : AssetType) :
    (IsMxf t = true ↔
      (t = MXFAssetType ∨ t = MXFPictureAssetType ∨ t = MXFSoundAssetType)) ∧
    IsMxf UnknownAssetType = false ∧ IsMxf CPLAssetType = false ∧
    IsMxf PKLAssetType = false := by
  refine ⟨?_, by decide, by decide, by decide⟩
  have key : ∀ z : Int, ((3 : Int) ≤ z ∧ z ≤ (5 : Int)) ↔ (z = 3 ∨ z = 4 ∨ z = 5) := by
    intro z
    omega
  simp only [IsMxf, Bool.and_eq_true, decide_eq_true_eq]
  exact key t

end Dcp

namespace Dcp

/-! ## Finding the asset map -/

theorem findAssetMap_of_no_match (env : Env) (dir : String) (names : List String)
    (hdir : ioutilReadDir env dir = .ok names)
    (hno : ∀ n ∈ names, assetMapRegExp.MatchString n = false) :
    findAssetMap env dir = .error (.new "Unable to find an assetmap file") := by
  have hfind : (names.find? fun f => assetMapRegExp.MatchString f) = none := by
    rw [List.find?_eq_none]
    intro n hn
    simp [hno n hn]
  simp only [findAssetMap, hdir, hfind]

/-- C17: for every directory in which no entry name matches the asset map
name pattern, Generate returns the error "Unable to find an assetmap file"
and leaves every field of the receiver unchanged. The result is the same on
every file system in which the directory has this listing: no chunk file, and
no other file, has any part in it. -/
theorem C17_no_asset_map (env : Env) (dcp : DCP) (dir : String) (names : List String)
    (hdir : ioutilReadDir env dir = .ok names)
    (hno : ∀ n ∈ names, assetMapRegExp.MatchString n = false) :
    DCP.Generate env dcp dir = (dcp, some (.new "Unable to find an assetmap file")) ∧
    ∀ env2 : Env, ioutilReadDir env2 dir = .ok names →
      DCP.Generate env2 dcp dir = DCP.Generate env dcp dir := by
  have h1 : ∀ e : Env, ioutilReadDir e dir = .ok names →
      DCP.Generate e dcp dir = (dcp, some (.new "Unable to find an assetmap file")) := by
    intro e he
    simp only [DCP.Generate, findAssetMap_of_no_match e dir names he hno]
  exact ⟨h1 env hdir, fun env2 h2 => (h1 env2 h2).trans (h1 env hdir).symm⟩

/-- C17 applied to the directory `none` of the example, whose entries are
Assetmap, assetmap.Xml and readme.txt. -/
theorem C17_no_asset_map_witness :
    ioutilReadDir demoEnv2 "none" = .ok ["Assetmap", "assetmap.Xml", "readme.txt"] ∧
    DCP.Generate demoEnv2 DCP.empty "none" =
      (DCP.empty, some (.new "Unable to find an assetmap file")) :=
  ⟨rfl,
    (C17_no_asset_map demoEnv2 DCP.empty "none" ["Assetmap", "assetmap.Xml", "readme.txt"]
      rfl (by decide)).1⟩

/-- C18 at failing inputs: the pattern accepts the six names of the claim and
rejects Assetmap and assetmap.Xml, but it also accepts assetmap_xml,
assetmap.xml.xml and assetmapZxmlQXML, because its dot stands for any
character and its suffix group may repeat; findAssetMap returns the entry
assetmap.xml.xml of the directory `odd`. -/
theorem C18_pattern_accepts_more :
    (∀ n ∈ ["assetmap", "ASSETMAP", "assetmap.xml", "assetmap.XML", "ASSETMAP.xml",
        "ASSETMAP.XML"], assetMapRegExp.MatchString n = true) ∧
    assetMapRegExp.MatchString "Assetmap" = false ∧
    assetMapRegExp.MatchString "assetmap.Xml" = false ∧
    assetMapRegExp.MatchString "assetmap_xml" = true ∧
    assetMapRegExp.MatchString "assetmap.xml.xml" = true ∧
    assetMapRegExp.MatchString "assetmapZxmlQXML" = true ∧
    findAssetMap demoEnv2 "odd" = .ok "odd/assetmap.xml.xml" :=
  ⟨by decide, by decide, by decide, by decide, by decide, by decide, rfl⟩

end Dcp

namespace Dcp

/-! ## Sniffing decides, and a failed sniff is not an error -/

theorem assetType_of_read_error (env : Env) (p : String) (data : Bytes) (e : Err)
    (h : readHeader env p = (data, some e)) : assetType env p = UnknownAssetType := by
  simp only [assetType, h]

theorem generateChunk_of_unknown (env : Env) (dir : String) (dcp : DCP) (c : Chunk)
    (hsize : checkFileSize env (env.Join dir c.Path) c.Size = none)
    (ht : assetType env (env.Join dir c.Path) = UnknownAssetType) :
    generateChunk env dir dcp c = (dcp, none) := by
  simp [generateChunk, hsize, ht]

theorem readHeader_of_empty (env : Env) (p : String) (readable : Bool)
    (h : env.node p = some (.file [] readable)) : (readHeader env p).2 ≠ none := by
  cases readable <;> simp [readHeader, osOpen, fileRead, h]

/-- C20: a failure to open or read the header of a chunk file is not fatal.
assetType returns Unknown for such a file, and when the chunk passed the size
check, the loop body returns no error and leaves the receiver as it was, so
that Generate goes on with the next chunk. A file of length zero whose
declared Size is 0 is such a chunk. -/
theorem C20_sniff_failure_not_fatal (env : Env) (dir : String) (dcp : DCP) (c : Chunk) :
    (∀ (p : String) (data : Bytes) (e : Err), readHeader env p = (data, some e) →
      assetType env p = UnknownAssetType) ∧
    (∀ (data : Bytes) (e : Err),
      checkFileSize env (env.Join dir c.Path) c.Size = none →
      readHeader env (env.Join dir c.Path) = (data, some e) →
      generateChunk env dir dcp c = (dcp, none) ∧
      ∀ rest, generateChunks env dir dcp (c :: rest) = generateChunks env dir dcp rest) ∧
    (∀ readable : Bool, env.node (env.Join dir c.Path) = some (.file [] readable) →
      c.Size = 0 →
      checkFileSize env (env.Join dir c.Path) c.Size = none ∧
      (readHeader env (env.Join dir c.Path)).2 ≠ none ∧
      assetType env (env.Join dir c.Path) = UnknownAssetType ∧
      generateChunk env dir dcp c = (dcp, none) ∧
      ∀ rest, generateChunks env dir dcp (c :: rest) = generateChunks env dir dcp rest) := by
  have hstep : ∀ (data : Bytes) (e : Err),
      checkFileSize env (env.Join dir c.Path) c.Size = none →
      readHeader env (env.Join dir c.Path) = (data, some e) →
      generateChunk env dir dcp c = (dcp, none) ∧
      ∀ rest, generateChunks env dir dcp (c :: rest) = generateChunks env dir dcp rest := by
    intro data e hsize hread
    have hg := generateChunk_of_unknown env dir dcp c hsize
      (assetType_of_read_error env _ data e hread)
    refine ⟨hg, ?_⟩
    intro rest
    rw [generateChunks, hg]
  refine ⟨assetType_of_read_error env, hstep, ?_⟩
  intro readable hnode hzero
  have hsize : checkFileSize env (env.Join dir c.Path) c.Size = none := by
    rw [checkFileSize_none_iff]
    simp [osStat, hnode, hzero]
  have hne := readHeader_of_empty env _ readable hnode
  rcases hr : readHeader env (env.Join dir c.Path) with ⟨data, _ | e⟩
  · rw [hr] at hne
    exact absurd rfl hne
  · exact ⟨hsize, by simp, assetType_of_read_error env _ data e hr, hstep data e hsize hr⟩

/-- C20 applied to the directory `odd` of the example: the empty file and the
file that may not be opened pass the size check, are Unknown, and Generate
goes on to the end. -/
theorem C20_sniff_failure_not_fatal_witness :
    demoEnv2.node (demoEnv2.Join "odd" "empty.bin") = some (.file [] true) ∧
    generateChunk demoEnv2 "odd" DCP.empty ⟨"empty.bin", 0⟩ = (DCP.empty, none) ∧
    checkFileSize demoEnv2 (demoEnv2.Join "odd" "locked.bin") 3 = none ∧
    readHeader demoEnv2 (demoEnv2.Join "odd" "locked.bin") =
      (List.replicate 100 0, some (.os "open" "odd/locked.bin")) ∧
    generateChunk demoEnv2 "odd" DCP.empty ⟨"locked.bin", 3⟩ = (DCP.empty, none) ∧
    (DCP.Generate demoEnv2 DCP.empty "odd").2 = none :=
  ⟨by decide,
    ((C20_sniff_failure_not_fatal demoEnv2 "odd" DCP.empty ⟨"empty.bin", 0⟩).2.2 true
      (by decide) rfl).2.2.2.1,
    by decide, by decide,
    ((C20_sniff_failure_not_fatal demoEnv2 "odd" DCP.empty ⟨"locked.bin", 3⟩).2.1
      (List.replicate 100 0) (.os "open" "odd/locked.bin") (by decide) (by decide)).1,
    by decide⟩

end Dcp

namespace Dcp

/-- The steps of the loop body at a path consult the environment only through
the node at that path and the decoders. -/
theorem chunk_steps_congr (env1 env2 : Env) (p : String) (size : Nat)
    (hC : env1.unmarshalCPL = env2.unmarshalCPL) (hP : env1.unmarshalPKL = env2.unmarshalPKL)
    (hn : env1.node p = env2.node p) :
    checkFileSize env1 p size = checkFileSize env2 p size ∧
    assetType env1 p = assetType env2 p ∧
    ParseCPLFile env1 p = ParseCPLFile env2 p ∧
    ParsePKLFile env1 p = ParsePKLFile env2 p := by
  refine ⟨?_, ?_, ?_, ?_⟩
  · simp only [checkFileSize, osStat, hn]
  · simp only [assetType, readHeader, osOpen, hn]
  · simp only [ParseCPLFile, ioutilReadFile, ParseCPL, hn, hC]
  · simp only [ParsePKLFile, ioutilReadFile, ParsePKL, hn, hP]

/-- One pass of the loop body on two environments that agree on the chunk's
file, from two receivers with the same lists: the same error and the same
lists afterwards. -/
theorem generateChunk_rel (env1 env2 : Env) (dir : String) (d1 d2 : DCP) (c : Chunk)
    (hJ : env1.Join = env2.Join)
    (hC : env1.unmarshalCPL = env2.unmarshalCPL) (hP : env1.unmarshalPKL = env2.unmarshalPKL)
    (hn : env1.node (env1.Join dir c.Path) = env2.node (env1.Join dir c.Path))
    (hc : d1.CPLs = d2.CPLs) (hk : d1.PKLs = d2.PKLs) :
    (generateChunk env1 dir d1 c).2 = (generateChunk env2 dir d2 c).2 ∧
    (generateChunk env1 dir d1 c).1.CPLs = (generateChunk env2 dir d2 c).1.CPLs ∧
    (generateChunk env1 dir d1 c).1.PKLs = (generateChunk env2 dir d2 c).1.PKLs := by
  obtain ⟨h1, h2, h3, h4⟩ := chunk_steps_congr env1 env2 (env1.Join dir c.Path) c.Size hC hP hn
  have hJ2 : env2.Join dir c.Path = env1.Join dir c.Path := by rw [hJ]
  rcases generateChunk_spec env1 dir d1 c with
    ⟨e, hs, hg⟩ | ⟨hs, ⟨ht, ⟨e, hp, hg⟩ | ⟨cpl, hp, hg⟩⟩ | ⟨ht, ⟨e, hp, hg⟩ | ⟨pkl, hp, hg⟩⟩ |
      ⟨ht1, ht2, hg⟩⟩
  · rw [hg]
    simp [generateChunk, hJ2, ← h1, hs, hc, hk]
  · rw [hg]
    simp [generateChunk, hJ2, ← h1, ← h2, ← h3, hs, ht, hp, hc, hk]
  · rw [hg]
    simp [generateChunk, hJ2, ← h1, ← h2, ← h3, hs, ht, hp, hc, hk]
  · rw [hg]
    simp [generateChunk, hJ2, ← h1, ← h2, ← h4, hs, ht, hp, hc, hk]
  · rw [hg]
    simp [generateChunk, hJ2, ← h1, ← h2, ← h4, hs, ht, hp, hc, hk]
  · rw [hg]
    simp [generateChunk, hJ2, ← h1, ← h2, hs, ht1, ht2, hc, hk]

theorem generateChunks_rel (env1 env2 : Env) (dir : String) (l : List Chunk) (d1 d2 : DCP)
    (hJ : env1.Join = env2.Join)
    (hC : env1.unmarshalCPL = env2.unmarshalCPL) (hP : env1.unmarshalPKL = env2.unmarshalPKL)
    (hn : ∀ c ∈ l, env1.node (env1.Join dir c.Path) = env2.node (env1.Join dir c.Path))
    (hc : d1.CPLs = d2.CPLs) (hk : d1.PKLs = d2.PKLs) :
    (generateChunks env1 dir d1 l).2 = (generateChunks env2 dir d2 l).2 ∧
    (generateChunks env1 dir d1 l).1.CPLs = (generateChunks env2 dir d2 l).1.CPLs ∧
    (generateChunks env1 dir d1 l).1.PKLs = (generateChunks env2 dir d2 l).1.PKLs := by
  induction l generalizing d1 d2 with
  | nil => exact ⟨rfl, hc, hk⟩
  | cons c l ih =>
    obtain ⟨r1, r2, r3⟩ := generateChunk_rel env1 env2 dir d1 d2 c hJ hC hP
      (hn c (List.mem_cons_self _ _)) hc hk
    rw [generateChunks, generateChunks]
    rcases hg1 : generateChunk env1 dir d1 c with ⟨a1, _ | e1⟩ <;>
      rcases hg2 : generateChunk env2 dir d2 c with ⟨a2, _ | e2⟩ <;>
      rw [hg1, hg2] at r1 r2 r3
    · exact ih a1 a2 (fun c2 h2 => hn c2 (List.mem_cons_of_mem _ h2)) r2 r3
    · simp at r1
    · simp at r1
    · exact ⟨r1, r2, r3⟩

end Dcp

namespace Dcp

/-! ## Ranges of the classifiers, Files, and what the parsers preserve -/

theorem guessStep_range (t : AssetType) (c : Chunk)
    (h : t = UnknownAssetType ∨ t = CPLAssetType ∨ t = PKLAssetType ∨ t = MXFAssetType) :
    guessStep t c = UnknownAssetType ∨ guessStep t c = CPLAssetType ∨
      guessStep t c = PKLAssetType ∨ guessStep t c = MXFAssetType := by
  unfold guessStep
  split
  · exact Or.inr (Or.inl rfl)
  · split
    · exact Or.inr (Or.inr (Or.inl rfl))
    · split
      · exact Or.inr (Or.inr (Or.inr rfl))
      · exact h

theorem foldl_guessStep_range (l : List Chunk) (t : AssetType)
    (h : t = UnknownAssetType ∨ t = CPLAssetType ∨ t = PKLAssetType ∨ t = MXFAssetType) :
    l.foldl guessStep t = UnknownAssetType ∨ l.foldl guessStep t = CPLAssetType ∨
      l.foldl guessStep t = PKLAssetType ∨ l.foldl guessStep t = MXFAssetType := by
  induction l generalizing t with
  | nil => exact h
  | cons c l ih => exact ih _ (guessStep_range t c h)

theorem guessAssetType_range (a : assetXML) :
    guessAssetType a = UnknownAssetType ∨ guessAssetType a = CPLAssetType ∨
      guessAssetType a = PKLAssetType ∨ guessAssetType a = MXFAssetType := by
  unfold guessAssetType
  split
  · exact Or.inr (Or.inr (Or.inl rfl))
  · exact foldl_guessStep_range _ _ (Or.inl rfl)

theorem assetType_range (env : Env) (p : String) :
    assetType env p = UnknownAssetType ∨ assetType env p = CPLAssetType ∨
      assetType env p = PKLAssetType ∨ assetType env p = MXFAssetType := by
  rcases hr : readHeader env p with ⟨data, _ | e⟩
  · rw [assetType_of_header env p data hr]
    split
    · exact Or.inr (Or.inr (Or.inl rfl))
    · split
      · exact Or.inr (Or.inl rfl)
      · split
        · exact Or.inr (Or.inr (Or.inr rfl))
        · exact Or.inl rfl
  · exact Or.inl (assetType_of_read_error env p data e hr)

theorem not_picture_sound (t : AssetType)
    (h : t = UnknownAssetType ∨ t = CPLAssetType ∨ t = PKLAssetType ∨ t = MXFAssetType) :
    t ≠ MXFPictureAssetType ∧ t ≠ MXFSoundAssetType := by
  rcases h with h | h | h | h <;> subst h <;> decide

set_option maxRecDepth 4000 in
/-- C21 at a failing input. For every input guessAssetType and assetType
return one of Unknown, CPL, PKL, MXF and never MXFPicture or MXFSound. But
MXFPicture and MXFSound are also produced without the MIME lookup: for the
MIME type "application/x-smpte-mxf", which is none of the three strings of
the table, the switch of ParsePKL leaves the Type that the decoder stored,
and for the packing list whose asset has this MIME type and an element
`PreventMatch` with the text 4, ParsePKL returns the asset with Type
MXFPicture. -/
theorem C21_picture_without_lookup (a : assetXML) (env : Env) (p : String) :
    (guessAssetType a = UnknownAssetType ∨ guessAssetType a = CPLAssetType ∨
      guessAssetType a = PKLAssetType ∨ guessAssetType a = MXFAssetType) ∧
    guessAssetType a ≠ MXFPictureAssetType ∧ guessAssetType a ≠ MXFSoundAssetType ∧
    (assetType env p = UnknownAssetType ∨ assetType env p = CPLAssetType ∨
      assetType env p = PKLAssetType ∨ assetType env p = MXFAssetType) ∧
    assetType env p ≠ MXFPictureAssetType ∧ assetType env p ≠ MXFSoundAssetType ∧
    (∀ (id text hash : String) (size : Nat) (t : AssetType),
      assignType ⟨id, text, hash, size, "application/x-smpte-mxf", t⟩ =
        ⟨id, text, hash, size, "application/x-smpte-mxf", t⟩) ∧
    ParsePKL demoEnv2 demoOddPKLBytes = .ok demoOddPKL ∧
    demoOddPKL.Assets.map PKLAsset.MimeType = ["application/x-smpte-mxf"] ∧
    demoOddPKL.Assets.map PKLAsset.Typ = [MXFPictureAssetType] ∧
    "application/x-smpte-mxf" ≠ "application/x-smpte-mxf;asdcpKind=Picture" ∧
    "application/x-smpte-mxf" ≠ "application/x-smpte-mxf;asdcpKind=Sound" ∧
    "application/x-smpte-mxf" ≠ "text/xml;asdcpKind=CPL" := by
  have hg := guessAssetType_range a
  have ha := assetType_range env p
  exact ⟨hg, (not_picture_sound _ hg).1, (not_picture_sound _ hg).2, ha,
    (not_picture_sound _ ha).1, (not_picture_sound _ ha).2,
    fun _ _ _ _ _ => by simp [assignType], rfl, rfl, rfl, by decide, by decide, by decide⟩

/-- C22: for every DCP whose AssetMap is set, Files() is the manifest's own
filename followed by AssetMap.Paths(); its length is 1 plus the total number
of chunks, its first entry is the manifest filename, and entry i + 1 is the
Path of the i-th chunk in document order. -/
theorem C22_files (dcp : DCP) (am : AssetMap) (h : dcp.AssetMap = some am) :
    dcp.Files = some ([dcp.assetMapFile] ++ am.Paths) ∧
    ∃ files, dcp.Files = some files ∧
      files.length = 1 + (am.Assets.map fun a => a.Chunks.length).sum ∧
      files[0]? = some dcp.assetMapFile ∧
      ∀ i : Nat, files[i + 1]? = ((am.Assets.flatMap AMAsset.Chunks)[i]?).map Chunk.Path := by
  have hf : dcp.Files = some ([dcp.assetMapFile] ++ am.Paths) := by
    simp [DCP.Files, h]
  refine ⟨hf, _, hf, ?_, ?_, ?_⟩
  · rw [assetMap_paths_eq]
    simp only [List.singleton_append, List.length_cons, List.length_map, List.length_flatMap]
    rw [Nat.add_comm]
    rfl
  · simp
  · intro i
    rw [assetMap_paths_eq]
    simp

/-- C22 applied to the receiver that Generate leaves for the directory
`good` of the example. -/
theorem C22_files_witness :
    (DCP.Generate demoEnv DCP.empty "good").1.Files =
      some ["ASSETMAP", "x_pkl.xml", "x_cpl.xml", "video.mxf"] :=
  ((C22_files (DCP.Generate demoEnv DCP.empty "good").1
    ⟨SMPTE, "am", "", 1, "", ⟨0⟩,
      [⟨"p", PKLAssetType, [⟨"x_pkl.xml", 13⟩]⟩, ⟨"c", CPLAssetType, [⟨"x_cpl.xml", 21⟩]⟩,
        ⟨"v", MXFAssetType, [⟨"video.mxf", 29⟩]⟩]⟩ (by decide)).1).trans (by decide)

end Dcp

namespace Dcp

theorem assignType_fields (a : PKLAsset) :
    (assignType a).ID = a.ID ∧ (assignType a).AnnotationText = a.AnnotationText ∧
    (assignType a).Hash = a.Hash ∧ (assignType a).Size = a.Size ∧
    (assignType a).MimeType = a.MimeType := by
  unfold assignType
  split
  · exact ⟨rfl, rfl, rfl, rfl, rfl⟩
  · split
    · exact ⟨rfl, rfl, rfl, rfl, rfl⟩
    · split <;> exact ⟨rfl, rfl, rfl, rfl, rfl⟩

theorem assignType_hash_indep (a : PKLAsset) (hash : String) :
    assignType { a with Hash := hash } = { assignType a with Hash := hash } := by
  unfold assignType
  split
  · rfl
  · split
    · rfl
    · split <;> rfl

/-- C24: the type assignment of ParsePKL changes only the Type field. The
fields of the packing list, the number and the order of its assets, and every
asset's ID, AnnotationText, Hash, Size and MimeType are the decoded values.
The Hash takes no part in the assignment: with another decoded Hash the
result differs in the Hash only. -/
theorem C24_only_type_changes (env : Env) (xmlBytes : Bytes) (pkl : PKL)
    (h : ParsePKL env xmlBytes = .ok pkl) :
    ∃ raw, env.unmarshalPKL xmlBytes = .ok raw ∧
      pkl.ID = raw.ID ∧ pkl.AnnotationText = raw.AnnotationText ∧
      pkl.IssueDate = raw.IssueDate ∧ pkl.Issuer = raw.Issuer ∧ pkl.Creator = raw.Creator ∧
      pkl.Assets.length = raw.Assets.length ∧
      pkl.Assets.map PKLAsset.ID = raw.Assets.map PKLAsset.ID ∧
      pkl.Assets.map PKLAsset.AnnotationText = raw.Assets.map PKLAsset.AnnotationText ∧
      pkl.Assets.map PKLAsset.Hash = raw.Assets.map PKLAsset.Hash ∧
      pkl.Assets.map PKLAsset.Size = raw.Assets.map PKLAsset.Size ∧
      pkl.Assets.map PKLAsset.MimeType = raw.Assets.map PKLAsset.MimeType ∧
      (∀ i : Nat, (pkl.Assets[i]?).map (fun a => { a with Typ := 0 }) =
        (raw.Assets[i]?).map (fun a => { a with Typ := 0 })) ∧
      (∀ (a : PKLAsset) (hash : String),
        assignType { a with Hash := hash } = { assignType a with Hash := hash }) := by
  obtain ⟨raw, hu, rfl⟩ := ParsePKL_ok_inv env xmlBytes pkl h
  refine ⟨raw, hu, rfl, rfl, rfl, rfl, rfl, ?_, ?_, ?_, ?_, ?_, ?_, ?_, assignType_hash_indep⟩
  · simp
  · simp only [List.map_map]
    exact List.map_congr_left fun a _ => (assignType_fields a).1
  · simp only [List.map_map]
    exact List.map_congr_left fun a _ => (assignType_fields a).2.1
  · simp only [List.map_map]
    exact List.map_congr_left fun a _ => (assignType_fields a).2.2.1
  · simp only [List.map_map]
    exact List.map_congr_left fun a _ => (assignType_fields a).2.2.2.1
  · simp only [List.map_map]
    exact List.map_congr_left fun a _ => (assignType_fields a).2.2.2.2
  · intro i
    simp only [List.getElem?_map, Option.map_map]
    cases raw.Assets[i]? with
    | none => rfl
    | some a =>
      obtain ⟨h1, h2, h3, h4, h5⟩ := assignType_fields a
      simp only [Option.map_some', Function.comp_apply, Option.some.injEq]
      rw [h1, h2, h3, h4, h5]

/-- C24 applied to the packing list of the example. -/
theorem C24_only_type_changes_witness :
    ∃ raw, demoEnv.unmarshalPKL demoPKLBytes = .ok raw ∧
      List.map PKLAsset.Hash
        [(⟨"v", "", "h", 29, "application/x-smpte-mxf;asdcpKind=Picture",
          MXFPictureAssetType⟩ : PKLAsset)] = raw.Assets.map PKLAsset.Hash :=
  match C24_only_type_changes demoEnv demoPKLBytes
    { demoPKL with
      Assets := [⟨"v", "", "h", 29, "application/x-smpte-mxf;asdcpKind=Picture",
        MXFPictureAssetType⟩] } rfl with
  | ⟨raw, hu, _, _, _, _, _, _, _, _, hh, _⟩ => ⟨raw, hu, hh⟩

/-- C25: makeAssetMap never returns an error and keeps the decoded document:
the result has the same ID, Creator, VolumeCount, IssueDate and Issuer, the
same number of assets in the same order, and the i-th asset has the decoded
asset's ID, its chunk list unchanged, and Type = guessAssetType of the decoded
asset. -/
theorem C25_makeAssetMap_preserves (x : assetMapXML) :
    ∃ am, makeAssetMap x = .ok am ∧
      am.ID = x.ID ∧ am.Creator = x.Creator ∧ am.VolumeCount = x.VolumeCount ∧
      am.IssueDate = x.IssueDate ∧ am.Issuer = x.Issuer ∧
      am.Assets.length = x.Assets.length ∧
      am.Assets = x.Assets.map (fun a => AMAsset.mk a.ID (guessAssetType a) a.Chunks) ∧
      ∀ i : Nat, am.Assets[i]? =
        (x.Assets[i]?).map (fun a => AMAsset.mk a.ID (guessAssetType a) a.Chunks) := by
  have hassets : x.Assets.foldl
      (fun assets aXML => assets ++ [AMAsset.mk aXML.ID (guessAssetType aXML) aXML.Chunks]) [] =
      x.Assets.map (fun a => AMAsset.mk a.ID (guessAssetType a) a.Chunks) := by
    rw [foldl_snoc_map (fun a => AMAsset.mk a.ID (guessAssetType a) a.Chunks)]
    rfl
  refine ⟨_, rfl, rfl, rfl, rfl, rfl, rfl, ?_, hassets, ?_⟩
  · show (x.Assets.foldl _ []).length = _
    rw [hassets, List.length_map]
  · intro i
    show (x.Assets.foldl _ [])[i]? = _
    rw [hassets, List.getElem?_map]

end Dcp

namespace Dcp

/-! ## Sizes in 64-bit arithmetic -/

theorem sum_map_mod (f : α → Nat) (l : List α) (m : Nat) :
    (l.map fun a => f a % m).sum % m = (l.map f).sum % m := by
  induction l with
  | nil => rfl
  | cons a l ih =>
    simp only [List.map_cons, List.sum_cons]
    rw [Nat.add_mod, ih, Nat.mod_mod, ← Nat.add_mod]

theorem sum_flatMap_chunks (assets : List AMAsset) :
    ((assets.flatMap AMAsset.Chunks).map Chunk.Size).sum =
      (assets.map fun a => (a.Chunks.map Chunk.Size).sum).sum := by
  induction assets with
  | nil => rfl
  | cons a assets ih =>
    simp only [List.flatMap_cons, List.map_append, List.sum_append, List.map_cons,
      List.sum_cons, ih]

theorem assetMap_size_chunks (am : AssetMap) :
    am.Size = ((am.Assets.flatMap AMAsset.Chunks).map Chunk.Size).sum % u64 := by
  have hmap : am.Assets.map AMAsset.Size =
      am.Assets.map (fun a => (a.Chunks.map Chunk.Size).sum % u64) :=
    List.map_congr_left fun a _ => amAsset_size_eq a
  rw [assetMap_size_eq, sum_flatMap_chunks, hmap, sum_map_mod]

/-- C30: AssetMap.Size() and AMAsset.Size() add in unsigned 64-bit
arithmetic and report no overflow. Each result is the sum of the declared
chunk sizes modulo 2^64, which is the exact sum whenever that sum is below
2^64; two chunks of declared size 2^63 give Size() = 0, in one asset or in
two. -/
theorem C30_size_wraps (am : AssetMap) (a : AMAsset) :
    a.Size = (a.Chunks.map Chunk.Size).sum % 2 ^ 64 ∧
    am.Size = ((am.Assets.flatMap AMAsset.Chunks).map Chunk.Size).sum % 2 ^ 64 ∧
    ((a.Chunks.map Chunk.Size).sum < 2 ^ 64 → a.Size = (a.Chunks.map Chunk.Size).sum) ∧
    (((am.Assets.flatMap AMAsset.Chunks).map Chunk.Size).sum < 2 ^ 64 →
      am.Size = ((am.Assets.flatMap AMAsset.Chunks).map Chunk.Size).sum) ∧
    AMAsset.Size ⟨"a", MXFAssetType, [⟨"x.mxf", 2 ^ 63⟩, ⟨"y.mxf", 2 ^ 63⟩]⟩ = 0 ∧
    AssetMap.Size ⟨SMPTE, "am", "", 1, "", ⟨0⟩,
      [⟨"a", MXFAssetType, [⟨"x.mxf", 2 ^ 63⟩, ⟨"y.mxf", 2 ^ 63⟩]⟩]⟩ = 0 ∧
    AssetMap.Size ⟨SMPTE, "am", "", 1, "", ⟨0⟩,
      [⟨"a", MXFAssetType, [⟨"x.mxf", 2 ^ 63⟩]⟩, ⟨"b", MXFAssetType, [⟨"y.mxf", 2 ^ 63⟩]⟩]⟩
      = 0 := by
  refine ⟨amAsset_size_eq a, assetMap_size_chunks am, ?_, ?_, by decide, by decide, by decide⟩
  · intro h
    rw [amAsset_size_eq a]
    exact Nat.mod_eq_of_lt h
  · intro h
    rw [assetMap_size_chunks am]
    exact Nat.mod_eq_of_lt h

/-- C30 applied to the asset map of the reference fixture, whose declared
sizes sum to 4785903099, and to its third asset. -/
theorem C30_size_wraps_witness :
    AMAsset.Size ⟨"v", MXFAssetType, [⟨"x_video.mxf", 3906847916⟩]⟩ = 3906847916 ∧
    AssetMap.Size ⟨SMPTE, "am", "", 1, "", ⟨0⟩,
      [⟨"p", PKLAssetType, [⟨"x_pkl.xml", 1288⟩]⟩, ⟨"c", CPLAssetType, [⟨"x_cpl.xml", 1550⟩]⟩,
        ⟨"v", MXFAssetType, [⟨"x_video.mxf", 3906847916⟩]⟩,
        ⟨"s", MXFAssetType, [⟨"x_audio.mxf", 879052345⟩]⟩]⟩ = 4785903099 :=
  ⟨((C30_size_wraps
      ⟨SMPTE, "am", "", 1, "", ⟨0⟩, []⟩
      ⟨"v", MXFAssetType, [⟨"x_video.mxf", 3906847916⟩]⟩).2.2.1 (by decide)).trans
      (by decide),
    ((C30_size_wraps
      ⟨SMPTE, "am", "", 1, "", ⟨0⟩,
        [⟨"p", PKLAssetType, [⟨"x_pkl.xml", 1288⟩]⟩,
          ⟨"c", CPLAssetType, [⟨"x_cpl.xml", 1550⟩]⟩,
          ⟨"v", MXFAssetType, [⟨"x_video.mxf", 3906847916⟩]⟩,
          ⟨"s", MXFAssetType, [⟨"x_audio.mxf", 879052345⟩]⟩]⟩
      ⟨"v", MXFAssetType, [⟨"x_video.mxf", 3906847916⟩]⟩).2.2.2.1 (by decide)).trans
      (by decide)⟩

end Dcp

namespace Dcp

/-! ## Short files and long files under the header sniff -/

/-- The header of a readable file that is not empty. -/
theorem readHeader_of_file (env : Env) (p : String) (content : Bytes)
    (hnode : env.node p = some (.file content true)) (hne : content ≠ []) :
    readHeader env p = (content.take 100 ++ List.replicate (100 - content.length) 0, none) := by
  have hlen : content.length ≠ 0 := fun h => hne (List.length_eq_zero.mp h)
  unfold readHeader osOpen
  simp only [hnode, if_true, fileRead, List.length_replicate, hlen, if_false,
    OfNat.ofNat_ne_zero, List.drop_replicate]

/-- In the header of a file shorter than 28 bytes the byte at offset 27 is a
zero of the padding. -/
theorem header_padding_at_27 (content : Bytes) (hshort : content.length < 28) :
    (content.take 100 ++ List.replicate (100 - content.length) 0)[27]? = some 0 := by
  have h1 : (content.take 100).length ≤ 27 := by
    rw [List.length_take]
    omega
  rw [List.getElem?_append_right h1, List.getElem?_replicate, List.length_take]
  have h2 : 27 - min 100 content.length < 100 - content.length := by omega
  rw [if_pos h2]

/-- C26: for every file shorter than 28 bytes assetType never returns MXF.
The byte at offset 27 of the header buffer is then a zero of the padding,
while the last byte of the key is 01, so the first 28 bytes of the buffer are
not the key, even when the file is the first 27 bytes of the key. -/
theorem C26_short_file_not_mxf (env : Env) (p : String) (content : Bytes) (readable : Bool)
    (hnode : env.node p = some (.file content readable)) (hshort : content.length < 28) :
    assetType env p ≠ MXFAssetType ∧
    mxfHeader[27]? = some 1 ∧
    (∀ data, readHeader env p = (data, none) → data[27]? = some 0 ∧ data.take 28 ≠ mxfHeader) ∧
    (content = mxfHeader.take 27 → readable = true →
      assetType env p = UnknownAssetType) := by
  have hdata : ∀ data, readHeader env p = (data, none) →
      data[27]? = some 0 ∧ data.take 28 ≠ mxfHeader := by
    intro data hr
    obtain ⟨c2, hn2, _, hd⟩ := readHeader_ok env p data hr
    rw [hnode] at hn2
    simp only [Option.some.injEq, Node.file.injEq] at hn2
    obtain ⟨hc, _⟩ := hn2
    subst hc
    have h27 : data[27]? = some 0 := by
      rw [hd]
      exact header_padding_at_27 content hshort
    refine ⟨h27, ?_⟩
    intro hk
    have h1 : (data.take 28)[27]? = data[27]? := List.getElem?_take_of_lt (by decide)
    rw [hk, h27] at h1
    exact absurd h1 (by decide)
  have hnot : assetType env p ≠ MXFAssetType := by
    rcases hr : readHeader env p with ⟨data, _ | e⟩
    · have hk : bytesStartsWith data mxfHeader = false := by
        cases hb : bytesStartsWith data mxfHeader with
        | false => rfl
        | true =>
          exact absurd (List.prefix_iff_eq_take.mp ((bytesStartsWith_iff _ _).mp hb)).symm
            (hdata data hr).2
      rw [assetType_of_header env p data hr, hk]
      split
      · decide
      · split <;> decide
    · rw [assetType_of_read_error env p data e hr]
      decide
  refine ⟨hnot, by decide, hdata, ?_⟩
  intro hc hread
  subst hc hread
  have hr := readHeader_of_file env p (mxfHeader.take 27) hnode (by decide)
  rw [assetType_of_header env p _ hr]
  decide

/-- C26 applied to the file `key27.mxf` of the example, the first 27 bytes of
the key. -/
theorem C26_short_file_not_mxf_witness :
    demoEnv3.node "key27.mxf" = some (.file (mxfHeader.take 27) true) ∧
    (mxfHeader.take 27).length < 28 ∧
    assetType demoEnv3 "key27.mxf" ≠ MXFAssetType ∧
    assetType demoEnv3 "key27.mxf" = UnknownAssetType :=
  ⟨by decide, by decide,
    (C26_short_file_not_mxf demoEnv3 "key27.mxf" (mxfHeader.take 27) true (by decide)
      (by decide)).1,
    (C26_short_file_not_mxf demoEnv3 "key27.mxf" (mxfHeader.take 27) true (by decide)
      (by decide)).2.2.2 rfl rfl⟩

end Dcp

namespace Dcp

/-- The header of a readable file of at least 100 bytes is its first 100
bytes. -/
theorem readHeader_of_long (env : Env) (p : String) (content : Bytes)
    (hnode : env.node p = some (.file content true)) (hlen : 100 ≤ content.length) :
    readHeader env p = (content.take 100, none) := by
  have hne : content ≠ [] := by
    intro h
    rw [h] at hlen
    simp at hlen
  rw [readHeader_of_file env p content hnode hne, Nat.sub_eq_zero_of_le hlen]
  simp

/-- C28: assetType depends only on the first 100 bytes of a file. The header
of a readable file of at least 100 bytes is its first 100 bytes; two such
files that agree on their first 100 bytes receive the same classification;
and the classification is PKL exactly when "PackingList" lies wholly within
the first 100 bytes, and CPL exactly when "PackingList" does not and
"CompositionPlaylist" does, so a marker that is not wholly within them does
not cause a PKL or CPL classification. -/
theorem C28_first_100_bytes (env1 env2 : Env) (p1 p2 : String) (c1 c2 : Bytes)
    (h1 : env1.node p1 = some (.file c1 true)) (h2 : env2.node p2 = some (.file c2 true))
    (hl1 : 100 ≤ c1.length) (hl2 : 100 ≤ c2.length) :
    readHeader env1 p1 = (c1.take 100, none) ∧
    (c1.take 100 = c2.take 100 → assetType env1 p1 = assetType env2 p2) ∧
    (assetType env1 p1 = PKLAssetType ↔ bytesOfString "PackingList" <:+: c1.take 100) ∧
    (assetType env1 p1 = CPLAssetType ↔
      (¬ bytesOfString "PackingList" <:+: c1.take 100 ∧
        bytesOfString "CompositionPlaylist" <:+: c1.take 100)) := by
  have hr1 := readHeader_of_long env1 p1 c1 h1 hl1
  have hr2 := readHeader_of_long env2 p2 c2 h2 hl2
  have ht1 := assetType_of_header env1 p1 _ hr1
  have ht2 := assetType_of_header env2 p2 _ hr2
  refine ⟨hr1, ?_, ?_, ?_⟩
  · intro heq
    rw [ht1, ht2, heq]
  · rw [ht1, ← bytesContains_iff]
    by_cases hp : bytesContains (c1.take 100) (bytesOfString "PackingList") = true
    · simp [hp]
    · by_cases hc : bytesContains (c1.take 100) (bytesOfString "CompositionPlaylist") = true
      · simp [hp, hc]
      · by_cases hm : bytesStartsWith (c1.take 100) mxfHeader = true <;> simp [hp, hc, hm]
  · rw [ht1, ← bytesContains_iff, ← bytesContains_iff]
    by_cases hp : bytesContains (c1.take 100) (bytesOfString "PackingList") = true
    · simp [hp]
    · by_cases hc : bytesContains (c1.take 100) (bytesOfString "CompositionPlaylist") = true
      · simp [hp, hc]
      · by_cases hm : bytesStartsWith (c1.take 100) mxfHeader = true <;> simp [hp, hc, hm]

set_option maxRecDepth 8000 in
/-- C28 applied to the files `late.xml` and `late2.xml` of the example: 95
spaces followed by PackingList, and the same first 100 bytes followed by other
bytes. The marker begins at offset 95 and does not fit in the first 100
bytes; both files are Unknown. -/
theorem C28_first_100_bytes_witness :
    demoLateBytes = List.replicate 95 32 ++ bytesOfString "PackingList" ∧
    demoLateBytes.take 100 = demoLate2Bytes.take 100 ∧
    demoLateBytes ≠ demoLate2Bytes ∧
    assetType demoEnv3 "late.xml" = assetType demoEnv3 "late2.xml" ∧
    assetType demoEnv3 "late.xml" = UnknownAssetType :=
  ⟨rfl, by decide, by decide,
    (C28_first_100_bytes demoEnv3 demoEnv3 "late.xml" "late2.xml" demoLateBytes demoLate2Bytes
      (by decide) (by decide) (by decide) (by decide)).2.1 (by decide),
    by decide⟩

end Dcp

namespace Dcp

/-! ## The order of the pattern tests -/

theorem guessStepWith_eq (tests : List (Regexp × AssetType)) (hperm : tests.Perm guessTests)
    (t : AssetType) (c : Chunk) : guessStepWith tests t c = guessStep t c := by
  unfold guessStepWith
  cases hfind : tests.find? fun rt => rt.1.MatchString c.Path with
  | none =>
    have hnone := List.find?_eq_none.mp hfind
    have hmem : ∀ rt ∈ guessTests, rt.1.MatchString c.Path = false := by
      intro rt hrt
      have h := hnone rt (hperm.mem_iff.mpr hrt)
      simpa using h
    have h1 := hmem (cplRegExp, CPLAssetType) (by simp [guessTests])
    have h2 := hmem (pklRegExp, PKLAssetType) (by simp [guessTests])
    have h3 := hmem (mxfRegExp, MXFAssetType) (by simp [guessTests])
    simp only at h1 h2 h3
    simp [guessStep, h1, h2, h3]
  | some rt =>
    have hmatch : rt.1.MatchString c.Path = true := by
      have h := List.find?_some hfind
      simpa using h
    have hmem : rt ∈ guessTests := hperm.mem_iff.mp (List.mem_of_find?_eq_some hfind)
    simp only [guessTests, List.mem_cons, List.mem_singleton, List.not_mem_nil, or_false]
      at hmem
    rcases hmem with rfl | rfl | rfl
    · exact (guessStep_of_cpl t c hmatch).symm
    · exact (guessStep_of_pkl t c hmatch).symm
    · exact (guessStep_of_mxf t c hmatch).symm

/-- C27: the three file name patterns are mutually exclusive: no path
matches more than one of cplRegExp, pklRegExp and mxfRegExp. Hence the
variant of guessAssetType that tests the three patterns in any other order
returns the same result as guessAssetType. -/
theorem C27_patterns_exclusive (s : String) (a : assetXML)
    (tests : List (Regexp × AssetType)) (hperm : tests.Perm guessTests) :
    ¬ (cplRegExp.MatchString s = true ∧ pklRegExp.MatchString s = true) ∧
    ¬ (cplRegExp.MatchString s = true ∧ mxfRegExp.MatchString s = true) ∧
    ¬ (pklRegExp.MatchString s = true ∧ mxfRegExp.MatchString s = true) ∧
    guessAssetTypeWith tests a = guessAssetType a := by
  refine ⟨?_, ?_, ?_, ?_⟩
  · rintro ⟨h1, h2⟩
    rw [cpl_pkl_exclusive s h1] at h2
    exact absurd h2 (by decide)
  · rintro ⟨h1, h2⟩
    rw [cpl_mxf_exclusive s h1] at h2
    exact absurd h2 (by decide)
  · rintro ⟨h1, h2⟩
    rw [pkl_mxf_exclusive s h1] at h2
    exact absurd h2 (by decide)
  · unfold guessAssetTypeWith guessAssetType
    have hstep : guessStepWith tests = guessStep := by
      funext t c
      exact guessStepWith_eq tests hperm t c
    rw [hstep]

/-- C27 applied to the tests in the reverse order, MXF first, on the chunks
[a.mxf, b_pkl.xml]. -/
theorem C27_patterns_exclusive_witness :
    guessAssetTypeWith
      [(mxfRegExp, MXFAssetType), (pklRegExp, PKLAssetType), (cplRegExp, CPLAssetType)]
      ⟨"id", "", [⟨"a.mxf", 1⟩, ⟨"b_pkl.xml", 2⟩]⟩ =
      guessAssetType ⟨"id", "", [⟨"a.mxf", 1⟩, ⟨"b_pkl.xml", 2⟩]⟩ :=
  (C27_patterns_exclusive "a.mxf" ⟨"id", "", [⟨"a.mxf", 1⟩, ⟨"b_pkl.xml", 2⟩]⟩
    [(mxfRegExp, MXFAssetType), (pklRegExp, PKLAssetType), (cplRegExp, CPLAssetType)]
    (List.reverse_perm guessTests)).2.2.2

end Dcp

namespace Dcp

/-! ## Fail-fast and append behaviour of Generate -/

/-- A pass of the loop body that returns an error leaves the receiver as it
was, and the error is that of the size check or of the parse. -/
theorem generateChunk_err (env : Env) (dir : String) (d d2 : DCP) (c : Chunk) (err : Err)
    (h : generateChunk env dir d c = (d2, some err)) :
    d2 = d ∧
    (checkFileSize env (env.Join dir c.Path) c.Size = some err ∨
      (checkFileSize env (env.Join dir c.Path) c.Size = none ∧
        assetType env (env.Join dir c.Path) = CPLAssetType ∧
        ParseCPLFile env (env.Join dir c.Path) = .error err) ∨
      (checkFileSize env (env.Join dir c.Path) c.Size = none ∧
        assetType env (env.Join dir c.Path) = PKLAssetType ∧
        ParsePKLFile env (env.Join dir c.Path) = .error err)) := by
  rcases generateChunk_spec env dir d c with
    ⟨e, hs, hg⟩ | ⟨hs, ⟨ht, ⟨e, hp, hg⟩ | ⟨cpl, hp, hg⟩⟩ | ⟨ht, ⟨e, hp, hg⟩ | ⟨pkl, hp, hg⟩⟩ |
      ⟨ht1, ht2, hg⟩⟩ <;>
    rw [hg] at h <;>
    simp only [Prod.mk.injEq, Option.some.injEq, reduceCtorEq, and_false] at h
  · obtain ⟨rfl, rfl⟩ := h
    exact ⟨rfl, Or.inl hs⟩
  · obtain ⟨rfl, rfl⟩ := h
    exact ⟨rfl, Or.inr (Or.inl ⟨hs, ht, hp⟩)⟩
  · obtain ⟨rfl, rfl⟩ := h
    exact ⟨rfl, Or.inr (Or.inr ⟨hs, ht, hp⟩)⟩

/-- The loop over the chunks up to and including the first failing one does
not depend on the chunks after it. -/
theorem generateChunks_fail_at (env : Env) (dir : String) (d0 : DCP) (pre post : List Chunk)
    (c : Chunk) (err : Err)
    (hpre : ∀ c2 ∈ pre, ∀ d, (generateChunk env dir d c2).2 = none)
    (hfail : ∀ d, (generateChunk env dir d c).2 = some err) :
    generateChunks env dir d0 (pre ++ c :: post) =
      ((generateChunks env dir d0 pre).1, some err) ∧
    (generateChunks env dir d0 pre).2 = none := by
  have hpass := generateChunks_of_all_pass env dir d0 pre hpre
  refine ⟨?_, hpass⟩
  rw [generateChunks_append]
  rcases hg : generateChunks env dir d0 pre with ⟨d, _ | e⟩
  · have hc := hfail d
    rcases hgc : generateChunk env dir d c with ⟨d2, _ | e2⟩
    · rw [hgc] at hc
      simp at hc
    · rw [hgc] at hc
      simp only [Option.some.injEq] at hc
      subst hc
      obtain ⟨rfl, _⟩ := generateChunk_err env dir d d2 c e2 hgc
      simp only [generateChunks, hgc]
  · rw [hg] at hpass
    simp at hpass

theorem generateChunk_congr (env1 env2 : Env) (dir : String) (d : DCP) (c : Chunk)
    (hJ : env1.Join = env2.Join)
    (hC : env1.unmarshalCPL = env2.unmarshalCPL) (hP : env1.unmarshalPKL = env2.unmarshalPKL)
    (hn : env1.node (env1.Join dir c.Path) = env2.node (env1.Join dir c.Path)) :
    generateChunk env1 dir d c = generateChunk env2 dir d c := by
  obtain ⟨h1, h2, h3, h4⟩ := chunk_steps_congr env1 env2 (env1.Join dir c.Path) c.Size hC hP hn
  have hJ2 : env2.Join dir c.Path = env1.Join dir c.Path := by rw [hJ]
  simp only [generateChunk, hJ2, ← h1, ← h2, ← h3, ← h4]

theorem generateChunks_congr (env1 env2 : Env) (dir : String) (l : List Chunk) (d : DCP)
    (hJ : env1.Join = env2.Join)
    (hC : env1.unmarshalCPL = env2.unmarshalCPL) (hP : env1.unmarshalPKL = env2.unmarshalPKL)
    (hn : ∀ c ∈ l, env1.node (env1.Join dir c.Path) = env2.node (env1.Join dir c.Path)) :
    generateChunks env1 dir d l = generateChunks env2 dir d l := by
  induction l generalizing d with
  | nil => rfl
  | cons c l ih =>
    rw [generateChunks, generateChunks,
      generateChunk_congr env1 env2 dir d c hJ hC hP (hn c (List.mem_cons_self _ _))]
    rcases generateChunk env2 dir d c with ⟨d2, _ | e⟩
    · exact ih d2 fun c2 h2 => hn c2 (List.mem_cons_of_mem _ h2)
    · rfl

/-- Whether the loop returns an error, and which, does not depend on the
receiver. -/
theorem generateChunks_err_indep (env : Env) (dir : String) (l : List Chunk) (d1 d2 : DCP) :
    (generateChunks env dir d1 l).2 = (generateChunks env dir d2 l).2 := by
  induction l generalizing d1 d2 with
  | nil => rfl
  | cons c l ih =>
    have hi := generateChunk_err_indep env dir d1 d2 c
    rw [generateChunks, generateChunks]
    rcases hg1 : generateChunk env dir d1 c with ⟨a1, _ | e1⟩ <;>
      rcases hg2 : generateChunk env dir d2 c with ⟨a2, _ | e2⟩ <;>
      rw [hg1, hg2] at hi
    · exact ih a1 a2
    · simp at hi
    · simp at hi
    · exact hi

end Dcp

namespace Dcp

theorem findAssetMap_congr (env1 env2 : Env) (dir : String) (hJ : env1.Join = env2.Join)
    (hn : env1.node dir = env2.node dir) : findAssetMap env1 dir = findAssetMap env2 dir := by
  simp only [findAssetMap, ioutilReadDir, hn, hJ]

theorem ParseAssetMapFile_congr (env1 env2 : Env) (f : String)
    (hA : env1.unmarshalAssetMap = env2.unmarshalAssetMap)
    (hn : env1.node f = env2.node f) :
    ParseAssetMapFile env1 f = ParseAssetMapFile env2 f := by
  simp only [ParseAssetMapFile, ioutilReadFile, ParseAssetMap, hn, hA]

/-- C23: Generate is fail-fast with a determined partial state. When the
asset map was found and parsed, every chunk before chunk c in document order
passes all its steps, and c fails with the error err, then err is the error
of c's size check (stat included) or of its CPL or PKL parse; Generate returns
err; RootDir is dir and the manifest filename is the base name of the asset
map; AssetMap has its previous value; and CPLs and PKLs are their previous
values followed by the parse results of exactly the chunks before c that were
sniffed as CPL and as PKL. No file of a later chunk is touched: the result is
the same on every file system that agrees on the directory, on the asset map
and on the files of the chunks up to c. -/
theorem C23_fail_fast_state (env : Env) (dcp : DCP) (dir amFileName : String)
    (am : AssetMap) (pre post : List Chunk) (c : Chunk) (err : Err)
    (hf : findAssetMap env dir = .ok amFileName)
    (hp : ParseAssetMapFile env amFileName = .ok am)
    (hsplit : am.Assets.flatMap AMAsset.Chunks = pre ++ c :: post)
    (hpre : ∀ c2 ∈ pre, ∀ d, (generateChunk env dir d c2).2 = none)
    (hfail : ∀ d, (generateChunk env dir d c).2 = some err) :
    (checkFileSize env (env.Join dir c.Path) c.Size = some err ∨
      (checkFileSize env (env.Join dir c.Path) c.Size = none ∧
        assetType env (env.Join dir c.Path) = CPLAssetType ∧
        ParseCPLFile env (env.Join dir c.Path) = .error err) ∨
      (checkFileSize env (env.Join dir c.Path) c.Size = none ∧
        assetType env (env.Join dir c.Path) = PKLAssetType ∧
        ParsePKLFile env (env.Join dir c.Path) = .error err)) ∧
    (DCP.Generate env dcp dir).2 = some err ∧
    (DCP.Generate env dcp dir).1.RootDir = dir ∧
    (DCP.Generate env dcp dir).1.assetMapFile = env.Base amFileName ∧
    (DCP.Generate env dcp dir).1.AssetMap = dcp.AssetMap ∧
    (DCP.Generate env dcp dir).1.CPLs.map (Except.ok : CPL → Except Err CPL) =
      dcp.CPLs.map Except.ok ++
        (pre.filter fun c2 => decide (assetType env (env.Join dir c2.Path) = CPLAssetType)).map
          (fun c2 => ParseCPLFile env (env.Join dir c2.Path)) ∧
    (DCP.Generate env dcp dir).1.PKLs.map (Except.ok : PKL → Except Err PKL) =
      dcp.PKLs.map Except.ok ++
        (pre.filter fun c2 => decide (assetType env (env.Join dir c2.Path) = PKLAssetType)).map
          (fun c2 => ParsePKLFile env (env.Join dir c2.Path)) ∧
    (∀ env2 : Env, env.Join = env2.Join → env.Base = env2.Base →
      env.unmarshalAssetMap = env2.unmarshalAssetMap →
      env.unmarshalCPL = env2.unmarshalCPL → env.unmarshalPKL = env2.unmarshalPKL →
      env.node dir = env2.node dir → env.node amFileName = env2.node amFileName →
      (∀ c2 ∈ pre ++ [c], env.node (env.Join dir c2.Path) = env2.node (env.Join dir c2.Path)) →
      DCP.Generate env2 dcp dir = DCP.Generate env dcp dir) := by
  have hstep : (checkFileSize env (env.Join dir c.Path) c.Size = some err ∨
      (checkFileSize env (env.Join dir c.Path) c.Size = none ∧
        assetType env (env.Join dir c.Path) = CPLAssetType ∧
        ParseCPLFile env (env.Join dir c.Path) = .error err) ∨
      (checkFileSize env (env.Join dir c.Path) c.Size = none ∧
        assetType env (env.Join dir c.Path) = PKLAssetType ∧
        ParsePKLFile env (env.Join dir c.Path) = .error err)) := by
    have hc := hfail dcp
    rcases hgc : generateChunk env dir dcp c with ⟨d2, _ | e2⟩
    · rw [hgc] at hc
      simp at hc
    · rw [hgc] at hc
      simp only [Option.some.injEq] at hc
      subst hc
      exact (generateChunk_err env dir dcp d2 c e2 hgc).2
  obtain ⟨hrun, hnone⟩ := generateChunks_fail_at env dir
    { dcp with RootDir := dir, assetMapFile := env.Base amFileName } pre post c err hpre hfail
  have hgen : DCP.Generate env dcp dir =
      ((generateChunks env dir
        { dcp with RootDir := dir, assetMapFile := env.Base amFileName } pre).1, some err) := by
    rw [Generate_eq env dcp dir amFileName am hf hp, hsplit, hrun]
  have hfr := generateChunks_frame env dir
    { dcp with RootDir := dir, assetMapFile := env.Base amFileName } pre
  have hpair : generateChunks env dir
      { dcp with RootDir := dir, assetMapFile := env.Base amFileName } pre =
      ((generateChunks env dir
        { dcp with RootDir := dir, assetMapFile := env.Base amFileName } pre).1, none) := by
    rw [← hnone]
  obtain ⟨_, hcs, hks⟩ := generateChunks_ok env dir _ _ pre hpair
  refine ⟨hstep, ?_, ?_, ?_, ?_, ?_, ?_, ?_⟩
  · rw [hgen]
  · rw [hgen]
    exact hfr.1
  · rw [hgen]
    exact hfr.2.1
  · rw [hgen]
    exact hfr.2.2.1
  · rw [hgen]
    exact hcs
  · rw [hgen]
    exact hks
  · intro env2 hJ hB hA hC hP hnd hnf hnc
    have hf2 : findAssetMap env2 dir = .ok amFileName := by
      rw [← findAssetMap_congr env env2 dir hJ hnd]
      exact hf
    have hp2 : ParseAssetMapFile env2 amFileName = .ok am := by
      rw [← ParseAssetMapFile_congr env env2 amFileName hA hnf]
      exact hp
    have hpre2 : ∀ c2 ∈ pre, ∀ d, (generateChunk env2 dir d c2).2 = none := by
      intro c2 h2 d
      rw [← generateChunk_congr env env2 dir d c2 hJ hC hP
        (hnc c2 (List.mem_append_left _ h2))]
      exact hpre c2 h2 d
    have hfail2 : ∀ d, (generateChunk env2 dir d c).2 = some err := by
      intro d
      rw [← generateChunk_congr env env2 dir d c hJ hC hP
        (hnc c (List.mem_append_right _ (List.mem_singleton.mpr rfl)))]
      exact hfail d
    obtain ⟨hrun2, _⟩ := generateChunks_fail_at env2 dir
      { dcp with RootDir := dir, assetMapFile := env2.Base amFileName } pre post c err
      hpre2 hfail2
    rw [hgen, Generate_eq env2 dcp dir amFileName am hf2 hp2, hsplit, hrun2, ← hB,
      ← generateChunks_congr env env2 dir pre _ hJ hC hP
        (fun c2 h2 => hnc c2 (List.mem_append_left _ h2))]

end Dcp

namespace Dcp

/-- C23 applied to the directory `bad` of the example: the first chunk is a
CPL that parses, the second fails the size check. -/
theorem C23_fail_fast_state_witness :
    (DCP.Generate demoEnv DCP.empty "bad").2 =
      some (.new "File size forbad/x_pkl.xml is incorrect") ∧
    (DCP.Generate demoEnv DCP.empty "bad").1.RootDir = "bad" ∧
    (DCP.Generate demoEnv DCP.empty "bad").1.assetMapFile = demoEnv.Base "bad/assetmap.xml" ∧
    (DCP.Generate demoEnv DCP.empty "bad").1.AssetMap = DCP.empty.AssetMap ∧
    (DCP.Generate demoEnv DCP.empty "bad").1.CPLs.length = 1 ∧
    (DCP.Generate demoEnv DCP.empty "bad").1.PKLs = [] :=
  match C23_fail_fast_state demoEnv DCP.empty "bad" "bad/assetmap.xml"
      ⟨UNKNOWN, "am", "", 1, "", ⟨0⟩,
        [⟨"c", CPLAssetType, [⟨"x_cpl.xml", 21⟩]⟩, ⟨"p", PKLAssetType, [⟨"x_pkl.xml", 12⟩]⟩]⟩
      [⟨"x_cpl.xml", 21⟩] [] ⟨"x_pkl.xml", 12⟩
      (.new "File size forbad/x_pkl.xml is incorrect") rfl rfl rfl
      (fun c2 hc2 d => (generateChunk_err_indep demoEnv "bad" d DCP.empty c2).trans
        ((by decide : ∀ c3 ∈ [(⟨"x_cpl.xml", 21⟩ : Chunk)],
          (generateChunk demoEnv "bad" DCP.empty c3).2 = none) c2 hc2))
      (fun d => (generateChunk_err_indep demoEnv "bad" d DCP.empty ⟨"x_pkl.xml", 12⟩).trans
        (by decide)) with
  | ⟨_, h1, h2, h3, h4, _, _, _⟩ => ⟨h1, h2, h3, h4, by decide, by decide⟩

theorem map_ok_injective {ε α : Type} (l1 l2 : List α)
    (h : l1.map (Except.ok : α → Except ε α) = l2.map Except.ok) : l1 = l2 := by
  induction l1 generalizing l2 with
  | nil =>
    cases l2 with
    | nil => rfl
    | cons b l2 => simp at h
  | cons a l1 ih =>
    cases l2 with
    | nil => simp at h
    | cons b l2 =>
      simp only [List.map_cons, List.cons.injEq, Except.ok.injEq] at h
      rw [h.1, ih l2 h.2]

/-- A successful run of the loop appends lists that do not depend on the
receiver. -/
theorem generateChunks_appends (env : Env) (dir : String) (l : List Chunk) (d1 d2 : DCP)
    (h : generateChunks env dir d1 l = (d2, none)) :
    ∃ (newC : List CPL) (newP : List PKL),
      d2.CPLs = d1.CPLs ++ newC ∧ d2.PKLs = d1.PKLs ++ newP ∧
      newC.map (Except.ok : CPL → Except Err CPL) =
        (l.filter fun c => decide (assetType env (env.Join dir c.Path) = CPLAssetType)).map
          (fun c => ParseCPLFile env (env.Join dir c.Path)) ∧
      newP.map (Except.ok : PKL → Except Err PKL) =
        (l.filter fun c => decide (assetType env (env.Join dir c.Path) = PKLAssetType)).map
          (fun c => ParsePKLFile env (env.Join dir c.Path)) := by
  have hfr := generateChunks_frame env dir d1 l
  rw [h] at hfr
  obtain ⟨_, hc, hk⟩ := generateChunks_ok env dir d1 d2 l h
  obtain ⟨newC, hnc⟩ := hfr.2.2.2.1
  obtain ⟨newP, hnp⟩ := hfr.2.2.2.2
  refine ⟨newC, newP, hnc.symm, hnp.symm, ?_, ?_⟩
  · rw [← hnc, List.map_append] at hc
    exact List.append_cancel_left hc
  · rw [← hnp, List.map_append] at hk
    exact List.append_cancel_left hk

end Dcp

namespace Dcp

/-- C29: Generate appends to the lists of the receiver. After a successful
Generate on a receiver with the lists L and M, CPLs is L followed by the newly
parsed CPLs and PKLs is M followed by the newly parsed PKLs. A second Generate
on the resulting receiver and the same directory succeeds as well and appends
the same new lists once more, so that from empty lists both lists are doubled.
Generate is not idempotent: in the directory `good` of the example the second
call changes the receiver. -/
theorem C29_generate_appends (env : Env) (dcp dcp2 : DCP) (dir : String)
    (h : DCP.Generate env dcp dir = (dcp2, none)) :
    (∃ (newC : List CPL) (newP : List PKL) (amFileName : String) (am : AssetMap),
      findAssetMap env dir = .ok amFileName ∧ ParseAssetMapFile env amFileName = .ok am ∧
      newC.map (Except.ok : CPL → Except Err CPL) =
        ((am.Assets.flatMap AMAsset.Chunks).filter
          fun c => decide (assetType env (env.Join dir c.Path) = CPLAssetType)).map
          (fun c => ParseCPLFile env (env.Join dir c.Path)) ∧
      newP.map (Except.ok : PKL → Except Err PKL) =
        ((am.Assets.flatMap AMAsset.Chunks).filter
          fun c => decide (assetType env (env.Join dir c.Path) = PKLAssetType)).map
          (fun c => ParsePKLFile env (env.Join dir c.Path)) ∧
      dcp2.CPLs = dcp.CPLs ++ newC ∧ dcp2.PKLs = dcp.PKLs ++ newP ∧
      (DCP.Generate env dcp2 dir).2 = none ∧
      (DCP.Generate env dcp2 dir).1.CPLs = dcp.CPLs ++ newC ++ newC ∧
      (DCP.Generate env dcp2 dir).1.PKLs = dcp.PKLs ++ newP ++ newP ∧
      (dcp.CPLs = [] → (DCP.Generate env dcp2 dir).1.CPLs = dcp2.CPLs ++ dcp2.CPLs) ∧
      (dcp.PKLs = [] → (DCP.Generate env dcp2 dir).1.PKLs = dcp2.PKLs ++ dcp2.PKLs)) ∧
    (DCP.Generate demoEnv (DCP.Generate demoEnv DCP.empty "good").1 "good").1 ≠
      (DCP.Generate demoEnv DCP.empty "good").1 := by
  refine ⟨?_, by decide⟩
  obtain ⟨amFileName, am, d, hf, hp, hg, hd⟩ := Generate_ok_inv env dcp dcp2 dir h
  obtain ⟨newC, newP, hc1, hk1, hmc, hmp⟩ := generateChunks_appends env dir _ _ d hg
  have hc2 : dcp2.CPLs = dcp.CPLs ++ newC := by rw [hd]; exact hc1
  have hk2 : dcp2.PKLs = dcp.PKLs ++ newP := by rw [hd]; exact hk1
  have herr := generateChunks_err_indep env dir (am.Assets.flatMap AMAsset.Chunks)
    { dcp2 with RootDir := dir, assetMapFile := env.Base amFileName }
    { dcp with RootDir := dir, assetMapFile := env.Base amFileName }
  rw [hg] at herr
  rcases hg2 : generateChunks env dir
    { dcp2 with RootDir := dir, assetMapFile := env.Base amFileName }
    (am.Assets.flatMap AMAsset.Chunks) with ⟨d3, _ | e⟩
  · obtain ⟨newC2, newP2, hc3, hk3, hmc2, hmp2⟩ := generateChunks_appends env dir _ _ d3 hg2
    have hC : newC2 = newC := map_ok_injective _ _ (hmc2.trans hmc.symm)
    have hP : newP2 = newP := map_ok_injective _ _ (hmp2.trans hmp.symm)
    subst hC hP
    have hgen2 : DCP.Generate env dcp2 dir = ({ d3 with AssetMap := some am }, none) := by
      rw [Generate_eq env dcp2 dir amFileName am hf hp, hg2]
    have hc4 : (DCP.Generate env dcp2 dir).1.CPLs = dcp.CPLs ++ newC2 ++ newC2 := by
      rw [hgen2, ← hc2]
      exact hc3
    have hk4 : (DCP.Generate env dcp2 dir).1.PKLs = dcp.PKLs ++ newP2 ++ newP2 := by
      rw [hgen2, ← hk2]
      exact hk3
    refine ⟨newC2, newP2, amFileName, am, hf, hp, hmc, hmp, hc2, hk2, ?_, hc4, hk4, ?_, ?_⟩
    · rw [hgen2]
    · intro he
      rw [hc4, hc2, he]
      simp
    · intro he
      rw [hk4, hk2, he]
      simp
  · rw [hg2] at herr
    simp at herr

/-- C29 applied to the directory `good` of the example, from the empty
receiver: the first call leaves one CPL and one PKL, the second call two of
each. -/
theorem C29_generate_appends_witness :
    (DCP.Generate demoEnv DCP.empty "good").2 = none ∧
    (DCP.Generate demoEnv DCP.empty "good").1.CPLs.length = 1 ∧
    (DCP.Generate demoEnv (DCP.Generate demoEnv DCP.empty "good").1 "good").1.CPLs =
      (DCP.Generate demoEnv DCP.empty "good").1.CPLs ++
        (DCP.Generate demoEnv DCP.empty "good").1.CPLs ∧
    (DCP.Generate demoEnv (DCP.Generate demoEnv DCP.empty "good").1 "good").1.PKLs =
      (DCP.Generate demoEnv DCP.empty "good").1.PKLs ++
        (DCP.Generate demoEnv DCP.empty "good").1.PKLs :=
  ⟨by decide, by decide,
    match (C29_generate_appends demoEnv DCP.empty (DCP.Generate demoEnv DCP.empty "good").1
      "good" (by decide)).1 with
    | ⟨_, _, _, _, _, _, _, _, _, _, _, _, _, h1, _⟩ => h1 rfl,
    match (C29_generate_appends demoEnv DCP.empty (DCP.Generate demoEnv DCP.empty "good").1
      "good" (by decide)).1 with
    | ⟨_, _, _, _, _, _, _, _, _, _, _, _, _, _, h2⟩ => h2 rfl⟩

end Dcp

namespace Dcp

/-! ## The file name has no part in the parse decision -/

/-- The steps of the loop body for one file under two names: the size check
passes or fails alike, the sniff is the same, and the parses succeed alike
with the same value. -/
theorem steps_rename (env1 env2 : Env) (p1 p2 : String) (size : Nat)
    (hC : env1.unmarshalCPL = env2.unmarshalCPL) (hP : env1.unmarshalPKL = env2.unmarshalPKL)
    (hn : env1.node p1 = env2.node p2) :
    (checkFileSize env1 p1 size).isNone = (checkFileSize env2 p2 size).isNone ∧
    assetType env1 p1 = assetType env2 p2 ∧
    (ParseCPLFile env1 p1).toOption = (ParseCPLFile env2 p2).toOption ∧
    (ParsePKLFile env1 p1).toOption = (ParsePKLFile env2 p2).toOption := by
  refine ⟨?_, ?_, ?_, ?_⟩
  · simp only [checkFileSize, osStat, hn]
    rcases env2.node p2 with _ | ⟨content, readable⟩ | ⟨names, sz⟩
    · rfl
    · by_cases h : content.length = size <;> simp [h]
    · by_cases h : sz = size <;> simp [h]
  · simp only [assetType, readHeader, osOpen, hn]
    rcases env2.node p2 with _ | ⟨content, readable⟩ | ⟨names, sz⟩
    · rfl
    · cases readable
      · rfl
      · rfl
    · rfl
  · simp only [ParseCPLFile, ioutilReadFile, ParseCPL, hn, hC]
    rcases env2.node p2 with _ | ⟨content, readable⟩ | ⟨names, sz⟩
    · rfl
    · cases readable <;> rfl
    · rfl
  · simp only [ParsePKLFile, ioutilReadFile, ParsePKL, hn, hP]
    rcases env2.node p2 with _ | ⟨content, readable⟩ | ⟨names, sz⟩
    · rfl
    · cases readable <;> rfl
    · rfl

end Dcp

namespace Dcp

/-- What one pass of the loop body shows of itself: whether it returns an
error, and the two lists afterwards, as functions of the size check, the
sniff and the parses. -/
theorem generateChunk_obs (env : Env) (dir : String) (d : DCP) (c : Chunk) :
    (generateChunk env dir d c).2.isNone =
      ((checkFileSize env (env.Join dir c.Path) c.Size).isNone &&
        ((!decide (assetType env (env.Join dir c.Path) = CPLAssetType)) ||
          (ParseCPLFile env (env.Join dir c.Path)).toOption.isSome) &&
        ((!decide (assetType env (env.Join dir c.Path) = PKLAssetType)) ||
          (ParsePKLFile env (env.Join dir c.Path)).toOption.isSome)) ∧
    (generateChunk env dir d c).1.CPLs =
      d.CPLs ++
        (if (checkFileSize env (env.Join dir c.Path) c.Size).isNone &&
            decide (assetType env (env.Join dir c.Path) = CPLAssetType)
          then (ParseCPLFile env (env.Join dir c.Path)).toOption.toList else []) ∧
    (generateChunk env dir d c).1.PKLs =
      d.PKLs ++
        (if (checkFileSize env (env.Join dir c.Path) c.Size).isNone &&
            decide (assetType env (env.Join dir c.Path) = PKLAssetType)
          then (ParsePKLFile env (env.Join dir c.Path)).toOption.toList else []) := by
  rcases generateChunk_spec env dir d c with
    ⟨e, hs, hg⟩ | ⟨hs, ⟨ht, ⟨e, hp, hg⟩ | ⟨cpl, hp, hg⟩⟩ | ⟨ht, ⟨e, hp, hg⟩ | ⟨pkl, hp, hg⟩⟩ |
      ⟨ht1, ht2, hg⟩⟩
  · simp [hg, hs]
  · simp [hg, hs, ht, hp, Except.toOption]
  · simp [hg, hs, ht, hp, Except.toOption]
  · simp [hg, hs, ht, hp, Except.toOption]
  · simp [hg, hs, ht, hp, Except.toOption]
  · simp [hg, hs, ht1, ht2]

/-- One file under two names, from two receivers with the same lists: the
loop body returns an error for both or for neither, and leaves the same
lists. -/
theorem generateChunk_rename (env1 env2 : Env) (dir1 dir2 : String) (d1 d2 : DCP)
    (c1 c2 : Chunk)
    (hC : env1.unmarshalCPL = env2.unmarshalCPL) (hP : env1.unmarshalPKL = env2.unmarshalPKL)
    (hn : env1.node (env1.Join dir1 c1.Path) = env2.node (env2.Join dir2 c2.Path))
    (hs : c1.Size = c2.Size) (hc : d1.CPLs = d2.CPLs) (hk : d1.PKLs = d2.PKLs) :
    (generateChunk env1 dir1 d1 c1).2.isNone = (generateChunk env2 dir2 d2 c2).2.isNone ∧
    (generateChunk env1 dir1 d1 c1).1.CPLs = (generateChunk env2 dir2 d2 c2).1.CPLs ∧
    (generateChunk env1 dir1 d1 c1).1.PKLs = (generateChunk env2 dir2 d2 c2).1.PKLs := by
  obtain ⟨a1, a2, a3⟩ := generateChunk_obs env1 dir1 d1 c1
  obtain ⟨b1, b2, b3⟩ := generateChunk_obs env2 dir2 d2 c2
  obtain ⟨h1, h2, h3, h4⟩ := steps_rename env1 env2 (env1.Join dir1 c1.Path)
    (env2.Join dir2 c2.Path) c1.Size hC hP hn
  rw [a1, a2, a3, b1, b2, b3, h1, h2, h3, h4, hs, hc, hk]
  exact ⟨rfl, rfl, rfl⟩

theorem generateChunks_rename (env1 env2 : Env) (dir1 dir2 : String)
    (hC : env1.unmarshalCPL = env2.unmarshalCPL) (hP : env1.unmarshalPKL = env2.unmarshalPKL)
    (l1 l2 : List Chunk)
    (hl : List.Forall₂ (fun c1 c2 : Chunk => c1.Size = c2.Size ∧
      env1.node (env1.Join dir1 c1.Path) = env2.node (env2.Join dir2 c2.Path)) l1 l2)
    (d1 d2 : DCP) (hc : d1.CPLs = d2.CPLs) (hk : d1.PKLs = d2.PKLs) :
    (generateChunks env1 dir1 d1 l1).2.isNone = (generateChunks env2 dir2 d2 l2).2.isNone ∧
    (generateChunks env1 dir1 d1 l1).1.CPLs = (generateChunks env2 dir2 d2 l2).1.CPLs ∧
    (generateChunks env1 dir1 d1 l1).1.PKLs = (generateChunks env2 dir2 d2 l2).1.PKLs := by
  induction hl generalizing d1 d2 with
  | nil => exact ⟨rfl, hc, hk⟩
  | @cons c1 c2 t1 t2 hhead _ ih =>
    obtain ⟨r1, r2, r3⟩ := generateChunk_rename env1 env2 dir1 dir2 d1 d2 c1 c2 hC hP
      hhead.2 hhead.1 hc hk
    rw [generateChunks, generateChunks]
    rcases hg1 : generateChunk env1 dir1 d1 c1 with ⟨a1, _ | e1⟩ <;>
      rcases hg2 : generateChunk env2 dir2 d2 c2 with ⟨a2, _ | e2⟩ <;>
      rw [hg1, hg2] at r1 r2 r3
    · exact ih a1 a2 r2 r3
    · simp at r1
    · simp at r1
    · exact ⟨rfl, r2, r3⟩

end Dcp

namespace Dcp

/-- The loop body in terms of the size check and the header alone: the name
of the chunk enters only through the path at which the file is read. -/
theorem generateChunk_by_header (env : Env) (dir : String) (d : DCP) (c : Chunk) :
    generateChunk env dir d c =
      match checkFileSize env (env.Join dir c.Path) c.Size with
      | some err => (d, some err)
      | none =>
        match readHeader env (env.Join dir c.Path) with
        | (_, some _) => (d, none)
        | (data, none) =>
          if bytesContains data (bytesOfString "PackingList") then
            match ParsePKLFile env (env.Join dir c.Path) with
            | .error err => (d, some err)
            | .ok pkl => ({ d with PKLs := d.PKLs ++ [pkl] }, none)
          else if bytesContains data (bytesOfString "CompositionPlaylist") then
            match ParseCPLFile env (env.Join dir c.Path) with
            | .error err => (d, some err)
            | .ok cpl => ({ d with CPLs := d.CPLs ++ [cpl] }, none)
          else (d, none) := by
  cases hs : checkFileSize env (env.Join dir c.Path) c.Size with
  | some err => simp [generateChunk, hs]
  | none =>
    rcases hr : readHeader env (env.Join dir c.Path) with ⟨data, _ | e⟩
    · have ht := assetType_of_header env _ data hr
      by_cases h1 : bytesContains data (bytesOfString "PackingList") = true
      · rw [if_pos h1] at ht
        simp only [generateChunk, hs, ht, h1, if_true]
        cases ParsePKLFile env (env.Join dir c.Path) <;> simp [PKLAssetType, CPLAssetType]
      · rw [if_neg h1] at ht
        by_cases h2 : bytesContains data (bytesOfString "CompositionPlaylist") = true
        · rw [if_pos h2] at ht
          simp only [generateChunk, hs, ht, h1, h2, if_true]
          cases ParseCPLFile env (env.Join dir c.Path) <;> simp [PKLAssetType, CPLAssetType]
        · rw [if_neg h2] at ht
          have h3 : assetType env (env.Join dir c.Path) ≠ CPLAssetType := by
            rw [ht]; split <;> decide
          have h4 : assetType env (env.Join dir c.Path) ≠ PKLAssetType := by
            rw [ht]; split <;> decide
          simp [generateChunk, hs, h1, h2, h3, h4]
    · have ht := assetType_of_read_error env _ data e hr
      simp [generateChunk, hs, ht, UnknownAssetType, PKLAssetType, CPLAssetType]

end Dcp

namespace Dcp

/-- C19: content sniffing overrides the guess made from the manifest. Take
two runs of Generate, each with an asset map that was found and parsed, such
that the chunks of the two asset maps, in document order, have pairwise the
same declared size and name the same file content; the chunk names, the
directories, the PackingList flags and the guessed types are free. First,
in either run the loop body is a function of the size check and the header
of the chunk's file: after a passed size check, a header that cannot be read
gives no parse and no error, a header that contains "PackingList" gives the
PKL parse, a header without it that contains "CompositionPlaylist" gives the
CPL parse, and any other header gives no parse and no error, whatever the
name of the chunk is. Second, both runs fail or both succeed, and they leave
the same CPLs and PKLs. Third, when the two runs also use the same directory
and the same chunk names, they return the same error. -/
theorem C19_sniff_overrides_guess (env1 env2 : Env) (dcp : DCP) (dir1 dir2 f1 f2 : String)
    (am1 am2 : AssetMap)
    (hC : env1.unmarshalCPL = env2.unmarshalCPL) (hP : env1.unmarshalPKL = env2.unmarshalPKL)
    (hf1 : findAssetMap env1 dir1 = .ok f1) (hp1 : ParseAssetMapFile env1 f1 = .ok am1)
    (hf2 : findAssetMap env2 dir2 = .ok f2) (hp2 : ParseAssetMapFile env2 f2 = .ok am2)
    (hfiles : List.Forall₂
      (fun c1 c2 : Chunk => c1.Size = c2.Size ∧
        env1.node (env1.Join dir1 c1.Path) = env2.node (env2.Join dir2 c2.Path))
      (am1.Assets.flatMap AMAsset.Chunks) (am2.Assets.flatMap AMAsset.Chunks)) :
    (∀ (env : Env) (dir : String) (d : DCP) (c : Chunk),
      generateChunk env dir d c =
        match checkFileSize env (env.Join dir c.Path) c.Size with
        | some err => (d, some err)
        | none =>
          match readHeader env (env.Join dir c.Path) with
          | (_, some _) => (d, none)
          | (data, none) =>
            if bytesContains data (bytesOfString "PackingList") then
              match ParsePKLFile env (env.Join dir c.Path) with
              | .error err => (d, some err)
              | .ok pkl => ({ d with PKLs := d.PKLs ++ [pkl] }, none)
            else if bytesContains data (bytesOfString "CompositionPlaylist") then
              match ParseCPLFile env (env.Join dir c.Path) with
              | .error err => (d, some err)
              | .ok cpl => ({ d with CPLs := d.CPLs ++ [cpl] }, none)
            else (d, none)) ∧
    ((DCP.Generate env1 dcp dir1).2 = none ↔ (DCP.Generate env2 dcp dir2).2 = none) ∧
    (DCP.Generate env1 dcp dir1).1.CPLs = (DCP.Generate env2 dcp dir2).1.CPLs ∧
    (DCP.Generate env1 dcp dir1).1.PKLs = (DCP.Generate env2 dcp dir2).1.PKLs ∧
    (dir1 = dir2 → env1.Join = env2.Join →
      am1.Assets.flatMap AMAsset.Chunks = am2.Assets.flatMap AMAsset.Chunks →
      (DCP.Generate env1 dcp dir1).2 = (DCP.Generate env2 dcp dir2).2) := by
  obtain ⟨r1, r2, r3⟩ := generateChunks_rename env1 env2 dir1 dir2 hC hP _ _ hfiles
    { dcp with RootDir := dir1, assetMapFile := env1.Base f1 }
    { dcp with RootDir := dir2, assetMapFile := env2.Base f2 } rfl rfl
  rw [Generate_eq env1 dcp dir1 f1 am1 hf1 hp1, Generate_eq env2 dcp dir2 f2 am2 hf2 hp2]
  refine ⟨fun env dir d c => generateChunk_by_header env dir d c, ?_, ?_, ?_, ?_⟩
  · rcases hg1 : generateChunks env1 dir1
        { dcp with RootDir := dir1, assetMapFile := env1.Base f1 }
        (am1.Assets.flatMap AMAsset.Chunks) with ⟨a1, _ | e1⟩ <;>
      rcases hg2 : generateChunks env2 dir2
        { dcp with RootDir := dir2, assetMapFile := env2.Base f2 }
        (am2.Assets.flatMap AMAsset.Chunks) with ⟨a2, _ | e2⟩ <;>
      rw [hg1, hg2] at r1 <;> simp at r1 ⊢
  · rcases hg1 : generateChunks env1 dir1
        { dcp with RootDir := dir1, assetMapFile := env1.Base f1 }
        (am1.Assets.flatMap AMAsset.Chunks) with ⟨a1, _ | e1⟩ <;>
      rcases hg2 : generateChunks env2 dir2
        { dcp with RootDir := dir2, assetMapFile := env2.Base f2 }
        (am2.Assets.flatMap AMAsset.Chunks) with ⟨a2, _ | e2⟩ <;>
      rw [hg1, hg2] at r2 <;> exact r2
  · rcases hg1 : generateChunks env1 dir1
        { dcp with RootDir := dir1, assetMapFile := env1.Base f1 }
        (am1.Assets.flatMap AMAsset.Chunks) with ⟨a1, _ | e1⟩ <;>
      rcases hg2 : generateChunks env2 dir2
        { dcp with RootDir := dir2, assetMapFile := env2.Base f2 }
        (am2.Assets.flatMap AMAsset.Chunks) with ⟨a2, _ | e2⟩ <;>
      rw [hg1, hg2] at r3 <;> exact r3
  · intro hd hJ hl
    subst hd
    rw [← hl] at hfiles ⊢
    have hn : ∀ c ∈ am1.Assets.flatMap AMAsset.Chunks,
        env1.node (env1.Join dir1 c.Path) = env2.node (env1.Join dir1 c.Path) := by
      intro c hc
      have h := (List.forall₂_same.mp hfiles c hc).2
      rwa [← hJ] at h
    obtain ⟨s1, _, _⟩ := generateChunks_rel env1 env2 dir1 (am1.Assets.flatMap AMAsset.Chunks)
      { dcp with RootDir := dir1, assetMapFile := env1.Base f1 }
      { dcp with RootDir := dir1, assetMapFile := env2.Base f2 } hJ hC hP hn rfl rfl
    rcases hg1 : generateChunks env1 dir1
        { dcp with RootDir := dir1, assetMapFile := env1.Base f1 }
        (am1.Assets.flatMap AMAsset.Chunks) with ⟨a1, _ | e1⟩ <;>
      rcases hg2 : generateChunks env2 dir1
        { dcp with RootDir := dir1, assetMapFile := env2.Base f2 }
        (am1.Assets.flatMap AMAsset.Chunks) with ⟨a2, _ | e2⟩ <;>
      rw [hg1, hg2] at s1 <;> simp at s1 ⊢
    exact s1

end Dcp

namespace Dcp

set_option maxRecDepth 100000 in
/-- C19 applied to the directories `pkg` and `ren`, which hold the same four
files under different names. The asset map of `ren` guesses PKL for the
composition playlist `a.mxf`, CPL for the packing list `b_cpl.xml`, nothing
for the picture track `c.txt` and PKL for the text file `d_pkl.xml`. Both
runs succeed with the same CPLs and PKLs: `a.mxf` is parsed as a CPL,
`b_cpl.xml` as a PKL, and the other two files are not parsed. -/
theorem C19_sniff_overrides_guess_witness :
    pkgParsed.Assets.map AMAsset.Typ =
      [CPLAssetType, PKLAssetType, MXFAssetType, UnknownAssetType] ∧
    renParsed.Assets.map AMAsset.Typ =
      [PKLAssetType, CPLAssetType, UnknownAssetType, PKLAssetType] ∧
    (DCP.Generate pkgEnv DCP.empty "pkg").2 = none ∧
    (DCP.Generate pkgEnv DCP.empty "ren").2 = none ∧
    (DCP.Generate pkgEnv DCP.empty "pkg").1.CPLs = (DCP.Generate pkgEnv DCP.empty "ren").1.CPLs ∧
    (DCP.Generate pkgEnv DCP.empty "pkg").1.PKLs = (DCP.Generate pkgEnv DCP.empty "ren").1.PKLs ∧
    (DCP.Generate pkgEnv DCP.empty "ren").1.CPLs.map CPL.ID = ["c"] ∧
    (DCP.Generate pkgEnv DCP.empty "ren").1.PKLs.map PKL.ID = ["p"] ∧
    (generateChunk pkgEnv "ren" DCP.empty ⟨"a.mxf", 288⟩).1.CPLs.map CPL.ID = ["c"] ∧
    (generateChunk pkgEnv "ren" DCP.empty ⟨"b_cpl.xml", 346⟩).1.PKLs.map PKL.ID = ["p"] ∧
    generateChunk pkgEnv "ren" DCP.empty ⟨"b_cpl.xml", 346⟩ =
      (match ParsePKLFile pkgEnv "ren/b_cpl.xml" with
      | .error err => (DCP.empty, some err)
      | .ok pkl => ({ DCP.empty with PKLs := DCP.empty.PKLs ++ [pkl] }, none)) ∧
    generateChunk pkgEnv "ren" DCP.empty ⟨"c.txt", 29⟩ = (DCP.empty, none) ∧
    generateChunk pkgEnv "ren" DCP.empty ⟨"d_pkl.xml", 2⟩ = (DCP.empty, none) :=
  match C19_sniff_overrides_guess pkgEnv pkgEnv DCP.empty "pkg" "ren" "pkg/ASSETMAP"
      "ren/ASSETMAP" pkgParsed renParsed rfl rfl rfl rfl rfl rfl
      (List.Forall₂.cons ⟨rfl, rfl⟩ (List.Forall₂.cons ⟨rfl, rfl⟩
        (List.Forall₂.cons ⟨rfl, rfl⟩ (List.Forall₂.cons ⟨rfl, rfl⟩ List.Forall₂.nil)))) with
  | ⟨h0, h1, h2, h3, _⟩ =>
    ⟨by decide, by decide, by decide, h1.mp (by decide), h2, h3, by decide, by decide,
      by decide, by decide, (h0 pkgEnv "ren" DCP.empty ⟨"b_cpl.xml", 346⟩).trans rfl,
      (h0 pkgEnv "ren" DCP.empty ⟨"c.txt", 29⟩).trans (by decide),
      (h0 pkgEnv "ren" DCP.empty ⟨"d_pkl.xml", 2⟩).trans (by decide)⟩

end Dcp
